import Mathlib

/-!
# Smart Roads: the real-time client (`assets/js/realtime.js`), the offline
cache worker (`assets/js/service-worker.js`) and the searches of the modules

A shallow embedding of `class RealtimeCommunicator`: the reconnecting socket
client with its in-memory outgoing queue, the durable `pending_messages` list
kept in `localStorage`, the back-off reconnection timers, the subscription map,
the dispatch of incoming messages and the teardown; of the `install`,
`activate`, `fetch` and `sync` handlers of the service worker; of the traffic
figures of `assets/js/maps.js`; and of route planning, delay reports and
ambulance dispatch in `modules/delivery.js` and `modules/emergency.js`.

Conventions of the embedding.

* The object's fields are the fields of the structure `RealtimeCommunicator`,
  under the names of the source.  What the browser holds for the object (the
  `localStorage` entry, the frames handed to `socket.send`, the intervals of
  `setInterval` with their ids, the pending `setTimeout` callbacks, sockets
  that were replaced before they closed) are further fields of the same
  structure.
* `Date.now()` is an argument `now` of the operations that read the clock.
* The operations of the queue are given twice.  `sendRaw`, `storeMessageOffline`
  and `send` are the operations on a platform where `JSON.stringify`,
  `JSON.parse` and `localStorage.setItem` do not throw: messages are JSON data
  and `JSON.parse (JSON.stringify m) = m`.  `Platform.sendRaw`,
  `Platform.storeMessageOffline` and `Platform.send` are the same operations
  with each of these calls throwing when the platform says so; they return
  what the former return whenever nothing throws.
* A JavaScript number that is `NaN` is `none`: the speed computed from a
  property that is `undefined`, the distance that the haversine formula gives
  when rounding takes its sum above 1.
* `reconnectDelay` is a JavaScript number.  Every value it takes from `1000`
  is a dyadic rational with a small numerator (`1000`, `1500`, `2250`, `3375`,
  `5062.5`, `7593.75`, `10000`), which a double holds exactly, so the field is
  a rational number here and `* 1.5` is exact.
-/

namespace SmartRoads

/-- The `readyState` of a `WebSocket`. -/
inductive ReadyState
  | CONNECTING
  | OPEN
  | CLOSING
  | CLOSED
  deriving DecidableEq, Repr

/-- An outgoing message, of the JSON shape `{type, topic?, payload?, clientId?, timestamp?}`. -/
structure Message where
  type : String
  topic : Option String
  payload : Option String
  clientId : Option String
  timestamp : Option Nat
  deriving DecidableEq, Repr

/-- An entry of the durable list: `{message, timestamp, attempts}`. -/
structure PendingItem where
  message : Message
  timestamp : Nat
  attempts : Nat
  deriving DecidableEq, Repr

/-- What `initWebSocket` meets: no `WebSocket` in `window`, a constructor that
throws, or a socket that is created (and is then connecting). -/
inductive WebSocketSupport
  | unsupported
  | throws
  | created
  deriving DecidableEq, Repr

/-- What an interval of the client calls at each period. -/
inductive IntervalTask
  | sendHeartbeat
  | pollForUpdates
  | processMessageQueue
  deriving DecidableEq, Repr

/-- An interval scheduled with `setInterval`: its id, what it calls and its
period in milliseconds. -/
structure Interval where
  id : Nat
  task : IntervalTask
  period : Nat
  deriving DecidableEq, Repr

/-- The state of a `RealtimeCommunicator` and of the browser objects it drives. -/
structure RealtimeCommunicator where
  /-- `this.socket`, as its `readyState`; `none` is `null`. -/
  socket : Option ReadyState
  connected : Bool
  reconnectAttempts : Nat
  maxReconnectAttempts : Nat
  reconnectDelay : ℚ
  /-- `this.subscriptions`: topics in insertion order, each with its set of callbacks. -/
  subscriptions : List (String × List Nat)
  messageQueue : List Message
  /-- `this.heartbeatInterval`: the id that `setInterval` returned; `none` is `undefined`. -/
  heartbeatInterval : Option Nat
  /-- `this.pollingInterval`: the id that `setInterval` returned; `none` is `undefined`. -/
  pollingInterval : Option Nat
  /-- The intervals that the window has scheduled and not cleared, oldest first. -/
  intervals : List Interval
  /-- How many ids `setInterval` has handed out; the next one is `timerIds + 1`. -/
  timerIds : Nat
  /-- `localStorage['pending_messages']`, parsed. -/
  pending_messages : List PendingItem
  /-- `localStorage['smartroads_client_id']`. -/
  clientId : String
  /-- The messages handed to `socket.send`, oldest first. -/
  transmitted : List Message
  /-- The reconnect callbacks waiting in `setTimeout`, each with its delay. -/
  reconnectTimers : List ℚ
  /-- Sockets replaced by a newer one before they closed; their handlers are still attached. -/
  staleSockets : Nat
  /-- Every delay `onclose` has passed to `setTimeout`, oldest first. -/
  scheduledDelays : List ℚ
  /-- How many times a reconnect callback has called `initWebSocket`. -/
  autoReconnects : Nat

/-- `setInterval(task, period)`: schedules the interval and returns its id, a
positive integer that no earlier timer of the window had.  The timeouts of
`onclose` take their ids from the same pool; the client keeps none of them and
an id is not handed out twice, so they are not counted here. -/
def setInterval (c : RealtimeCommunicator) (task : IntervalTask) (period : Nat) :
    RealtimeCommunicator × Nat :=
  ({ c with
      intervals := c.intervals ++ [{ id := c.timerIds + 1, task := task, period := period }]
      timerIds := c.timerIds + 1 },
    c.timerIds + 1)

/-- `clearInterval(id)`: the interval of that id, when one is scheduled, is
cancelled; any other id is ignored. -/
def clearInterval (c : RealtimeCommunicator) (id : Nat) : RealtimeCommunicator :=
  { c with intervals := c.intervals.filter fun interval => decide (interval.id ≠ id) }

/-- The test `if (this.heartbeatInterval)` on a field that holds a timer id:
`undefined` and `0` fail it. -/
def isSet : Option Nat → Bool
  | some (_ + 1) => true
  | _ => false

/-- `sendRaw(message)`: hands the message to the socket when it is open.  This
is the call on a platform where `JSON.stringify` does not throw;
`Platform.sendRaw` is the call on any platform. -/
def sendRaw (c : RealtimeCommunicator) (message : Message) : RealtimeCommunicator × Bool :=
  if c.socket = some ReadyState.OPEN then
    ({ c with transmitted := c.transmitted ++ [message] }, true)
  else
    (c, false)

/-- `storeMessageOffline(message)`: pushes an entry on the durable list and
keeps the last 100 (`splice(0, length - 100)`).  The count it then posts to
the service worker is not part of the state.  This is the call on a platform
where `JSON.parse`, `JSON.stringify` and `localStorage.setItem` do not throw;
`Platform.storeMessageOffline` is the call on any platform. -/
def storeMessageOffline (c : RealtimeCommunicator) (now : Nat) (message : Message) :
    RealtimeCommunicator :=
  let pendingMessages := c.pending_messages ++ [{ message := message, timestamp := now, attempts := 0 }]
  let pendingMessages :=
    if pendingMessages.length > 100 then pendingMessages.drop (pendingMessages.length - 100)
    else pendingMessages
  { c with pending_messages := pendingMessages }

/-- `send(message)`, on a platform where no call inside it throws;
`Platform.send` is the call on any platform. -/
def send (c : RealtimeCommunicator) (now : Nat) (message : Message) : RealtimeCommunicator × Bool :=
  if !c.connected then
    (storeMessageOffline { c with messageQueue := c.messageQueue ++ [message] } now message, false)
  else
    let r := sendRaw c message
    if !r.2 then
      (storeMessageOffline { r.1 with messageQueue := r.1.messageQueue ++ [message] } now message, r.2)
    else
      r

/-- What the calls made inside `send` that can throw do at one call of `send`.
None of them stands inside a `try` there. -/
structure Platform where
  /-- `JSON.stringify` rejects the message (its payload holds a cycle or a
  `BigInt`): a `TypeError`. -/
  stringifyThrows : Message → Bool
  /-- The text stored under `pending_messages` is not the JSON of an array, so
  that `JSON.parse`, or the `push` on what it returns, throws; the field
  `pending_messages` of the state is then not read. -/
  parseThrows : Bool
  /-- `localStorage.setItem` throws: the quota is exceeded. -/
  setItemThrows : Bool

/-- How a call that may throw ends, with the state it leaves behind. -/
inductive Completion (α : Type)
  | returned (c : RealtimeCommunicator) (value : α)
  | threw (c : RealtimeCommunicator) (error : String)

/-- The name of the error thrown, when the call threw. -/
def Completion.error? {α : Type} : Completion α → Option String
  | Completion.returned _ _ => none
  | Completion.threw _ error => some error

/-- The state in which the call ended. -/
def Completion.state {α : Type} : Completion α → RealtimeCommunicator
  | Completion.returned c _ => c
  | Completion.threw c _ => c

/-- `sendRaw(message)` on the platform: `JSON.stringify(message)` is evaluated
only when the socket is open, before `socket.send`. -/
def Platform.sendRaw (p : Platform) (c : RealtimeCommunicator) (message : Message) :
    Completion Bool :=
  if c.socket = some ReadyState.OPEN then
    if p.stringifyThrows message then Completion.threw c "TypeError"
    else Completion.returned { c with transmitted := c.transmitted ++ [message] } true
  else
    Completion.returned c false

/-- `storeMessageOffline(message)` on the platform: `JSON.parse` of the stored
text, the push and the trim, `JSON.stringify` of the list (whose older entries
came out of `JSON.parse`, so that it throws exactly when the message is
rejected), then `localStorage.setItem`; the storage is written by that last
call only. -/
def Platform.storeMessageOffline (p : Platform) (c : RealtimeCommunicator) (now : Nat)
    (message : Message) : Completion Unit :=
  if p.parseThrows then Completion.threw c "SyntaxError"
  else
    let pendingMessages := c.pending_messages ++ [{ message := message, timestamp := now, attempts := 0 }]
    let pendingMessages :=
      if pendingMessages.length > 100 then pendingMessages.drop (pendingMessages.length - 100)
      else pendingMessages
    if p.stringifyThrows message then Completion.threw c "TypeError"
    else if p.setItemThrows then Completion.threw c "QuotaExceededError"
    else Completion.returned { c with pending_messages := pendingMessages } ()

/-- `send(message)` on the platform: what a call inside throws passes through
`send` to its caller, after the push on `this.messageQueue` when the throw is
in `storeMessageOffline`. -/
def Platform.send (p : Platform) (c : RealtimeCommunicator) (now : Nat) (message : Message) :
    Completion Bool :=
  if !c.connected then
    match p.storeMessageOffline { c with messageQueue := c.messageQueue ++ [message] } now message with
    | Completion.returned c1 _ => Completion.returned c1 false
    | Completion.threw c1 error => Completion.threw c1 error
  else
    match p.sendRaw c message with
    | Completion.threw c1 error => Completion.threw c1 error
    | Completion.returned c1 sent =>
      if !sent then
        match p.storeMessageOffline { c1 with messageQueue := c1.messageQueue ++ [message] } now
            message with
        | Completion.returned c2 _ => Completion.returned c2 sent
        | Completion.threw c2 error => Completion.threw c2 error
      else
        Completion.returned c1 sent

/-- A platform on which none of these calls throws. -/
def reliablePlatform : Platform :=
  { stringifyThrows := fun _ => false, parseThrows := false, setItemThrows := false }

/-- A platform on which `localStorage.setItem` throws `QuotaExceededError`. -/
def fullStorage : Platform :=
  { stringifyThrows := fun _ => false, parseThrows := false, setItemThrows := true }

/-- A platform on which the text under `pending_messages` is not JSON. -/
def corruptStorage : Platform :=
  { stringifyThrows := fun _ => false, parseThrows := true, setItemThrows := false }

/-- A platform on which `JSON.stringify` rejects every message that carries a
payload. -/
def cyclicPayload : Platform :=
  { stringifyThrows := fun message => message.payload.isSome, parseThrows := false,
    setItemThrows := false }

/-- The `while (this.messageQueue.length > 0)` loop of `processMessageQueue`:
each turn shifts the head of the queue and passes it to `sendRaw`, whose
result is dropped.  The fuel is the number of turns allowed. -/
def drainQueue : Nat → RealtimeCommunicator → RealtimeCommunicator
  | 0, c => c
  | fuel + 1, c =>
    match c.messageQueue with
    | [] => c
    | message :: rest => drainQueue fuel (sendRaw { c with messageQueue := rest } message).1

/-- `processMessageQueue()`. -/
def processMessageQueue (c : RealtimeCommunicator) : RealtimeCommunicator :=
  if !c.connected || c.messageQueue.length = 0 then c
  else drainQueue c.messageQueue.length c

/-- The callback that `syncPendingUpdates` delays by `index * 100` ms.  `arr` is
the local array `pendingMessages`; each element carries the index at which its
object stood when the array was parsed, so that `item.attempts++` reaches the
object wherever it now stands. -/
def syncCallback (c : RealtimeCommunicator) (arr : List (Nat × PendingItem)) (index : Nat)
    (item : PendingItem) : RealtimeCommunicator × List (Nat × PendingItem) :=
  let r := sendRaw c item.message
  if r.2 then
    let arr1 := arr.eraseIdx index
    ({ r.1 with pending_messages := arr1.map Prod.snd }, arr1)
  else
    let arr1 := arr.map fun e =>
      if e.1 = index then (e.1, { e.2 with attempts := e.2.attempts + 1 }) else e
    if item.attempts + 1 > 3 then (r.1, arr1.eraseIdx index) else (r.1, arr1)

/-- The delayed callbacks of `syncPendingUpdates`, run in index order;
`socketAt index` is what `this.socket` is when callback `index` runs. -/
def syncTimeouts (socketAt : Nat → Option ReadyState) :
    List (Nat × PendingItem) → RealtimeCommunicator → List (Nat × PendingItem) →
      RealtimeCommunicator × List (Nat × PendingItem)
  | [], c, arr => (c, arr)
  | (index, item) :: rest, c, arr =>
    let r := syncCallback { c with socket := socketAt index } arr index item
    syncTimeouts socketAt rest r.1 r.2

/-- `syncPendingUpdates()`, with all of its delayed callbacks run. -/
def syncPendingUpdates (c : RealtimeCommunicator) (socketAt : Nat → Option ReadyState) :
    RealtimeCommunicator :=
  let pendingMessages := c.pending_messages.enum
  if pendingMessages.length > 0 && c.connected then
    (syncTimeouts socketAt pendingMessages c pendingMessages).1
  else
    c

/-- `initPolling()`: the new interval's id overwrites `this.pollingInterval`. -/
def initPolling (c : RealtimeCommunicator) : RealtimeCommunicator :=
  let r := setInterval { c with connected := true } IntervalTask.pollForUpdates 5000
  { r.1 with pollingInterval := some r.2 }

/-- A socket that has not closed yet. -/
def isLive : Option ReadyState → Bool
  | some ReadyState.CLOSED => false
  | none => false
  | _ => true

/-- `initWebSocket()`. -/
def initWebSocket (c : RealtimeCommunicator) (ws : WebSocketSupport) : RealtimeCommunicator :=
  match ws with
  | WebSocketSupport.unsupported => initPolling c
  | WebSocketSupport.throws => initPolling c
  | WebSocketSupport.created =>
    { c with
      socket := some ReadyState.CONNECTING
      staleSockets := c.staleSockets + (if isLive c.socket then 1 else 0) }

/-- The message `{type: 'subscribe', topic, clientId}`. -/
def subscribeMessage (topic clientId : String) : Message :=
  { type := "subscribe", topic := some topic, payload := none, clientId := some clientId,
    timestamp := none }

/-- `resubscribeAll()`. -/
def resubscribeAll (c : RealtimeCommunicator) (now : Nat) : RealtimeCommunicator :=
  c.subscriptions.foldl (fun acc entry => (send acc now (subscribeMessage entry.1 acc.clientId)).1) c

/-- The handler `socket.onopen`. -/
def onopen (c : RealtimeCommunicator) (now : Nat) : RealtimeCommunicator :=
  processMessageQueue (resubscribeAll { c with connected := true, reconnectAttempts := 0 } now)

/-- The handler `socket.onclose`. -/
def onclose (c : RealtimeCommunicator) : RealtimeCommunicator :=
  let c1 := { c with connected := false }
  if c1.reconnectAttempts < c1.maxReconnectAttempts then
    { c1 with
      reconnectTimers := c1.reconnectTimers ++ [c1.reconnectDelay]
      scheduledDelays := c1.scheduledDelays ++ [c1.reconnectDelay] }
  else
    c1

/-- The callback that `onclose` hands to `setTimeout`. -/
def reconnectCallback (c : RealtimeCommunicator) (ws : WebSocketSupport) : RealtimeCommunicator :=
  initWebSocket
    { c with
      reconnectAttempts := c.reconnectAttempts + 1
      reconnectDelay := min (c.reconnectDelay * 1.5) 10000
      autoReconnects := c.autoReconnects + 1 } ws

/-- The listener of the window's `online` event. -/
def ononline (c : RealtimeCommunicator) (ws : WebSocketSupport) : RealtimeCommunicator :=
  if !c.connected then initWebSocket c ws else c

/-- `startHeartbeat()`: the id of the 30-second interval is kept in
`this.heartbeatInterval`. -/
def startHeartbeat (c : RealtimeCommunicator) : RealtimeCommunicator :=
  let r := setInterval c IntervalTask.sendHeartbeat 30000
  { r.1 with heartbeatInterval := some r.2 }

/-- `startQueueProcessor()`: the id of the one-second interval is dropped. -/
def startQueueProcessor (c : RealtimeCommunicator) : RealtimeCommunicator :=
  (setInterval c IntervalTask.processMessageQueue 1000).1

/-- The constructor followed by `init()`: the first `initWebSocket`, then
`startHeartbeat` and `startQueueProcessor`; `stored` is what `localStorage`
holds under `pending_messages`. -/
def construct (ws : WebSocketSupport) (clientId : String) (stored : List PendingItem) :
    RealtimeCommunicator :=
  let c : RealtimeCommunicator :=
    { socket := none
      connected := false
      reconnectAttempts := 0
      maxReconnectAttempts := 5
      reconnectDelay := 1000
      subscriptions := []
      messageQueue := []
      heartbeatInterval := none
      pollingInterval := none
      intervals := []
      timerIds := 0
      pending_messages := stored
      clientId := clientId
      transmitted := []
      reconnectTimers := []
      staleSockets := 0
      scheduledDelays := []
      autoReconnects := 0 }
  startQueueProcessor (startHeartbeat (initWebSocket c ws))

/-- The first lines of `onAppBackground()` and of `onAppForeground()`: when
`this.heartbeatInterval` is set, that interval is cleared and a new one of the
given period takes its place in the field. -/
def resetHeartbeat (c : RealtimeCommunicator) (period : Nat) : RealtimeCommunicator :=
  if isSet c.heartbeatInterval then
    let r := setInterval (clearInterval c (c.heartbeatInterval.getD 0))
      IntervalTask.sendHeartbeat period
    { r.1 with heartbeatInterval := some r.2 }
  else c

/-- `onAppBackground()`: the heartbeat slows down to one minute. -/
def onAppBackground (c : RealtimeCommunicator) : RealtimeCommunicator :=
  resetHeartbeat c 60000

/-- `onAppForeground()`: the heartbeat is back at 30 seconds, then
`syncPendingUpdates()`; `socketAt index` is what `this.socket` is when the
delayed callback `index` runs. -/
def onAppForeground (c : RealtimeCommunicator) (socketAt : Nat → Option ReadyState) :
    RealtimeCommunicator :=
  syncPendingUpdates (resetHeartbeat c 30000) socketAt

/-- What can happen to the client. -/
inductive Event
  /-- `this.socket` opens. -/
  | socketOpen (now : Nat)
  /-- `this.socket` closes. -/
  | socketClose
  /-- A replaced socket opens. -/
  | staleOpen (now : Nat)
  /-- A replaced socket closes. -/
  | staleClose
  /-- The oldest pending reconnect timeout fires. -/
  | reconnectTimeout (ws : WebSocketSupport)
  /-- The window's `online` event. -/
  | online (ws : WebSocketSupport)
  /-- A call of `send`. -/
  | send (now : Nat) (message : Message)
  /-- The one-second sweep of `startQueueProcessor`. -/
  | queueSweep
  /-- The page comes to the foreground: `onAppForeground`, the delayed callbacks
  of its `syncPendingUpdates` all running before the next event. -/
  | foreground

/-- One event; an event that cannot happen in the state (a timeout when none
is pending, a close of a socket that is not live) leaves the state as it is. -/
def step (c : RealtimeCommunicator) : Event → RealtimeCommunicator
  | Event.socketOpen now =>
    if c.socket = some ReadyState.CONNECTING then
      onopen { c with socket := some ReadyState.OPEN } now
    else c
  | Event.socketClose =>
    if isLive c.socket then onclose { c with socket := some ReadyState.CLOSED } else c
  | Event.staleOpen now =>
    if 0 < c.staleSockets then onopen c now else c
  | Event.staleClose =>
    if 0 < c.staleSockets then onclose { c with staleSockets := c.staleSockets - 1 } else c
  | Event.reconnectTimeout ws =>
    match c.reconnectTimers with
    | [] => c
    | _ :: rest => reconnectCallback { c with reconnectTimers := rest } ws
  | Event.online ws => ononline c ws
  | Event.send now message => (send c now message).1
  | Event.queueSweep => processMessageQueue c
  | Event.foreground => onAppForeground c fun _ => c.socket

/-- A run of events, oldest first. -/
def run (c : RealtimeCommunicator) (events : List Event) : RealtimeCommunicator :=
  events.foldl step c

/-- Calls of `send`, oldest first, each with the clock it reads. -/
def sendAll (c : RealtimeCommunicator) (calls : List (Nat × Message)) : RealtimeCommunicator :=
  calls.foldl (fun acc call => (send acc call.1 call.2).1) c

/-- The heartbeat message with the given clock reading. -/
def heartbeat (now : Nat) (clientId : String) : Message :=
  { type := "heartbeat", topic := none, payload := none, clientId := some clientId,
    timestamp := some now }

/-- The last `n` elements of a list, as `splice(0, length - n)` leaves them. -/
def lastN {α : Type} (n : Nat) (l : List α) : List α :=
  l.drop (l.length - n)

/-- The durable entry that `storeMessageOffline` builds for a call of `send`. -/
def entryOf (call : Nat × Message) : PendingItem :=
  { message := call.2, timestamp := call.1, attempts := 0 }

/-- The client of a page on which the socket was created and has not opened:
disconnected, nothing queued, nothing stored. -/
def offlineClient : RealtimeCommunicator :=
  construct WebSocketSupport.created "client_1" []

/-- The calls `send(heartbeat 0), ..., send(heartbeat (n - 1))`, call `i` at clock `i`. -/
def heartbeatCalls (n : Nat) : List (Nat × Message) :=
  (List.range n).map fun i => (i, heartbeat i "client_1")

/-- A disconnected client whose durable list is full: it holds the entries of
`heartbeatCalls 100`. -/
def fullClient : RealtimeCommunicator :=
  { offlineClient with pending_messages := (heartbeatCalls 100).map entryOf }

/-- A traffic report, as `sendTrafficReport` builds it. -/
def trafficReport (now : Nat) (data : String) : Message :=
  { type := "traffic_report", topic := none, payload := some data, clientId := some "client_1",
    timestamp := some now }

/-- The client of a page without `WebSocket`: the constructor falls back to
polling, so `connected` is `true` and there is no socket. -/
def pollingClient : RealtimeCommunicator :=
  construct WebSocketSupport.unsupported "client_1" []

/-- A client that starts with two stored entries and whose socket has opened. -/
def syncClient : RealtimeCommunicator :=
  step (construct WebSocketSupport.created "client_1"
    [entryOf (1, heartbeat 1 "client_1"), entryOf (2, heartbeat 2 "client_1")])
    (Event.socketOpen 3)

/-- The part of the state that reconnection reads and writes. -/
structure ReconnectState where
  socket : Option ReadyState
  connected : Bool
  reconnectAttempts : Nat
  maxReconnectAttempts : Nat
  reconnectDelay : ℚ
  reconnectTimers : List ℚ
  staleSockets : Nat
  scheduledDelays : List ℚ
  autoReconnects : Nat

/-- The reconnection state of a client. -/
def reconnectState (c : RealtimeCommunicator) : ReconnectState :=
  { socket := c.socket
    connected := c.connected
    reconnectAttempts := c.reconnectAttempts
    maxReconnectAttempts := c.maxReconnectAttempts
    reconnectDelay := c.reconnectDelay
    reconnectTimers := c.reconnectTimers
    staleSockets := c.staleSockets
    scheduledDelays := c.scheduledDelays
    autoReconnects := c.autoReconnects }

/-- The socket closes and its reconnect timeout fires, with a socket created
each time: `n` connection attempts in a row that end in a close. -/
def failedAttempts : Nat → List Event
  | 0 => []
  | n + 1 => Event.socketClose :: Event.reconnectTimeout WebSocketSupport.created :: failedAttempts n

/-- What `onclose` does to the reconnection state. -/
def ReconnectState.onclose (r : ReconnectState) : ReconnectState :=
  if r.reconnectAttempts < r.maxReconnectAttempts then
    { r with
      connected := false
      reconnectTimers := r.reconnectTimers ++ [r.reconnectDelay]
      scheduledDelays := r.scheduledDelays ++ [r.reconnectDelay] }
  else
    { r with connected := false }

/-- What `initWebSocket` does to the reconnection state. -/
def ReconnectState.initWebSocket (r : ReconnectState) (ws : WebSocketSupport) : ReconnectState :=
  match ws with
  | WebSocketSupport.unsupported => { r with connected := true }
  | WebSocketSupport.throws => { r with connected := true }
  | WebSocketSupport.created =>
    { r with
      socket := some ReadyState.CONNECTING
      staleSockets := r.staleSockets + (if isLive r.socket then 1 else 0) }

/-- What one event does to the reconnection state; `step_reconnectState` shows
that this is the reconnection state of `step`. -/
def ReconnectState.step (r : ReconnectState) : Event → ReconnectState
  | Event.socketOpen _ =>
    if r.socket = some ReadyState.CONNECTING then
      { r with socket := some ReadyState.OPEN, connected := true, reconnectAttempts := 0 }
    else r
  | Event.socketClose =>
    if isLive r.socket then ReconnectState.onclose { r with socket := some ReadyState.CLOSED }
    else r
  | Event.staleOpen _ =>
    if 0 < r.staleSockets then { r with connected := true, reconnectAttempts := 0 } else r
  | Event.staleClose =>
    if 0 < r.staleSockets then ReconnectState.onclose { r with staleSockets := r.staleSockets - 1 }
    else r
  | Event.reconnectTimeout ws =>
    match r.reconnectTimers with
    | [] => r
    | _ :: rest =>
      ReconnectState.initWebSocket
        { r with
          reconnectTimers := rest
          reconnectAttempts := r.reconnectAttempts + 1
          reconnectDelay := min (r.reconnectDelay * 1.5) 10000
          autoReconnects := r.autoReconnects + 1 } ws
  | Event.online ws => if !r.connected then ReconnectState.initWebSocket r ws else r
  | Event.send _ _ => r
  | Event.queueSweep => r
  | Event.foreground => r

/-- The event is a socket opening, that is, a successful connection. -/
def Event.isOpen : Event → Bool
  | Event.socketOpen _ => true
  | Event.staleOpen _ => true
  | _ => false

/-- The event is the window's `online` event. -/
def Event.isOnline : Event → Bool
  | Event.online _ => true
  | _ => false

/-- The socket closes, the window's `online` event creates a second socket
while the first reconnect timeout is still pending, and from then on every
socket closes and every timeout fires, five times. -/
def onlineWhileTimerPending : List Event :=
  Event.socketClose :: Event.online WebSocketSupport.created :: failedAttempts 5

/-- The reconnection state of a client that has made `reconnectAttempts`
automatic attempts since `autoReconnects` stood at `start`, with no replaced
socket alive and either no reconnect timeout pending, or exactly one that a
socket scheduled when it closed. -/
def ReconnectState.chained (limit start : Nat) (r : ReconnectState) : Prop :=
  r.maxReconnectAttempts = limit ∧ r.staleSockets = 0 ∧
  r.autoReconnects = start + r.reconnectAttempts ∧
  ((r.reconnectTimers = [] ∧ r.reconnectAttempts ≤ limit) ∨
    (∃ d, r.reconnectTimers = [d] ∧ isLive r.socket = false ∧ r.reconnectAttempts < limit))

/-! ## The subscription map -/

/-- `Map.prototype.get` on `this.subscriptions`: the callback set under the topic. -/
def Subscriptions.get : List (String × List Nat) → String → Option (List Nat)
  | [], _ => none
  | (key, callbacks) :: rest, topic =>
    if key = topic then some callbacks else Subscriptions.get rest topic

/-- `Map.prototype.has`. -/
def Subscriptions.has (m : List (String × List Nat)) (topic : String) : Bool :=
  (Subscriptions.get m topic).isSome

/-- A method that changes the `Set` stored under the topic in place
(`this.subscriptions.get(topic).add(callback)`, `callbacks.delete(callback)`). -/
def Subscriptions.update :
    List (String × List Nat) → String → (List Nat → List Nat) → List (String × List Nat)
  | [], _, _ => []
  | (key, callbacks) :: rest, topic, f =>
    if key = topic then (key, f callbacks) :: rest
    else (key, callbacks) :: Subscriptions.update rest topic f

/-- `Map.prototype.delete`. -/
def Subscriptions.delete (m : List (String × List Nat)) (topic : String) :
    List (String × List Nat) :=
  m.filter fun entry => entry.1 ≠ topic

/-- `Set.prototype.add`: a callback already in the set is not added again. -/
def setAdd (callbacks : List Nat) (callback : Nat) : List Nat :=
  if callback ∈ callbacks then callbacks else callbacks ++ [callback]

/-- `Set.prototype.delete`. -/
def setDelete (callbacks : List Nat) (callback : Nat) : List Nat :=
  callbacks.filter fun other => other ≠ callback

/-- The message `{type: 'unsubscribe', topic, clientId}`. -/
def unsubscribeMessage (topic clientId : String) : Message :=
  { type := "unsubscribe", topic := some topic, payload := none, clientId := some clientId,
    timestamp := none }

/-- `unsubscribe(topic, callback)`. -/
def unsubscribe (c : RealtimeCommunicator) (now : Nat) (topic : String) (callback : Nat) :
    RealtimeCommunicator :=
  if Subscriptions.has c.subscriptions topic then
    let subscriptions := Subscriptions.update c.subscriptions topic fun s => setDelete s callback
    let callbacks := (Subscriptions.get subscriptions topic).getD []
    if callbacks.length = 0 then
      let c1 := { c with subscriptions := Subscriptions.delete subscriptions topic }
      if c1.connected then (send c1 now (unsubscribeMessage topic c1.clientId)).1 else c1
    else
      { c with subscriptions := subscriptions }
  else
    c

/-- `subscribe(topic, callback)`: the new state and the handle
`() => this.unsubscribe(topic, callback)` that the method returns. -/
def subscribe (c : RealtimeCommunicator) (now : Nat) (topic : String) (callback : Nat) :
    RealtimeCommunicator × (RealtimeCommunicator → Nat → RealtimeCommunicator) :=
  let created :=
    if !Subscriptions.has c.subscriptions topic then c.subscriptions ++ [(topic, [])]
    else c.subscriptions
  let c1 :=
    { c with subscriptions := Subscriptions.update created topic fun s => setAdd s callback }
  let c2 := if c1.connected then (send c1 now (subscribeMessage topic c1.clientId)).1 else c1
  (c2, fun later now1 => unsubscribe later now1 topic callback)

/-- A call of `subscribe` or of `unsubscribe`, with the clock it reads. -/
inductive SubscriptionCall
  | subscribe (now : Nat) (topic : String) (callback : Nat)
  | unsubscribe (now : Nat) (topic : String) (callback : Nat)

/-- The state after one call. -/
def SubscriptionCall.apply (c : RealtimeCommunicator) : SubscriptionCall → RealtimeCommunicator
  | SubscriptionCall.subscribe now topic callback =>
    (SmartRoads.subscribe c now topic callback).1
  | SubscriptionCall.unsubscribe now topic callback =>
    SmartRoads.unsubscribe c now topic callback

/-- The state after a sequence of calls, oldest first. -/
def callAll (c : RealtimeCommunicator) (calls : List SubscriptionCall) : RealtimeCommunicator :=
  calls.foldl SubscriptionCall.apply c

/-- What holds of the callback sets of a map the client can reach: none is
empty and none lists a callback twice. -/
def Subscriptions.Populated (m : List (String × List Nat)) : Prop :=
  ∀ (topic : String) (callbacks : List Nat),
    Subscriptions.get m topic = some callbacks → callbacks ≠ [] ∧ callbacks.Nodup

/-- A client whose map holds the topic `traffic` with an empty callback set. -/
def emptySetClient : RealtimeCommunicator :=
  { offlineClient with subscriptions := [("traffic", [])] }

/-! ## Incoming messages -/

/-- An incoming message `{type, topic, payload}`; `none` stands for a field that
is `undefined` or `null`. -/
structure IncomingMessage where
  type : String
  topic : Option String
  payload : Option String
  deriving DecidableEq, Repr

/-- What `handleIncomingMessage` does that can be observed. -/
inductive Effect
  /-- A built-in handler was entered with the payload. -/
  | builtin (handler : String) (payload : Option String)
  /-- A subscribed callback was called with the payload. -/
  | callback (callback : Nat) (payload : Option String)
  /-- The `catch` around a callback logged its exception. -/
  | consoleError (callback : Nat)
  /-- The event `realtime-<type>` was dispatched on the window. -/
  | dispatchEvent (type : String) (payload : Option String)
  deriving DecidableEq, Repr

/-- The effects of a call of `handleIncomingMessage` and whether it threw. -/
structure Handled where
  effects : List Effect
  threw : Bool
  deriving DecidableEq, Repr

/-- The built-in handler that the `switch` on `type` selects, and whether it
throws.  `handleTrafficUpdate` reads `data.severity`, `showEmergencyNotification`
reads `data.message` and `showSystemNotification` reads `data.title`, each a
`TypeError` on a payload that is `undefined` or `null`; `handleDeliveryUpdate`
calls `window.deliveryModule.handleRealtimeUpdate(data)` when the delivery
module is loaded, a method that `DeliveryModule` does not define;
`handleGroupUpdate` reads nothing of the payload; `pong` and every other type
have no handler. -/
def builtinHandler (deliveryModule : Bool) (data : IncomingMessage) : Option (String × Bool) :=
  if data.type = "traffic_update" then some ("handleTrafficUpdate", data.payload.isNone)
  else if data.type = "emergency_alert" then some ("handleEmergencyAlert", data.payload.isNone)
  else if data.type = "delivery_update" then some ("handleDeliveryUpdate", deliveryModule)
  else if data.type = "group_update" then some ("handleGroupUpdate", false)
  else if data.type = "system_notification" then
    some ("handleSystemNotification", data.payload.isNone)
  else none

/-- The loop `callbacks.forEach`: every callback is called inside a `try`, and
the exception of a callback that throws is logged; `throws callback` says
whether the callback throws on this payload.  A callback is taken not to
subscribe or unsubscribe while the loop runs. -/
def invokeCallbacks (throws : Nat → Bool) (payload : Option String) : List Nat → List Effect
  | [] => []
  | callback :: rest =>
    (if throws callback then [Effect.callback callback payload, Effect.consoleError callback]
      else [Effect.callback callback payload]) ++ invokeCallbacks throws payload rest

/-- `handleIncomingMessage(data)`: the built-in handler first, then the
callbacks subscribed to the topic (`topic &&` fails for `undefined`, `null`
and the empty string), then the custom event. -/
def handleIncomingMessage (c : RealtimeCommunicator) (deliveryModule : Bool)
    (throws : Nat → Bool) (data : IncomingMessage) : Handled :=
  match builtinHandler deliveryModule data with
  | some (handler, true) => { effects := [Effect.builtin handler data.payload], threw := true }
  | selected =>
    let entered :=
      match selected with
      | some (handler, _) => [Effect.builtin handler data.payload]
      | none => []
    let called :=
      match data.topic with
      | some topic =>
        if topic ≠ "" then
          match Subscriptions.get c.subscriptions topic with
          | some callbacks => invokeCallbacks throws data.payload callbacks
          | none => []
        else []
      | none => []
    { effects := entered ++ called ++ [Effect.dispatchEvent ("realtime-" ++ data.type) data.payload]
      threw := false }

/-- The callback and the payload of an effect that is a call of a callback. -/
def Effect.invocation : Effect → Option (Nat × Option String)
  | Effect.callback subscriber payload => some (subscriber, payload)
  | _ => none

/-- A client with callback 7 subscribed to the topic `traffic`. -/
def trafficSubscriber : RealtimeCommunicator :=
  (subscribe offlineClient 1 "traffic" 7).1

/-! ## The offline cache worker (`assets/js/service-worker.js`)

The handlers are promise chains; a handler is embedded as the function from
what the chain reads (the outcome of `fetch`, the caches, the clock) to what
holds once every promise of the chain has settled. -/

/-- The constant `CACHE_NAME`. -/
def CACHE_NAME : String := "smart-roads-v1.0.0"

/-- `String.prototype.startsWith`. -/
def startsWith (s searchString : String) : Bool :=
  searchString.toList.isPrefixOf s.toList

/-- Whether the characters `searchString` occur in a row somewhere in `s`. -/
def includesChars : List Char → List Char → Bool
  | [], searchString => searchString.isPrefixOf []
  | ch :: rest, searchString =>
    searchString.isPrefixOf (ch :: rest) || includesChars rest searchString

/-- `String.prototype.includes`. -/
def includes (s searchString : String) : Bool :=
  includesChars s.toList searchString.toList

/-- A URL, parsed: its origin (`scheme://host[:port]`) and what follows the
origin (path, query and fragment, from the first `/`). -/
structure URL where
  origin : String
  path : String
  deriving DecidableEq, Repr

/-- The URL as the string that `request.url` holds. -/
def URL.href (url : URL) : String :=
  url.origin ++ url.path

/-- The fields of a `Request` that the worker reads; `accept` is
`headers.get('Accept')`, `none` when the header is absent. -/
structure Request where
  method : String
  url : URL
  mode : String
  accept : Option String
  deriving DecidableEq, Repr

/-- The body of a `Response`: a text, or the text `JSON.stringify(object)` of an
object with string fields, kept as the object. -/
inductive Body
  | text (content : String)
  | json (fields : List (String × String))
  deriving DecidableEq, Repr

/-- `JSON.parse` of a body, as the fields of the object it yields. -/
def Body.parse : Body → Option (List (String × String))
  | Body.text _ => none
  | Body.json fields => some fields

/-- The value of a field of a parsed object. -/
def field : List (String × String) → String → Option String
  | [], _ => none
  | (key, value) :: rest, name => if key = name then some value else field rest name

/-- The fields of a `Response` that matter to the worker and its callers. -/
structure Response where
  status : Nat
  type : String
  contentType : Option String
  body : Body
  deriving DecidableEq, Repr

/-- `cache.match(url)` on one cache, a list of entries in insertion order. -/
def cacheMatch : List (String × Response) → String → Option Response
  | [], _ => none
  | (key, response) :: rest, url => if key = url then some response else cacheMatch rest url

/-- `cache.put(url, response)`. -/
def cachePut : List (String × Response) → String → Response → List (String × Response)
  | [], url, response => [(url, response)]
  | (key, old) :: rest, url, response =>
    if key = url then (key, response) :: rest else (key, old) :: cachePut rest url response

/-- `caches.match(url)`: the first match over the caches in creation order. -/
def cachesMatch : List (String × List (String × Response)) → String → Option Response
  | [], _ => none
  | (_, cache) :: rest, url =>
    match cacheMatch cache url with
    | some response => some response
    | none => cachesMatch rest url

/-- `caches.open(name).then(cache => cache.put(url, response))`; `caches.open`
creates the cache when there is none of that name. -/
def cachesOpenPut :
    List (String × List (String × Response)) → String → String → Response →
      List (String × List (String × Response))
  | [], name, url, response => [(name, [(url, response)])]
  | (key, cache) :: rest, name, url, response =>
    if key = name then (key, cachePut cache url response) :: rest
    else (key, cache) :: cachesOpenPut rest name url response

/-- What the cache called `name` holds under `url`. -/
def cachesOpenMatch : List (String × List (String × Response)) → String → String → Option Response
  | [], _, _ => none
  | (key, cache) :: rest, name, url =>
    if key = name then cacheMatch cache url else cachesOpenMatch rest name url

/-- `caches.keys()`. -/
def cachesKeys (storage : List (String × List (String × Response))) : List String :=
  storage.map Prod.fst

/-- `caches.delete(name)`. -/
def cachesDelete (storage : List (String × List (String × Response))) (name : String) :
    List (String × List (String × Response)) :=
  storage.filter fun entry => entry.1 ≠ name

/-- The `activate` listener: every name of `caches.keys()` other than
`CACHE_NAME` is passed to `caches.delete`. -/
def onactivate (storage : List (String × List (String × Response))) :
    List (String × List (String × Response)) :=
  (cachesKeys storage).foldl
    (fun remaining cacheName =>
      if cacheName ≠ CACHE_NAME then cachesDelete remaining cacheName else remaining)
    storage

/-- What the `fetch` listener did with the event. -/
inductive Responded
  /-- The listener returned without `event.respondWith`. -/
  | passThrough
  /-- `respondWith` was called and its promise resolved with the response. -/
  | response (response : Response)
  /-- `respondWith` was called and its promise rejected. -/
  | rejected
  deriving DecidableEq, Repr

/-- The outcome of one `fetch` event. -/
structure FetchHandled where
  responded : Responded
  /-- How many times the listener called `fetch`. -/
  networkFetches : Nat
  /-- The caches afterwards. -/
  caches : List (String × List (String × Response))
  deriving DecidableEq, Repr

/-- The response that the API branch builds when the network fails; `now` is
`new Date().toISOString()`. -/
def offlineApiResponse (now : String) : Response :=
  { status := 200
    type := "default"
    contentType := some "application/json"
    body := Body.json
      [("status", "offline"), ("message", "You are offline. Data may be outdated."),
        ("timestamp", now)] }

/-- `new Response('Offline')`. -/
def offlineFallbackResponse : Response :=
  { status := 200, type := "default", contentType := some "text/plain;charset=UTF-8",
    body := Body.text "Offline" }

/-- `new Response('Offline', { status: 503 })`. -/
def offlineUnavailableResponse : Response :=
  { status := 503, type := "default", contentType := some "text/plain;charset=UTF-8",
    body := Body.text "Offline" }

/-- The placeholder image of the static branch. -/
def offlineImageResponse : Response :=
  { status := 200
    type := "default"
    contentType := some "image/svg+xml"
    body := Body.text
      ("<svg xmlns=\"http://www.w3.org/2000/svg\" width=\"200\" height=\"150\" " ++
        "viewBox=\"0 0 200 150\"><rect width=\"200\" height=\"150\" fill=\"#f0f0f0\"/>" ++
        "<text x=\"100\" y=\"75\" text-anchor=\"middle\" fill=\"#666\" font-family=\"Arial\" " ++
        "font-size=\"14\">Image not available offline</text></svg>") }

/-- The `fetch` listener.  `origin` is `self.location.origin`, `network` the
outcome of `fetch(event.request)` (`none` when it rejects), `storage` the
caches when the event arrives. -/
def onfetch (origin now : String) (network : Option Response)
    (storage : List (String × List (String × Response))) (request : Request) : FetchHandled :=
  if request.method ≠ "GET" then
    { responded := Responded.passThrough, networkFetches := 0, caches := storage }
  else if !startsWith request.url.href origin then
    { responded := Responded.passThrough, networkFetches := 0, caches := storage }
  else if includes request.url.href "/api/" then
    match network with
    | some response =>
      { responded := Responded.response response, networkFetches := 1, caches := storage }
    | none =>
      { responded := Responded.response (offlineApiResponse now), networkFetches := 1,
        caches := storage }
  else if request.mode = "navigate" then
    match network with
    | some response =>
      { responded := Responded.response response, networkFetches := 1,
        caches := cachesOpenPut storage CACHE_NAME request.url.href response }
    | none =>
      match cachesMatch storage request.url.href with
      | some cachedResponse =>
        { responded := Responded.response cachedResponse, networkFetches := 1, caches := storage }
      | none =>
        match cachesMatch storage (origin ++ "/offline.html") with
        | some offlinePage =>
          { responded := Responded.response offlinePage, networkFetches := 1, caches := storage }
        | none =>
          { responded := Responded.response offlineFallbackResponse, networkFetches := 1,
            caches := storage }
  else
    match cachesMatch storage request.url.href with
    | some cachedResponse =>
      { responded := Responded.response cachedResponse
        networkFetches := 1
        caches :=
          match network with
          | some response => cachesOpenPut storage CACHE_NAME request.url.href response
          | none => storage }
    | none =>
      match network with
      | some response =>
        if response.status ≠ 200 ∨ response.type ≠ "basic" then
          { responded := Responded.response response, networkFetches := 1, caches := storage }
        else
          { responded := Responded.response response, networkFetches := 1,
            caches := cachesOpenPut storage CACHE_NAME request.url.href response }
      | none =>
        match request.accept with
        | none => { responded := Responded.rejected, networkFetches := 1, caches := storage }
        | some accept =>
          if includes accept "image" then
            { responded := Responded.response offlineImageResponse, networkFetches := 1,
              caches := storage }
          else
            { responded := Responded.response offlineUnavailableResponse, networkFetches := 1,
              caches := storage }

/-- The origin of the worker in the examples. -/
def appOrigin : String := "https://smartroads.example"

/-- A request from a page of the app to another origin whose name begins with
the name of the origin of the app. -/
def lookalikeRequest : Request :=
  { method := "GET"
    url := { origin := "https://smartroads.example.evil.test", path := "/api/traffic" }
    mode := "cors"
    accept := some "application/json" }

/-- A same-origin API request. -/
def apiRequest : Request :=
  { method := "GET"
    url := { origin := "https://smartroads.example", path := "/api/traffic/latest" }
    mode := "cors"
    accept := some "application/json" }

/-- A same-origin request for a style sheet. -/
def styleRequest : Request :=
  { method := "GET"
    url := { origin := "https://smartroads.example", path := "/assets/css/style.css" }
    mode := "no-cors"
    accept := some "text/css" }

/-- A response that the network gives with status 200. -/
def okResponse (content : String) : Response :=
  { status := 200, type := "basic", contentType := some "text/plain", body := Body.text content }

/-! ## Teardown -/

/-- The timers of the client that have an id: the two fields that hold one,
the intervals scheduled, and the count of the ids handed out. -/
def timerState (c : RealtimeCommunicator) : Option Nat × Option Nat × List Interval × Nat :=
  (c.heartbeatInterval, c.pollingInterval, c.intervals, c.timerIds)

/-- What holds of the timers of a client from its construction on: the ids
are positive and were handed out by `setInterval`; the heartbeat intervals
scheduled are the one whose id is in `this.heartbeatInterval`, which is set;
the id in `this.pollingInterval` is the id of a polling interval; and the
one-second queue sweep is scheduled. -/
def TimersInOrder (c : RealtimeCommunicator) : Prop :=
  (∀ interval ∈ c.intervals, interval.id ≠ 0 ∧ interval.id ≤ c.timerIds) ∧
  (∀ interval ∈ c.intervals,
    (interval.task = IntervalTask.sendHeartbeat ↔ c.heartbeatInterval = some interval.id)) ∧
  (∀ interval ∈ c.intervals,
    c.pollingInterval = some interval.id → interval.task = IntervalTask.pollForUpdates) ∧
  (∃ id : Nat, c.heartbeatInterval = some id ∧ id ≠ 0 ∧ id ≤ c.timerIds) ∧
  (∀ id : Nat, c.pollingInterval = some id → id ≤ c.timerIds) ∧
  (∃ interval ∈ c.intervals,
    interval.task = IntervalTask.processMessageQueue ∧ interval.period = 1000)

/-- `socket.close()`: a socket that is connecting or open starts closing, and
its `close` event follows later; on a socket that is closing or closed the
call does nothing. -/
def ReadyState.close : ReadyState → ReadyState
  | ReadyState.CONNECTING => ReadyState.CLOSING
  | ReadyState.OPEN => ReadyState.CLOSING
  | ReadyState.CLOSING => ReadyState.CLOSING
  | ReadyState.CLOSED => ReadyState.CLOSED

/-- `cleanup()`: `socket.close()` when there is a socket, then `clearInterval`
of the id in `this.heartbeatInterval` and of the id in `this.pollingInterval`
when the field is set.  No field is assigned: both keep the id they held. -/
def cleanup (c : RealtimeCommunicator) : RealtimeCommunicator :=
  let c1 := { c with socket := c.socket.map ReadyState.close }
  let c2 := if isSet c1.heartbeatInterval then clearInterval c1 (c1.heartbeatInterval.getD 0) else c1
  if isSet c2.pollingInterval then clearInterval c2 (c2.pollingInterval.getD 0) else c2

/-! ## Install and background sync of the worker -/

/-- The constant `urlsToCache`. -/
def urlsToCache : List String :=
  [ "/",
    "/index.html",
    "/manifest.json",
    "/assets/css/style.css",
    "/assets/css/pwa.css",
    "/assets/js/app.js",
    "/assets/js/maps.js",
    "/modules/commuters.html",
    "/modules/delivery.html",
    "/modules/cab-drivers.html",
    "/modules/emergency.html",
    "https://unpkg.com/leaflet@1.9.4/dist/leaflet.css",
    "https://unpkg.com/leaflet@1.9.4/dist/leaflet.js",
    "https://cdnjs.cloudflare.com/ajax/libs/font-awesome/6.4.0/css/all.min.css",
    "https://fonts.googleapis.com/css2?family=Inter:wght@300;400;500;600;700&display=swap" ]

/-- A URL of the manifest as the worker requests it: a path is resolved
against the origin of the worker. -/
def resolve (origin url : String) : String :=
  if startsWith url "/" then origin ++ url else url

/-- `caches.open(name)`: the cache is created when there is none of that name. -/
def cachesOpen (storage : List (String × List (String × Response))) (name : String) :
    List (String × List (String × Response)) :=
  if name ∈ cachesKeys storage then storage else storage ++ [(name, [])]

/-- The status of the response is in the range 200 to 299 (`response.ok`). -/
def Response.ok (response : Response) : Bool :=
  200 ≤ response.status && response.status ≤ 299

/-- The `install` listener: `caches.open(CACHE_NAME)` then
`cache.addAll(urlsToCache)`, which stores every response when every URL is
fetched with an `ok` response and stores nothing otherwise; `network url` is
the outcome of the fetch of the URL. -/
def oninstall (origin : String) (network : String → Option Response)
    (storage : List (String × List (String × Response))) :
    List (String × List (String × Response)) :=
  let opened := cachesOpen storage CACHE_NAME
  let requests := urlsToCache.map (resolve origin)
  if requests.all fun url => (network url).any Response.ok then
    requests.foldl
      (fun caches url =>
        match network url with
        | some response => cachesOpenPut caches CACHE_NAME url response
        | none => caches)
      opened
  else
    opened

/-- The outcome of `syncTrafficData`. -/
structure Synced where
  /-- The records passed to `fetch('/api/traffic/update', ...)`, in order. -/
  submitted : List String
  /-- `clearOfflineUpdates()` was called. -/
  cleared : Bool
  /-- The promise of `syncTrafficData` rejected (`throw error`). -/
  threw : Bool
  deriving DecidableEq, Repr

/-- The loop `for (const update of offlineUpdates) await fetch(...)`: the
records submitted until the first fetch that rejects, and whether one did;
`network update` is the outcome of the fetch that submits the record, `none`
when it rejects. -/
def submitUpdates (network : String → Option Response) : List String → List String × Bool
  | [] => ([], false)
  | update :: rest =>
    match network update with
    | none => ([update], true)
    | some _ =>
      let later := submitUpdates network rest
      (update :: later.1, later.2)

/-- `getOfflineUpdates()` as the source has it: a placeholder for the read of
IndexedDB, which yields the empty array. -/
def getOfflineUpdates : List String := []

/-- `syncTrafficData()`, where `offlineUpdates` is what
`await getOfflineUpdates()` yields. -/
def syncTrafficData (network : String → Option Response) (offlineUpdates : List String) :
    Synced :=
  let sent := submitUpdates network offlineUpdates
  if sent.2 then { submitted := sent.1, cleared := false, threw := true }
  else { submitted := sent.1, cleared := true, threw := false }

/-- A network on which every fetch resolves with status 200. -/
def onlineNetwork (url : String) : Option Response :=
  some (okResponse url)

/-- A server that is reached and answers every request with status 500: the
promise of `fetch` resolves, with a response that is not `ok`. -/
def failingServer (_url : String) : Option Response :=
  some { status := 500, type := "basic", contentType := some "text/plain",
         body := Body.text "Internal Server Error" }

/-- The caches after the worker of the app has been installed on a browser
that held none. -/
def installedCaches : List (String × List (String × Response)) :=
  oninstall appOrigin onlineNetwork []

/-- A navigation to a page of the app that the manifest does not list. -/
def aboutNavigation : Request :=
  { method := "GET"
    url := { origin := "https://smartroads.example", path := "/about.html" }
    mode := "navigate"
    accept := some "text/html" }

/-- A same-origin request for a script, sent without an `Accept` header. -/
def bareRequest : Request :=
  { method := "GET"
    url := { origin := "https://smartroads.example", path := "/assets/js/extra.js" }
    mode := "no-cors"
    accept := none }

/-! ## The traffic overlay (`assets/js/maps.js`)

Congestion is a JavaScript number; it is a rational number here, with exact
arithmetic (the rounding of each operation on doubles is left out), and a
number that is `NaN` (as the result of arithmetic on `undefined`) is `none`. -/

/-- `getTrafficColor(congestion)`. -/
def getTrafficColor (congestion : ℚ) : String :=
  if congestion < 0.3 then "#28A745"
  else if congestion < 0.6 then "#FFC107"
  else "#DC3545"

/-- The colour that the legend of `addTrafficLegend` gives: `#28A745` for
"Light (<30%)", `#FFC107` for "Moderate (30-60%)", `#DC3545` for "Heavy (>60%)". -/
def legendColor (congestion : ℚ) : String :=
  if congestion < 0.3 then "#28A745"
  else if congestion ≤ 0.6 then "#FFC107"
  else "#DC3545"

/-- A road record, with the fields that the congestion figures use;
`congestion` is `none` on a record that has no such property. -/
structure Road where
  name : String
  baseCongestion : ℚ
  congestion : Option ℚ
  speed : Option Int
  deriving DecidableEq

/-- The array `roads` of `generateTrafficData`. -/
def baseRoads (isRushHour isWeekday : Bool) : List Road :=
  [ { name := "Main Street", baseCongestion := if isRushHour then 0.7 else 0.3,
      congestion := none, speed := none },
    { name := "Highway 101", baseCongestion := if isWeekday then 0.6 else 0.4,
      congestion := none, speed := none },
    { name := "Park Avenue", baseCongestion := 0.2, congestion := none, speed := none } ]

/-- `Math.floor(60 * (1 - congestion))`, `NaN` when `congestion` is `undefined`. -/
def speedOf (congestion : Option ℚ) : Option Int :=
  congestion.map fun value => Int.floor (60 * (1 - value))

/-- The callback of `roads.map` in `generateTrafficData`; `random` is the value
of `Math.random()` for the road. -/
def generateRoad (random : ℚ) (road : Road) : Road :=
  { road with
    congestion := some (min 1 (max 0 (road.baseCongestion + (random * 0.3 - 0.15))))
    speed := speedOf road.congestion }

/-- The callback of `trafficData.map` in `simulateTrafficChange`. -/
def simulateRoad (random : ℚ) (road : Road) : Road :=
  let change := random * 0.1 - 0.05
  let newCongestion := road.congestion.map fun value => min 1 (max 0 (value + change))
  { road with congestion := newCongestion, speed := speedOf newCongestion }

/-- `array.map(callback)` where the callback draws `Math.random()`: the road at
index `index + k` gets the value `random (index + k)`. -/
def mapRoads (callback : ℚ → Road → Road) (random : Nat → ℚ) : Nat → List Road → List Road
  | _, [] => []
  | index, road :: rest =>
    callback (random index) road :: mapRoads callback random (index + 1) rest

/-- `generateTrafficData()`. -/
def generateTrafficData (isRushHour isWeekday : Bool) (random : Nat → ℚ) : List Road :=
  mapRoads generateRoad random 0 (baseRoads isRushHour isWeekday)

/-- `simulateTrafficChange()`, as the new value of `this.trafficData`. -/
def simulateTrafficChange (random : Nat → ℚ) (trafficData : List Road) : List Road :=
  mapRoads simulateRoad random 0 trafficData

/-! ## Nearest-first searches (`modules/delivery.js`, `modules/emergency.js`)

`calculateDistance` is the haversine formula in floating point.  The searches
only compare its values, so they take it as a parameter: a function whose
value is a number or `NaN`, which is `none`.  The formula multiplies an angle
by the radius of the Earth, so it is never infinite. -/

/-- A point `{lat, lng}`. -/
structure Location where
  lat : ℚ
  lng : ℚ
  deriving DecidableEq

/-- The doubles that the source's haversine formula computes from two points. -/
structure Trigonometry where
  /-- The value of `a`: `sin(dLat/2)² + cos(lat1)·cos(lat2)·sin(dLng/2)²`,
  each operation rounded. -/
  a : Location → Location → ℚ
  /-- The value of `R * c`, where `c` is `2 * Math.atan2(Math.sqrt(a), Math.sqrt(1-a))`,
  for an `a` from 0 to 1. -/
  kilometres : ℚ → ℚ

/-- `calculateDistance(point1, point2)`: `Math.sqrt(a)` is `NaN` when `a` is
negative and `Math.sqrt(1-a)` is `NaN` when rounding has taken `a` above 1;
`Math.atan2` of a `NaN` and the product with `R` are then `NaN`. -/
def calculateDistance (doubles : Trigonometry) (point1 point2 : Location) : Option ℚ :=
  if doubles.a point1 point2 < 0 ∨ 1 < doubles.a point1 point2 then none
  else some (doubles.kilometres (doubles.a point1 point2))

/-- A point near the South Pole. -/
def southPoint : Location := { lat := -87.5, lng := -179 }

/-- The point near the North Pole that lies almost opposite `southPoint`. -/
def northPoint : Location := { lat := 87.5, lng := 1 }

/-- The doubles of the formula at the points used below: between `southPoint`
and `northPoint`, in either order, the rounded sum `a` is
`1.0000000000000002`, that is `1 + 2⁻⁵²`; from a point to itself `a` is 0 and
so is the distance.  No other pair is used, and `a` is given as 0 there. -/
def polarDoubles : Trigonometry :=
  { a := fun point1 point2 =>
      if (point1 = southPoint ∧ point2 = northPoint) ∨
          (point1 = northPoint ∧ point2 = southPoint) then
        4503599627370497 / 4503599627370496
      else 0
    kilometres := fun _ => 0 }

/-- A stand-in for the formula on points that are close to each other: the
squared difference of the coordinates, which orders such points as their
distance does. -/
def planeDistance (point1 point2 : Location) : Option ℚ :=
  some ((point1.lat - point2.lat) ^ 2 + (point1.lng - point2.lng) ^ 2)

/-- The test `distance < nearestDistance`; `none` is the `Infinity` that
`nearestDistance` starts from. -/
def closer (distance : ℚ) : Option ℚ → Bool
  | none => true
  | some nearestDistance => decide (distance < nearestDistance)

/-- The loop `forEach` of both searches: the elements are visited in order,
each with its index; an element that the loop skips is `none`, and so is one
whose distance is `NaN`, for which the test `distance < nearestDistance` is
false; another is the distance computed for it, and it becomes the nearest
one when its distance is less than the nearest so far.  The state is the
index of the nearest one and its distance. -/
def nearestScan : List (Option ℚ) → Nat → Nat × Option ℚ → Nat × Option ℚ
  | [], _, state => state
  | none :: rest, index, state => nearestScan rest (index + 1) state
  | some distance :: rest, index, state =>
    if closer distance state.2 then nearestScan rest (index + 1) (index, some distance)
    else nearestScan rest (index + 1) state

/-! ## The delivery module (`modules/delivery.js`) -/

/-- A delivery, with the fields that route planning and delay reports use;
`delay` is `delivery.delay || 0`. -/
structure Delivery where
  id : String
  status : String
  estimatedDelivery : String
  delay : Nat
  location : Option Location
  deriving DecidableEq

/-- What the `forEach` of `calculateOptimalRoute` compares for a delivery: the
distance from the current location to its location; `none` when the delivery
has no location, and when that distance is `NaN`. -/
def distanceFrom (calculateDistance : Location → Location → Option ℚ)
    (currentLocation : Location) (delivery : Delivery) : Option ℚ :=
  match delivery.location with
  | some place => calculateDistance currentLocation place
  | none => none

/-- The index that the `forEach` of `calculateOptimalRoute` leaves in
`nearestIndex`: the scan over the remaining deliveries, which starts from
index 0 and passes over those without a location. -/
def nearestIndex (calculateDistance : Location → Location → Option ℚ)
    (currentLocation : Location) (remainingDeliveries : List Delivery) : Nat :=
  (nearestScan (remainingDeliveries.map (distanceFrom calculateDistance currentLocation))
    0 (0, none)).1

/-- The loop `while (remainingDeliveries.length > 0)` of `calculateOptimalRoute`,
with the number of turns it may take; `none` when the turns run out before the
loop ends, or when `remainingDeliveries[nearestIndex]` does not exist (the
source would then read `.location` of `undefined` and throw). -/
def routeLoop (calculateDistance : Location → Location → Option ℚ) :
    Nat → List Delivery → Location → List Delivery → Option (List Delivery)
  | 0, route, _, remainingDeliveries =>
    if remainingDeliveries.length > 0 then none else some route
  | fuel + 1, route, currentLocation, remainingDeliveries =>
    if remainingDeliveries.length > 0 then
      match remainingDeliveries[nearestIndex calculateDistance currentLocation
          remainingDeliveries]? with
      | some nearestDelivery =>
        routeLoop calculateDistance fuel (route ++ [nearestDelivery])
          (nearestDelivery.location.getD currentLocation)
          (remainingDeliveries.eraseIdx
            (nearestIndex calculateDistance currentLocation remainingDeliveries))
      | none => none
    else some route

/-- `calculateOptimalRoute(deliveries)`; `driverLocation` is `this.driverLocation`,
`none` when it is `null`. -/
def calculateOptimalRoute (calculateDistance : Location → Location → Option ℚ)
    (driverLocation : Option Location) (deliveries : List Delivery) : Option (List Delivery) :=
  routeLoop calculateDistance deliveries.length []
    (driverLocation.getD { lat := 20.5937, lng := 78.9629 }) deliveries

/-- The choice of one turn by the nearest-neighbour rule, in the words of the
claim: the delivery at `index` has a location at a distance from the current
location that is a number, no remaining delivery with such a location is
nearer, and those before it in the remaining list are farther; or no
remaining delivery has a location at a distance that is a number and `index`
is 0, the head of the remaining list. -/
def NearestChoice (calculateDistance : Location → Location → Option ℚ)
    (currentLocation : Location) (remaining : List Delivery) (index : Nat) : Prop :=
  (∃ (chosen : Delivery) (place : Location) (x : ℚ),
    remaining[index]? = some chosen ∧ chosen.location = some place ∧
    calculateDistance currentLocation place = some x ∧
    ∀ (j : Nat) (other : Delivery) (otherPlace : Location) (y : ℚ),
      remaining[j]? = some other → other.location = some otherPlace →
      calculateDistance currentLocation otherPlace = some y → x ≤ y ∧ (j < index → x < y)) ∨
  (index = 0 ∧
    ∀ other ∈ remaining, ∀ place : Location, other.location = some place →
      calculateDistance currentLocation place = none)

/-- A route that follows the nearest-neighbour rule, in the words of the claim:
from the current location and the remaining deliveries, each delivery of the
route is a `NearestChoice` among those remaining; the current location then
moves to its location, when it has one, the delivery leaves the remaining
list, and the route ends when nothing remains. -/
def NearestNeighbourRoute (calculateDistance : Location → Location → Option ℚ) :
    Location → List Delivery → List Delivery → Prop
  | _, remaining, [] => remaining = []
  | currentLocation, remaining, chosen :: rest =>
    ∃ index : Nat, remaining[index]? = some chosen ∧
      NearestChoice calculateDistance currentLocation remaining index ∧
      NearestNeighbourRoute calculateDistance (chosen.location.getD currentLocation)
        (remaining.eraseIdx index) rest

/-- The number that a run of decimal digits denotes. -/
def digitsValue (digits : List Char) : Nat :=
  digits.foldl (fun value digit => 10 * value + (digit.toNat - 48)) 0

/-- The decimal digits at the head of the characters, as a number; `none`
(`NaN`) when there is none. -/
def parseDigits (chars : List Char) : Option Nat :=
  if chars.takeWhile Char.isDigit = [] then none
  else some (digitsValue (chars.takeWhile Char.isDigit))

/-- The value of a hexadecimal digit; `none` for any other character. -/
def hexDigit (digit : Char) : Option Nat :=
  if digit.isDigit then some (digit.toNat - 48)
  else if 97 ≤ digit.toNat ∧ digit.toNat ≤ 102 then some (digit.toNat - 87)
  else if 65 ≤ digit.toNat ∧ digit.toNat ≤ 70 then some (digit.toNat - 55)
  else none

/-- The hexadecimal digits at the head of the characters, as a number; `none`
(`NaN`) when there is none. -/
def parseHexDigits (chars : List Char) : Option Nat :=
  if chars.takeWhile (fun digit => (hexDigit digit).isSome) = [] then none
  else
    some ((chars.takeWhile fun digit => (hexDigit digit).isSome).foldl
      (fun value digit => 16 * value + (hexDigit digit).getD 0) 0)

/-- What `parseInt` reads after the sign when no radix is given: hexadecimal
digits after a prefix `0x` or `0X`, decimal digits otherwise. -/
def parseDigitsOrHex : List Char → Option Nat
  | '0' :: 'x' :: rest => parseHexDigits rest
  | '0' :: 'X' :: rest => parseHexDigits rest
  | chars => parseDigits chars

/-- The characters that `parseInt` skips at the head of a string: the white
space and the line terminators of the language. -/
def isStrWhiteSpaceChar (c : Char) : Bool :=
  c.toNat = 9 || c.toNat = 10 || c.toNat = 11 || c.toNat = 12 || c.toNat = 13 || c.toNat = 32 ||
  c.toNat = 160 || c.toNat = 5760 || (8192 ≤ c.toNat && c.toNat ≤ 8202) || c.toNat = 8232 ||
  c.toNat = 8233 || c.toNat = 8239 || c.toNat = 8287 || c.toNat = 12288 || c.toNat = 65279

/-- `parseInt(string)`, without a radix: leading white space is skipped, a
sign is read, then the digits that follow, decimal or, after `0x`,
hexadecimal; `none` is `NaN`. -/
def parseInt (string : String) : Option Int :=
  match string.toList.dropWhile isStrWhiteSpaceChar with
  | '-' :: rest => (parseDigitsOrHex rest).map fun value => -(value : Int)
  | '+' :: rest => (parseDigitsOrHex rest).map fun value => (value : Int)
  | chars => (parseDigitsOrHex chars).map fun value => (value : Int)

/-- The estimate that `submitNewDelivery` gives a new delivery of the priority. -/
def newDeliveryEstimate (priority : String) : String :=
  if priority = "express" then "30 min"
  else if priority = "same_day" then "2 hours"
  else "45 min"

/-- What `confirmDelay` does to the delivery it finds; `minutes` is the number
read from the form. -/
def reportDelay (minutes : Nat) (delivery : Delivery) : Delivery :=
  { delivery with
    status := "delayed"
    delay := delivery.delay + minutes
    estimatedDelivery :=
      (match parseInt delivery.estimatedDelivery with
        | some currentETA => toString (currentETA + minutes)
        | none => "NaN") ++ " min" }

/-- An update of the first element of a list that passes the test, as the
assignments to the object that `find` returns make it. -/
def updateFirst {α : Type} (test : α → Bool) (change : α → α) : List α → List α
  | [] => []
  | head :: rest =>
    if test head then change head :: rest else head :: updateFirst test change rest

/-- `confirmDelay(deliveryId)`, as the new value of `this.deliveries`. -/
def confirmDelay (deliveries : List Delivery) (deliveryId : String) (minutes : Nat) :
    List Delivery :=
  updateFirst (fun delivery => decide (delivery.id = deliveryId)) (reportDelay minutes) deliveries

/-- The minutes that an estimate of the module stands for: `N min` is `N`
minutes and `N hours` is `60 * N` minutes. -/
def estimateMinutes (estimate : String) : Option Int :=
  if includes estimate "hours" then (parseInt estimate).map fun value => 60 * value
  else parseInt estimate

/-- A same-day delivery as `submitNewDelivery` creates it. -/
def sameDayDelivery : Delivery :=
  { id := "DEL-000001", status := "pending", estimatedDelivery := newDeliveryEstimate "same_day",
    delay := 0, location := none }

/-- Two pending deliveries: the first without a location, the second at
`northPoint`. -/
def polarDeliveries : List Delivery :=
  [ { id := "DEL-A", status := "pending", estimatedDelivery := "30 min", delay := 0,
      location := none },
    { id := "DEL-B", status := "pending", estimatedDelivery := "45 min", delay := 0,
      location := some northPoint } ]

/-- Three pending deliveries, the second of them without a location. -/
def pendingDeliveries : List Delivery :=
  [ { id := "DEL-001", status := "pending", estimatedDelivery := "30 min", delay := 0,
      location := some { lat := 20.7, lng := 78.9 } },
    { id := "DEL-002", status := "pending", estimatedDelivery := "45 min", delay := 0,
      location := none },
    { id := "DEL-003", status := "pending", estimatedDelivery := "20 min", delay := 0,
      location := some { lat := 20.6, lng := 78.9 } } ]

/-! ## The emergency module (`modules/emergency.js`) -/

/-- An ambulance. -/
structure Ambulance where
  id : String
  status : String
  location : Location
  deriving DecidableEq

/-- An active emergency; `distance` is the number that the source formats with
`toFixed(1)` into `emergency.distance`, `eta` the minutes of `emergency.eta`. -/
structure Emergency where
  id : String
  status : String
  location : Location
  ambulanceId : Option String
  distance : Option ℚ
  eta : Option Int
  deriving DecidableEq

/-- The two lists of the module that `findNearestAmbulance` reads and writes. -/
structure EmergencyModule where
  activeEmergencies : List Emergency
  ambulances : List Ambulance
  deriving DecidableEq

/-- The test of the filter: `status === 'available' || status === 'on_duty'`. -/
def isAvailable (ambulance : Ambulance) : Bool :=
  decide (ambulance.status = "available") || decide (ambulance.status = "on_duty")

/-- What `findNearestAmbulance` writes on the emergency. -/
def dispatchTo (nearestAmbulance : Ambulance) (nearestDistance : ℚ) (emergency : Emergency) :
    Emergency :=
  { emergency with
    ambulanceId := some nearestAmbulance.id
    status := "dispatched"
    distance := some nearestDistance
    eta := some (Int.ceil (nearestDistance * 3)) }

/-- `findNearestAmbulance(emergencyId)`.  The ambulances are objects shared
between `this.ambulances` and the filtered array, so the loop over the
filtered array is the scan over `this.ambulances` that skips the ambulances
the filter drops, and the ambulance found is the one at the index found.
When every distance is `NaN` the scan finds none, `nearestAmbulance` stays
`null` and the guard `if (nearestAmbulance)` skips every write. -/
def findNearestAmbulance (calculateDistance : Location → Location → Option ℚ)
    (m : EmergencyModule) (emergencyId : String) : EmergencyModule :=
  match m.activeEmergencies.find? fun emergency => decide (emergency.id = emergencyId) with
  | none => m
  | some emergency =>
    let availableAmbulances := m.ambulances.filter isAvailable
    if availableAmbulances.length = 0 then m
    else
      let found :=
        nearestScan
          (m.ambulances.map fun ambulance =>
            if isAvailable ambulance then
              calculateDistance emergency.location ambulance.location
            else none)
          0 (0, none)
      match found.2, m.ambulances[found.1]? with
      | some nearestDistance, some nearestAmbulance =>
        { ambulances := m.ambulances.set found.1 { nearestAmbulance with status := "dispatched" }
          activeEmergencies :=
            updateFirst (fun other => decide (other.id = emergencyId))
              (dispatchTo nearestAmbulance nearestDistance) m.activeEmergencies }
      | _, _ => m

/-- An emergency that has been reported and not yet served. -/
def reportedEmergency : Emergency :=
  { id := "EMG-1", status := "reported", location := { lat := 20, lng := 78 },
    ambulanceId := none, distance := none, eta := none }

/-- A module with one emergency, reported at `southPoint`, and one ambulance,
available at `northPoint`. -/
def polarModule : EmergencyModule :=
  { activeEmergencies :=
      [ { id := "EMG-1", status := "reported", location := southPoint, ambulanceId := none,
          distance := none, eta := none } ]
    ambulances := [ { id := "AMB-1", status := "available", location := northPoint } ] }

/-- A module with one reported emergency and three ambulances, the first of
them busy. -/
def cityModule : EmergencyModule :=
  { activeEmergencies := [reportedEmergency]
    ambulances :=
      [ { id := "AMB-1", status := "busy", location := { lat := 20, lng := 78 } },
        { id := "AMB-2", status := "available", location := { lat := 22, lng := 78 } },
        { id := "AMB-3", status := "on_duty", location := { lat := 21, lng := 78 } } ] }

/-! ## The durable list and the in-memory queue -/

theorem lastN_of_length_le {α : Type} (n : Nat) (l : List α) (h : l.length ≤ n) :
    lastN n l = l := by
  unfold lastN
  rw [Nat.sub_eq_zero_of_le h, List.drop_zero]

theorem length_lastN {α : Type} (n : Nat) (l : List α) :
    (lastN n l).length = min l.length n := by
  unfold lastN
  rw [List.length_drop]
  omega

theorem lastN_append_lastN {α : Type} (n : Nat) (l r : List α) :
    lastN n (lastN n l ++ r) = lastN n (l ++ r) := by
  have hlen := length_lastN n l
  unfold lastN at hlen ⊢
  have h1 : List.drop (l.length - n) l ++ r = List.drop (l.length - n) (l ++ r) := by
    rw [List.drop_append_of_le_length (Nat.sub_le _ _)]
  rw [h1, List.drop_drop]
  congr 1
  rw [← h1, List.length_append, List.length_append, hlen]
  omega

theorem storeMessageOffline_pending (c : RealtimeCommunicator) (now : Nat) (message : Message) :
    (storeMessageOffline c now message).pending_messages =
      lastN 100 (c.pending_messages ++ [entryOf (now, message)]) := by
  unfold storeMessageOffline lastN entryOf
  by_cases h : (c.pending_messages ++
      [({ message := message, timestamp := now, attempts := 0 } : PendingItem)]).length > 100
  · simp only [h, if_true]
  · simp only [h, if_false]
    rw [Nat.sub_eq_zero_of_le (by omega), List.drop_zero]

theorem send_disconnected (c : RealtimeCommunicator) (now : Nat) (message : Message)
    (h : c.connected = false) :
    (send c now message).1.connected = false ∧
    (send c now message).1.messageQueue = c.messageQueue ++ [message] ∧
    (send c now message).1.pending_messages =
      lastN 100 (c.pending_messages ++ [entryOf (now, message)]) ∧
    (send c now message).1.transmitted = c.transmitted ∧
    (send c now message).1.socket = c.socket ∧
    (send c now message).1.subscriptions = c.subscriptions ∧
    (send c now message).1.clientId = c.clientId := by
  have hp := storeMessageOffline_pending
    { c with messageQueue := c.messageQueue ++ [message] } now message
  simp only [send, h, Bool.not_false, if_true]
  refine ⟨?_, ?_, hp, ?_, ?_, ?_, ?_⟩ <;> simp [storeMessageOffline, h]

theorem sendAll_cons (c : RealtimeCommunicator) (call : Nat × Message)
    (rest : List (Nat × Message)) :
    sendAll c (call :: rest) = sendAll (send c call.1 call.2).1 rest := rfl

theorem sendAll_disconnected (calls : List (Nat × Message)) :
    ∀ c : RealtimeCommunicator, c.connected = false →
      (sendAll c calls).connected = false ∧
      (sendAll c calls).messageQueue = c.messageQueue ++ calls.map Prod.snd ∧
      (sendAll c calls).transmitted = c.transmitted ∧
      (sendAll c calls).socket = c.socket ∧
      (sendAll c calls).subscriptions = c.subscriptions ∧
      (sendAll c calls).clientId = c.clientId := by
  induction calls with
  | nil =>
    intro c h
    exact ⟨h, by simp [sendAll], rfl, rfl, rfl, rfl⟩
  | cons call rest ih =>
    intro c h
    obtain ⟨h1, h2, -, h4, h5, h6, h7⟩ := send_disconnected c call.1 call.2 h
    obtain ⟨k1, k2, k4, k5, k6, k7⟩ := ih (send c call.1 call.2).1 h1
    rw [sendAll_cons]
    refine ⟨k1, ?_, k4.trans h4, k5.trans h5, k6.trans h6, k7.trans h7⟩
    rw [k2, h2]; simp

theorem sendAll_disconnected_pending (calls : List (Nat × Message)) :
    ∀ c : RealtimeCommunicator, c.connected = false → c.pending_messages.length ≤ 100 →
      (sendAll c calls).pending_messages = lastN 100 (c.pending_messages ++ calls.map entryOf) := by
  induction calls with
  | nil =>
    intro c _ hlen
    simp only [sendAll, List.foldl_nil, List.map_nil, List.append_nil]
    exact (lastN_of_length_le 100 _ hlen).symm
  | cons call rest ih =>
    intro c h _
    obtain ⟨h1, -, h3, -⟩ := send_disconnected c call.1 call.2 h
    have hlen1 : (send c call.1 call.2).1.pending_messages.length ≤ 100 := by
      rw [h3, length_lastN]
      exact Nat.min_le_right _ _
    rw [sendAll_cons, ih (send c call.1 call.2).1 h1 hlen1, h3, lastN_append_lastN]
    simp [entryOf]

theorem map_lastN {α β : Type} (f : α → β) (n : Nat) (l : List α) :
    (lastN n l).map f = lastN n (l.map f) := by
  simp [lastN, List.map_drop]

theorem map_message_entryOf (calls : List (Nat × Message)) :
    (calls.map entryOf).map PendingItem.message = calls.map Prod.snd := by
  simp [entryOf, Function.comp_def]

/-! ## C1 -/

/-- C1, refuted as stated: after 101 calls of `send` on a disconnected client
whose durable list was empty, the durable list does not hold the 101 messages:
it has 100 entries and the first message is not among them. -/
theorem durable_list_loses_first_of_101_sends :
    offlineClient.connected = false ∧ offlineClient.pending_messages = [] ∧
    (sendAll offlineClient (heartbeatCalls 101)).pending_messages.map PendingItem.message ≠
      (heartbeatCalls 101).map Prod.snd ∧
    heartbeat 0 "client_1" ∉
      (sendAll offlineClient (heartbeatCalls 101)).pending_messages.map PendingItem.message := by
  have hp := sendAll_disconnected_pending (heartbeatCalls 101) offlineClient rfl (by decide)
  have hnil : offlineClient.pending_messages = [] := rfl
  rw [hnil, List.nil_append] at hp
  have hm : (sendAll offlineClient (heartbeatCalls 101)).pending_messages.map PendingItem.message =
      (List.range' 1 100).map fun i => heartbeat i "client_1" := by
    rw [hp, map_lastN, map_message_entryOf]
    simp only [lastN, heartbeatCalls, List.map_map, List.length_map, List.length_range]
    rfl
  refine ⟨rfl, rfl, ?_, ?_⟩
  · intro h
    have hl := congrArg List.length h
    rw [hm] at hl
    simp [heartbeatCalls] at hl
  · rw [hm]
    intro h
    obtain ⟨i, hi, he⟩ := List.mem_map.mp h
    have h0 : i = 0 := by
      have := congrArg Message.timestamp he
      simpa [heartbeat] using this
    subst h0
    simp at hi

/-- C1, amended: for every sequence of calls of `send` on a disconnected client
whose durable list was empty, the durable list afterwards holds the entries of
the last 100 calls, each once and in call order; with at most 100 calls it
holds every message exactly once, in call order. -/
theorem durable_list_holds_last_100_sends (c : RealtimeCommunicator)
    (calls : List (Nat × Message)) (hc : c.connected = false) (he : c.pending_messages = []) :
    (sendAll c calls).pending_messages = lastN 100 (calls.map entryOf) ∧
    (sendAll c calls).pending_messages.map PendingItem.message = lastN 100 (calls.map Prod.snd) ∧
    (calls.length ≤ 100 →
      (sendAll c calls).pending_messages.map PendingItem.message = calls.map Prod.snd) := by
  have hp := sendAll_disconnected_pending calls c hc (by simp [he])
  rw [he, List.nil_append] at hp
  have hm : (sendAll c calls).pending_messages.map PendingItem.message =
      lastN 100 (calls.map Prod.snd) := by
    rw [hp, map_lastN, map_message_entryOf]
  refine ⟨hp, hm, fun hlen => ?_⟩
  rw [hm]
  exact lastN_of_length_le 100 _ (by simpa using hlen)

/-- The amended C1 at three calls on the disconnected client. -/
theorem durable_list_holds_last_100_sends_witness :
    offlineClient.connected = false ∧ offlineClient.pending_messages = [] ∧
    (heartbeatCalls 3).length ≤ 100 ∧
    (sendAll offlineClient (heartbeatCalls 3)).pending_messages.map PendingItem.message =
      [heartbeat 0 "client_1", heartbeat 1 "client_1", heartbeat 2 "client_1"] :=
  ⟨rfl, rfl, by decide,
    (durable_list_holds_last_100_sends offlineClient (heartbeatCalls 3) rfl rfl).2.2 (by decide)⟩

/-! ## C2 -/

theorem sendRaw_open (c : RealtimeCommunicator) (message : Message)
    (h : c.socket = some ReadyState.OPEN) :
    sendRaw c message = ({ c with transmitted := c.transmitted ++ [message] }, true) := by
  simp [sendRaw, h]

theorem sendRaw_not_open (c : RealtimeCommunicator) (message : Message)
    (h : c.socket ≠ some ReadyState.OPEN) : sendRaw c message = (c, false) := by
  simp [sendRaw, h]

theorem drainQueue_open (fuel : Nat) :
    ∀ c : RealtimeCommunicator, c.socket = some ReadyState.OPEN → c.messageQueue.length ≤ fuel →
      drainQueue fuel c =
        { c with messageQueue := [], transmitted := c.transmitted ++ c.messageQueue } := by
  induction fuel with
  | zero =>
    intro c _ hlen
    have hq : c.messageQueue = [] := List.length_eq_zero.mp (Nat.le_zero.mp hlen)
    cases c
    simp_all [drainQueue]
  | succ fuel ih =>
    intro c hs hlen
    cases hq : c.messageQueue with
    | nil =>
      cases c
      simp_all [drainQueue]
    | cons message rest =>
      have hlen1 : rest.length ≤ fuel := by
        rw [hq] at hlen
        simpa using hlen
      rw [drainQueue]
      simp only [hq]
      rw [sendRaw_open _ _ (by simpa using hs), ih _ (by simpa using hs) (by simpa using hlen1)]
      simp

theorem processMessageQueue_open (c : RealtimeCommunicator) (hc : c.connected = true)
    (hs : c.socket = some ReadyState.OPEN) :
    processMessageQueue c =
      { c with messageQueue := [], transmitted := c.transmitted ++ c.messageQueue } := by
  unfold processMessageQueue
  by_cases hq : c.messageQueue.length = 0
  · have hnil : c.messageQueue = [] := List.length_eq_zero.mp hq
    cases c
    simp_all
  · simpa [hc, hq] using drainQueue_open _ c hs (le_refl _)

theorem send_open (c : RealtimeCommunicator) (now : Nat) (message : Message)
    (hc : c.connected = true) (hs : c.socket = some ReadyState.OPEN) :
    send c now message = ({ c with transmitted := c.transmitted ++ [message] }, true) := by
  simp [send, hc, sendRaw_open c message hs]

theorem resubscribe_fold_open (now : Nat) (subs : List (String × List Nat)) :
    ∀ c : RealtimeCommunicator, c.connected = true → c.socket = some ReadyState.OPEN →
      subs.foldl (fun acc entry => (send acc now (subscribeMessage entry.1 acc.clientId)).1) c =
        { c with
          transmitted := c.transmitted ++ subs.map fun e => subscribeMessage e.1 c.clientId } := by
  induction subs with
  | nil => intro c _ _; simp
  | cons entry rest ih =>
    intro c hc hs
    rw [List.foldl_cons, send_open c now _ hc hs, ih _ (by simpa using hc) (by simpa using hs)]
    simp

/-- The open of the socket that the client holds: on a disconnected client
whose socket is connecting, the messages passed to `send` join the in-memory
queue in call order; when that socket opens, `onopen` (after its
`resubscribeAll`) has `processMessageQueue` hand the whole queue to the socket
first in, first out, and the queue is left empty.  `processMessageQueue` does
so on every connected client whose socket is open. -/
theorem queued_messages_sent_in_call_order (c : RealtimeCommunicator)
    (calls : List (Nat × Message)) (now : Nat) (hc : c.connected = false)
    (hs : c.socket = some ReadyState.CONNECTING) :
    (sendAll c calls).messageQueue = c.messageQueue ++ calls.map Prod.snd ∧
    (step (sendAll c calls) (Event.socketOpen now)).messageQueue = [] ∧
    (step (sendAll c calls) (Event.socketOpen now)).transmitted =
      (c.transmitted ++ c.subscriptions.map fun e => subscribeMessage e.1 c.clientId) ++
        (c.messageQueue ++ calls.map Prod.snd) ∧
    ∀ d : RealtimeCommunicator, d.connected = true → d.socket = some ReadyState.OPEN →
      (processMessageQueue d).messageQueue = [] ∧
      (processMessageQueue d).transmitted = d.transmitted ++ d.messageQueue := by
  obtain ⟨-, k2, k4, k5, k6, k7⟩ := sendAll_disconnected calls c hc
  have hstep : step (sendAll c calls) (Event.socketOpen now) =
      { sendAll c calls with
        socket := some ReadyState.OPEN
        connected := true
        reconnectAttempts := 0
        messageQueue := []
        transmitted := (c.transmitted ++
          c.subscriptions.map fun e => subscribeMessage e.1 c.clientId) ++
            (c.messageQueue ++ calls.map Prod.snd) } := by
    simp only [step, k5, hs, if_true, onopen, resubscribeAll]
    rw [resubscribe_fold_open now _ _ rfl rfl, processMessageQueue_open _ rfl rfl]
    simp [k2, k4, k6, k7]
  refine ⟨k2, ?_, ?_, fun d hd hsd => ?_⟩
  · rw [hstep]
  · rw [hstep]
  · rw [processMessageQueue_open d hd hsd]
    exact ⟨rfl, rfl⟩

/-- Three calls on the disconnected client, then the open of its socket: the
socket receives them in call order. -/
theorem queued_messages_sent_in_call_order_witness :
    offlineClient.connected = false ∧ offlineClient.socket = some ReadyState.CONNECTING ∧
    (step (sendAll offlineClient (heartbeatCalls 3)) (Event.socketOpen 7)).messageQueue = [] ∧
    (step (sendAll offlineClient (heartbeatCalls 3)) (Event.socketOpen 7)).transmitted =
      [heartbeat 0 "client_1", heartbeat 1 "client_1", heartbeat 2 "client_1"] :=
  ⟨rfl, rfl,
    (queued_messages_sent_in_call_order offlineClient (heartbeatCalls 3) 7 rfl rfl).2.1,
    (queued_messages_sent_in_call_order offlineClient (heartbeatCalls 3) 7 rfl rfl).2.2.1⟩

/-- C2, at the open of a socket that was replaced: the window's `online` event
finds the fresh client disconnected and has `initWebSocket` put a second
socket in `this.socket`, the first one keeping its handlers; `send(m)` queues
`m`; then the first socket opens.  Its `onopen` sets `connected` and runs
`processMessageQueue` while `this.socket` is still connecting, so `m` is
shifted off the queue, `sendRaw` returns `false`, and the queue ends empty
although nothing was handed to a socket; the later open of `this.socket` finds
nothing to send. -/
theorem replaced_socket_open_drops_queue :
    (run offlineClient [Event.online WebSocketSupport.created,
      Event.send 1 (heartbeat 1 "client_1")]).connected = false ∧
    (run offlineClient [Event.online WebSocketSupport.created,
      Event.send 1 (heartbeat 1 "client_1")]).socket = some ReadyState.CONNECTING ∧
    (run offlineClient [Event.online WebSocketSupport.created,
      Event.send 1 (heartbeat 1 "client_1")]).staleSockets = 1 ∧
    (run offlineClient [Event.online WebSocketSupport.created,
      Event.send 1 (heartbeat 1 "client_1")]).messageQueue = [heartbeat 1 "client_1"] ∧
    (run offlineClient [Event.online WebSocketSupport.created,
      Event.send 1 (heartbeat 1 "client_1"), Event.staleOpen 2]).socket =
        some ReadyState.CONNECTING ∧
    (run offlineClient [Event.online WebSocketSupport.created,
      Event.send 1 (heartbeat 1 "client_1"), Event.staleOpen 2]).messageQueue = [] ∧
    (run offlineClient [Event.online WebSocketSupport.created,
      Event.send 1 (heartbeat 1 "client_1"), Event.staleOpen 2]).transmitted = [] ∧
    (run offlineClient [Event.online WebSocketSupport.created,
      Event.send 1 (heartbeat 1 "client_1"), Event.staleOpen 2,
      Event.socketOpen 3]).transmitted = [] :=
  ⟨rfl, rfl, rfl, rfl, rfl, rfl, rfl, rfl⟩

/-! ## C3 -/

theorem lastN_append_singleton_of_full {α : Type} (l : List α) (a : α) (h : l.length = 100) :
    lastN 100 (l ++ [a]) = l.tail ++ [a] := by
  unfold lastN
  rw [List.length_append, h, List.length_singleton, List.drop_append_of_le_length (by omega)]
  simp

theorem lastN_append_singleton_of_short {α : Type} (l : List α) (a : α) (h : l.length < 100) :
    lastN 100 (l ++ [a]) = l ++ [a] :=
  lastN_of_length_le 100 _ (by rw [List.length_append, List.length_singleton]; omega)

theorem getLast?_lastN_append_singleton {α : Type} (l : List α) (a : α) :
    (lastN 100 (l ++ [a])).getLast? = some a := by
  unfold lastN
  rw [List.length_append, List.length_singleton, List.drop_append_of_le_length (by omega)]
  simp

/-- C3: whatever the durable list holds, after `storeMessageOffline` it has at
most 100 entries; when it held exactly 100, the oldest is gone, the other 99
keep their order and the new entry is last. -/
theorem storeMessageOffline_bounded_evicts_oldest (c : RealtimeCommunicator) (now : Nat)
    (message : Message) :
    (storeMessageOffline c now message).pending_messages.length ≤ 100 ∧
    (c.pending_messages.length = 100 →
      (storeMessageOffline c now message).pending_messages =
        c.pending_messages.tail ++ [entryOf (now, message)]) := by
  rw [storeMessageOffline_pending]
  refine ⟨?_, fun h => lastN_append_singleton_of_full _ _ h⟩
  rw [length_lastN]
  exact Nat.min_le_right _ _

/-- C3 on the full durable list: the 101st entry evicts the first. -/
theorem storeMessageOffline_bounded_evicts_oldest_witness :
    fullClient.pending_messages.length = 100 ∧
    (storeMessageOffline fullClient 100 (heartbeat 100 "client_1")).pending_messages =
      fullClient.pending_messages.tail ++ [entryOf (100, heartbeat 100 "client_1")] :=
  ⟨by simp [fullClient, heartbeatCalls],
    (storeMessageOffline_bounded_evicts_oldest fullClient 100 (heartbeat 100 "client_1")).2
      (by simp [fullClient, heartbeatCalls])⟩

/-! ## C4 -/

/-- On a platform where nothing throws, `send` is a total function of the
client, the clock and the message.  It returns `true` exactly when the client is connected and `sendRaw` succeeded;
then the message went to the socket and neither queue changed.  Otherwise it
returns `false`, the message is the new last element of the in-memory queue
and its entry is pushed at the end of the durable list (of which
`storeMessageOffline` keeps the last 100, so the list is the old one followed
by the entry whenever it held fewer than 100). -/
theorem send_true_iff_sent_else_queued (c : RealtimeCommunicator) (now : Nat)
    (message : Message) :
    ((send c now message).2 = true ↔ (c.connected = true ∧ (sendRaw c message).2 = true)) ∧
    ((send c now message).2 = true →
      (send c now message).1.messageQueue = c.messageQueue ∧
      (send c now message).1.pending_messages = c.pending_messages ∧
      (send c now message).1.transmitted = c.transmitted ++ [message]) ∧
    ((send c now message).2 = false →
      (send c now message).1.messageQueue = c.messageQueue ++ [message] ∧
      (send c now message).1.pending_messages =
        lastN 100 (c.pending_messages ++ [entryOf (now, message)]) ∧
      (send c now message).1.pending_messages.getLast? = some (entryOf (now, message)) ∧
      (c.pending_messages.length < 100 →
        (send c now message).1.pending_messages =
          c.pending_messages ++ [entryOf (now, message)]) ∧
      (send c now message).1.transmitted = c.transmitted) := by
  cases hc : c.connected with
  | false =>
    obtain ⟨-, h2, h3, h4, -⟩ := send_disconnected c now message hc
    have hret : (send c now message).2 = false := by simp [send, hc]
    refine ⟨by simp [hret], by simp [hret], fun _ => ⟨h2, h3, ?_, fun hlt => ?_, h4⟩⟩
    · rw [h3]; exact getLast?_lastN_append_singleton _ _
    · rw [h3]; exact lastN_append_singleton_of_short _ _ hlt
  | true =>
    by_cases hs : c.socket = some ReadyState.OPEN
    · rw [send_open c now message hc hs, sendRaw_open c message hs]
      simp
    · have hraw := sendRaw_not_open c message hs
      have hp := storeMessageOffline_pending
        { c with messageQueue := c.messageQueue ++ [message] } now message
      have hsend : send c now message =
          (storeMessageOffline { c with messageQueue := c.messageQueue ++ [message] } now message,
            false) := by
        simp [send, hc, hraw]
      rw [hsend, hraw]
      refine ⟨by simp, by simp, fun _ => ⟨?_, hp, ?_, fun hlt => ?_, ?_⟩⟩
      · simp [storeMessageOffline]
      · rw [hp]; exact getLast?_lastN_append_singleton _ _
      · rw [hp]; exact lastN_append_singleton_of_short _ _ hlt
      · simp [storeMessageOffline]

/-- On the disconnected client `send` returns `false` and queues the message twice over. -/
theorem send_true_iff_sent_else_queued_witness :
    (send offlineClient 5 (heartbeat 5 "client_1")).2 = false ∧
    (send offlineClient 5 (heartbeat 5 "client_1")).1.messageQueue = [heartbeat 5 "client_1"] ∧
    (send offlineClient 5 (heartbeat 5 "client_1")).1.pending_messages =
      [entryOf (5, heartbeat 5 "client_1")] :=
  ⟨rfl,
    ((send_true_iff_sent_else_queued offlineClient 5 (heartbeat 5 "client_1")).2.2 rfl).1,
    ((send_true_iff_sent_else_queued offlineClient 5 (heartbeat 5 "client_1")).2.2 rfl).2.2.2.1
      (by decide)⟩

/-- A call of `send` that returns on the platform is the call of the total
`send`: same state, same value. -/
theorem platform_send_returned (p : Platform) (c c1 : RealtimeCommunicator) (now : Nat)
    (message : Message) (sent : Bool)
    (h : p.send c now message = Completion.returned c1 sent) :
    send c now message = (c1, sent) := by
  unfold Platform.send Platform.sendRaw Platform.storeMessageOffline at h
  unfold send sendRaw storeMessageOffline
  cases hc : c.connected <;> by_cases hs : c.socket = some ReadyState.OPEN <;>
    cases h1 : p.stringifyThrows message <;> cases h2 : p.parseThrows <;>
    cases h3 : p.setItemThrows <;>
    simp [hc, hs, h1, h2, h3] at h ⊢ <;>
    (obtain ⟨rfl, rfl⟩ := h; simp)

/-- When none of the three calls throws, `send` returns on the platform what
the total `send` returns. -/
theorem platform_send_of_no_throw (p : Platform) (c : RealtimeCommunicator) (now : Nat)
    (message : Message) (h1 : p.stringifyThrows message = false) (h2 : p.parseThrows = false)
    (h3 : p.setItemThrows = false) :
    p.send c now message = Completion.returned (send c now message).1 (send c now message).2 := by
  unfold Platform.send Platform.sendRaw Platform.storeMessageOffline
  unfold send sendRaw storeMessageOffline
  cases hc : c.connected <;> by_cases hs : c.socket = some ReadyState.OPEN <;>
    simp [hc, hs, h1, h2, h3]

/-- When `send` throws: with the socket open on a connected client, exactly
when `JSON.stringify` rejects the message; on the path that queues, exactly
when one of the three calls of `storeMessageOffline` throws, and then the
message is already on the in-memory queue and not on the durable list. -/
theorem platform_send_threw (p : Platform) (c : RealtimeCommunicator) (now : Nat)
    (message : Message) :
    ((p.send c now message).error? ≠ none ↔
      if c.connected = true ∧ c.socket = some ReadyState.OPEN then
        p.stringifyThrows message = true
      else
        p.parseThrows = true ∨ p.stringifyThrows message = true ∨ p.setItemThrows = true) ∧
    ((p.send c now message).error? ≠ none →
      (p.send c now message).state.pending_messages = c.pending_messages ∧
      (p.send c now message).state.transmitted = c.transmitted ∧
      (p.send c now message).state.messageQueue =
        if c.connected = true ∧ c.socket = some ReadyState.OPEN then c.messageQueue
        else c.messageQueue ++ [message]) := by
  unfold Platform.send Platform.sendRaw Platform.storeMessageOffline
  cases hc : c.connected <;> by_cases hs : c.socket = some ReadyState.OPEN <;>
    cases h1 : p.stringifyThrows message <;> cases h2 : p.parseThrows <;>
    cases h3 : p.setItemThrows <;>
    simp [hc, hs, h1, h2, h3, Completion.error?, Completion.state]

/-- C4, refuted as stated: `send` throws.  On the disconnected client with the
storage full it throws the `QuotaExceededError` of `localStorage.setItem`, the
message already pushed on the in-memory queue and missing from the durable
list; with text under `pending_messages` that is not JSON it throws the
`SyntaxError` of `JSON.parse`; and on the connected client whose socket is
open it throws the `TypeError` of `JSON.stringify` for a payload that cannot be
serialised. -/
theorem send_throws_what_storage_and_json_throw :
    (fullStorage.send offlineClient 5 (heartbeat 5 "client_1")).error? =
      some "QuotaExceededError" ∧
    (fullStorage.send offlineClient 5 (heartbeat 5 "client_1")).state.messageQueue =
      [heartbeat 5 "client_1"] ∧
    (fullStorage.send offlineClient 5 (heartbeat 5 "client_1")).state.pending_messages = [] ∧
    (corruptStorage.send offlineClient 5 (heartbeat 5 "client_1")).error? = some "SyntaxError" ∧
    syncClient.connected = true ∧ syncClient.socket = some ReadyState.OPEN ∧
    (cyclicPayload.send syncClient 5 (trafficReport 5 "jam")).error? = some "TypeError" :=
  ⟨rfl, rfl, rfl, rfl, rfl, rfl, rfl⟩

/-- C4, amended: `send` catches nothing, so it throws what `JSON.stringify`,
`JSON.parse` of the stored list or `localStorage.setItem` throws inside it, and
returns when none of them throws.  A call that returns, returns `true` exactly
when the client is connected and the socket is open; then the message went to
the socket and neither queue changed.  Otherwise it returns `false`, the
message is the new last element of the in-memory queue and its entry is pushed
at the end of the durable list (of which the last 100 are kept). -/
theorem send_returns_sent_else_queued_or_throws (p : Platform) (c : RealtimeCommunicator)
    (now : Nat) (message : Message) :
    ((p.send c now message).error? ≠ none ↔
      if c.connected = true ∧ c.socket = some ReadyState.OPEN then
        p.stringifyThrows message = true
      else
        p.parseThrows = true ∨ p.stringifyThrows message = true ∨ p.setItemThrows = true) ∧
    (p.stringifyThrows message = false → p.parseThrows = false → p.setItemThrows = false →
      ∃ c1 sent, p.send c now message = Completion.returned c1 sent) ∧
    (∀ (c1 : RealtimeCommunicator) (sent : Bool),
      p.send c now message = Completion.returned c1 sent →
      (sent = true ↔ (c.connected = true ∧ c.socket = some ReadyState.OPEN)) ∧
      (sent = true →
        c1.messageQueue = c.messageQueue ∧
        c1.pending_messages = c.pending_messages ∧
        c1.transmitted = c.transmitted ++ [message]) ∧
      (sent = false →
        c1.messageQueue = c.messageQueue ++ [message] ∧
        c1.pending_messages = lastN 100 (c.pending_messages ++ [entryOf (now, message)]) ∧
        c1.pending_messages.getLast? = some (entryOf (now, message)) ∧
        (c.pending_messages.length < 100 →
          c1.pending_messages = c.pending_messages ++ [entryOf (now, message)]) ∧
        c1.transmitted = c.transmitted)) := by
  refine ⟨(platform_send_threw p c now message).1,
    fun h1 h2 h3 => ⟨_, _, platform_send_of_no_throw p c now message h1 h2 h3⟩, ?_⟩
  intro c1 sent h
  have hsend := platform_send_returned p c c1 now message sent h
  have hold := send_true_iff_sent_else_queued c now message
  rw [hsend] at hold
  obtain ⟨k1, k2, k3⟩ := hold
  refine ⟨?_, k2, k3⟩
  rw [k1]
  by_cases hs : c.socket = some ReadyState.OPEN
  · simp [sendRaw, hs]
  · simp [sendRaw, hs]

/-- C4 on the disconnected client: where nothing throws `send` returns `false`
and queues the message twice over; with the storage full it throws. -/
theorem send_returns_sent_else_queued_or_throws_witness :
    (∃ c1 sent, reliablePlatform.send offlineClient 5 (heartbeat 5 "client_1") =
      Completion.returned c1 sent) ∧
    (send offlineClient 5 (heartbeat 5 "client_1")).1.messageQueue = [heartbeat 5 "client_1"] ∧
    (send offlineClient 5 (heartbeat 5 "client_1")).1.pending_messages =
      [entryOf (5, heartbeat 5 "client_1")] ∧
    (fullStorage.send offlineClient 5 (heartbeat 5 "client_1")).error? ≠ none :=
  ⟨(send_returns_sent_else_queued_or_throws reliablePlatform offlineClient 5
      (heartbeat 5 "client_1")).2.1 rfl rfl rfl,
    ((send_returns_sent_else_queued_or_throws reliablePlatform offlineClient 5
      (heartbeat 5 "client_1")).2.2 _ false rfl).2.2 rfl |>.1,
    (((send_returns_sent_else_queued_or_throws reliablePlatform offlineClient 5
      (heartbeat 5 "client_1")).2.2 _ false rfl).2.2 rfl).2.2.2.1 (by decide),
    (send_returns_sent_else_queued_or_throws fullStorage offlineClient 5
      (heartbeat 5 "client_1")).1.2 (by decide)⟩

/-! ## C5 -/

theorem send_queues (c : RealtimeCommunicator) (now : Nat) (message : Message) :
    ((send c now message).1.messageQueue = c.messageQueue ∧
      (send c now message).1.pending_messages = c.pending_messages) ∨
    ((send c now message).1.messageQueue = c.messageQueue ++ [message] ∧
      (send c now message).1.pending_messages =
        lastN 100 (c.pending_messages ++ [entryOf (now, message)])) := by
  cases hc : c.connected with
  | false =>
    obtain ⟨-, h2, h3, -⟩ := send_disconnected c now message hc
    exact Or.inr ⟨h2, h3⟩
  | true =>
    by_cases hs : c.socket = some ReadyState.OPEN
    · left
      rw [send_open c now message hc hs]
      exact ⟨rfl, rfl⟩
    · right
      have hraw := sendRaw_not_open c message hs
      have hp := storeMessageOffline_pending
        { c with messageQueue := c.messageQueue ++ [message] } now message
      have hsend : send c now message =
          (storeMessageOffline { c with messageQueue := c.messageQueue ++ [message] } now message,
            false) := by
        simp [send, hc, hraw]
      rw [hsend]
      exact ⟨by simp [storeMessageOffline], hp⟩

theorem sendAll_mirror (calls : List (Nat × Message)) :
    ∀ c : RealtimeCommunicator,
      c.pending_messages.map PendingItem.message = lastN 100 c.messageQueue →
      (sendAll c calls).pending_messages.map PendingItem.message =
        lastN 100 (sendAll c calls).messageQueue := by
  induction calls with
  | nil => intro c h; exact h
  | cons call rest ih =>
    intro c h
    rw [sendAll_cons]
    apply ih
    rcases send_queues c call.1 call.2 with ⟨h1, h2⟩ | ⟨h1, h2⟩
    · rw [h1, h2]; exact h
    · rw [h1, h2, map_lastN, List.map_append, h, lastN_append_lastN]
      simp [entryOf]

theorem sendRaw_frame (c : RealtimeCommunicator) (message : Message) :
    (sendRaw c message).1.pending_messages = c.pending_messages ∧
    (sendRaw c message).1.messageQueue = c.messageQueue := by
  by_cases hs : c.socket = some ReadyState.OPEN
  · rw [sendRaw_open c message hs]; exact ⟨rfl, rfl⟩
  · rw [sendRaw_not_open c message hs]; exact ⟨rfl, rfl⟩

theorem drainQueue_pending (fuel : Nat) :
    ∀ c : RealtimeCommunicator, (drainQueue fuel c).pending_messages = c.pending_messages := by
  induction fuel with
  | zero => intro c; rfl
  | succ fuel ih =>
    intro c
    rw [drainQueue]
    cases hq : c.messageQueue with
    | nil => rfl
    | cons message rest =>
      simp only []
      rw [ih, (sendRaw_frame _ _).1]

theorem processMessageQueue_pending (c : RealtimeCommunicator) :
    (processMessageQueue c).pending_messages = c.pending_messages := by
  unfold processMessageQueue
  split
  · rfl
  · exact drainQueue_pending _ c

theorem syncCallback_queue (c : RealtimeCommunicator) (arr : List (Nat × PendingItem))
    (index : Nat) (item : PendingItem) :
    (syncCallback c arr index item).1.messageQueue = c.messageQueue := by
  unfold syncCallback
  by_cases hs : c.socket = some ReadyState.OPEN
  · simp [sendRaw_open c item.message hs]
  · simp only [sendRaw_not_open c item.message hs]
    by_cases ha : item.attempts + 1 > 3 <;> simp [ha]

theorem syncTimeouts_queue (socketAt : Nat → Option ReadyState)
    (todo : List (Nat × PendingItem)) :
    ∀ (c : RealtimeCommunicator) (arr : List (Nat × PendingItem)),
      (syncTimeouts socketAt todo c arr).1.messageQueue = c.messageQueue := by
  induction todo with
  | nil => intro c arr; rfl
  | cons head rest ih =>
    intro c arr
    obtain ⟨index, item⟩ := head
    rw [syncTimeouts, ih, syncCallback_queue]

theorem syncPendingUpdates_queue (c : RealtimeCommunicator)
    (socketAt : Nat → Option ReadyState) :
    (syncPendingUpdates c socketAt).messageQueue = c.messageQueue := by
  unfold syncPendingUpdates
  simp only []
  split
  · exact syncTimeouts_queue socketAt _ c _
  · rfl

/-- C5, refuted as stated: a client that starts with both lists empty, is
passed one message while disconnected and then sees its socket open (whose
handler runs `processMessageQueue`) has an empty in-memory queue and a durable
list that still holds the message. -/
theorem queue_and_mirror_differ_after_drain :
    offlineClient.messageQueue = [] ∧ offlineClient.pending_messages = [] ∧
    (run offlineClient
      [Event.send 5 (heartbeat 5 "client_1"), Event.socketOpen 6]).messageQueue = [] ∧
    (run offlineClient
      [Event.send 5 (heartbeat 5 "client_1"), Event.socketOpen 6]).pending_messages.map
        PendingItem.message = [heartbeat 5 "client_1"] ∧
    (run offlineClient
      [Event.send 5 (heartbeat 5 "client_1"), Event.socketOpen 6]).messageQueue ≠
    (run offlineClient
      [Event.send 5 (heartbeat 5 "client_1"), Event.socketOpen 6]).pending_messages.map
        PendingItem.message := by
  refine ⟨rfl, rfl, rfl, rfl, ?_⟩
  intro h
  have hl := congrArg List.length h
  revert hl
  decide

/-- C5, amended: starting from both lists empty, after every sequence of calls
of `send` the durable list holds the last 100 messages of the in-memory queue
in the same order, hence the same messages in the same order while at most 100
are queued; `processMessageQueue` leaves the durable list as it is and
`syncPendingUpdates` leaves the in-memory queue as it is. -/
theorem mirror_holds_last_100_of_queue (c : RealtimeCommunicator)
    (calls : List (Nat × Message)) (hq : c.messageQueue = []) (hp : c.pending_messages = []) :
    (sendAll c calls).pending_messages.map PendingItem.message =
      lastN 100 (sendAll c calls).messageQueue ∧
    ((sendAll c calls).messageQueue.length ≤ 100 →
      (sendAll c calls).pending_messages.map PendingItem.message =
        (sendAll c calls).messageQueue) ∧
    (∀ d : RealtimeCommunicator,
      (processMessageQueue d).pending_messages = d.pending_messages) ∧
    (∀ (d : RealtimeCommunicator) (socketAt : Nat → Option ReadyState),
      (syncPendingUpdates d socketAt).messageQueue = d.messageQueue) := by
  have hm := sendAll_mirror calls c (by rw [hq, hp]; rfl)
  refine ⟨hm, fun hlen => ?_, processMessageQueue_pending, syncPendingUpdates_queue⟩
  rw [hm]
  exact lastN_of_length_le 100 _ hlen

/-- The amended C5 at three calls on the disconnected client. -/
theorem mirror_holds_last_100_of_queue_witness :
    offlineClient.messageQueue = [] ∧ offlineClient.pending_messages = [] ∧
    (sendAll offlineClient (heartbeatCalls 3)).pending_messages.map PendingItem.message =
      (sendAll offlineClient (heartbeatCalls 3)).messageQueue :=
  ⟨rfl, rfl,
    (mirror_holds_last_100_of_queue offlineClient (heartbeatCalls 3) rfl rfl).2.1 (by decide)⟩

/-! ## C6 -/

/-- C6, the code at the failing input: on the polling fallback (`connected` is
`true`, there is no socket) a message passed to `send` is queued because
`sendRaw` fails; the next `processMessageQueue` shifts it off the queue, calls
`sendRaw`, which fails again, and leaves the queue empty with nothing sent. -/
theorem processMessageQueue_drops_unsent_message :
    pollingClient.connected = true ∧ pollingClient.socket = none ∧
    (send pollingClient 5 (heartbeat 5 "client_1")).2 = false ∧
    (send pollingClient 5 (heartbeat 5 "client_1")).1.messageQueue = [heartbeat 5 "client_1"] ∧
    (sendRaw (send pollingClient 5 (heartbeat 5 "client_1")).1 (heartbeat 5 "client_1")).2 = false ∧
    (processMessageQueue (send pollingClient 5 (heartbeat 5 "client_1")).1).messageQueue = [] ∧
    (processMessageQueue (send pollingClient 5 (heartbeat 5 "client_1")).1).transmitted = [] :=
  ⟨rfl, rfl, rfl, rfl, rfl, rfl, rfl⟩

/-! ## C7 -/

/-- C7, the code at the failing input: with two stored entries, a connected
client and a socket that is open for both delayed callbacks, both messages are
sent, yet the durable list ends holding the second entry: the second callback
runs `splice(1, 1)` on an array that has already lost its first element. -/
theorem syncPendingUpdates_leaves_sent_entry :
    syncClient.connected = true ∧
    syncClient.pending_messages =
      [entryOf (1, heartbeat 1 "client_1"), entryOf (2, heartbeat 2 "client_1")] ∧
    (syncPendingUpdates syncClient fun _ => some ReadyState.OPEN).transmitted =
      [heartbeat 1 "client_1", heartbeat 2 "client_1"] ∧
    (syncPendingUpdates syncClient fun _ => some ReadyState.OPEN).pending_messages =
      [entryOf (2, heartbeat 2 "client_1")] :=
  ⟨rfl, rfl, rfl, rfl⟩

/-! ## C8 -/

theorem scheduledDelays_failedAttempts_five :
    (run offlineClient (failedAttempts 5)).scheduledDelays =
      [1000, 1500, 2250, 3375, 5062.5] := by
  simp [run, failedAttempts, step, offlineClient, construct, startQueueProcessor, startHeartbeat,
    setInterval, initWebSocket, onclose, reconnectCallback, isLive]
  norm_num

/-- C8, refuted as stated: on a fresh client whose connection attempts all end
in a close, the fifth delay that `onclose` passes to `setTimeout` is
`5062.5`, so the delays are not `1000, 1500, 2250, 3375, 5062`. -/
theorem fifth_reconnect_delay_is_not_5062 :
    offlineClient.reconnectDelay = 1000 ∧ offlineClient.reconnectAttempts = 0 ∧
    (run offlineClient (failedAttempts 5)).scheduledDelays ≠ [1000, 1500, 2250, 3375, 5062] := by
  refine ⟨rfl, rfl, ?_⟩
  rw [scheduledDelays_failedAttempts_five]
  norm_num

/-- C8, amended: on a fresh client (`reconnectDelay` 1000, `reconnectAttempts`
0) whose connection attempts all end in a close, the delays passed to
`setTimeout` before reconnect attempts 1 to 5 are 1000, 1500, 2250, 3375 and
5062.5; their whole milliseconds are 1000, 1500, 2250, 3375 and 5062. -/
theorem reconnect_delays_of_first_five_attempts :
    offlineClient.reconnectDelay = 1000 ∧ offlineClient.reconnectAttempts = 0 ∧
    (run offlineClient (failedAttempts 5)).scheduledDelays = [1000, 1500, 2250, 3375, 5062.5] ∧
    (run offlineClient (failedAttempts 5)).reconnectAttempts = 5 ∧
    (run offlineClient (failedAttempts 5)).autoReconnects = 5 ∧
    (run offlineClient (failedAttempts 5)).scheduledDelays.map Int.floor =
      [1000, 1500, 2250, 3375, 5062] := by
  refine ⟨rfl, rfl, scheduledDelays_failedAttempts_five, rfl, rfl, ?_⟩
  rw [scheduledDelays_failedAttempts_five]
  have h : Int.floor (5062.5 : ℚ) = 5062 :=
    Int.floor_eq_iff.mpr (by norm_num)
  have h1 : Int.floor (1000 : ℚ) = 1000 := Int.floor_eq_iff.mpr (by norm_num)
  have h2 : Int.floor (1500 : ℚ) = 1500 := Int.floor_eq_iff.mpr (by norm_num)
  have h3 : Int.floor (2250 : ℚ) = 2250 := Int.floor_eq_iff.mpr (by norm_num)
  have h4 : Int.floor (3375 : ℚ) = 3375 := Int.floor_eq_iff.mpr (by norm_num)
  simp only [List.map_cons, List.map_nil, h, h1, h2, h3, h4]

/-! ## The reconnection state under the operations of the queue -/

theorem sendRaw_reconnectState (c : RealtimeCommunicator) (message : Message) :
    reconnectState (sendRaw c message).1 = reconnectState c := by
  unfold sendRaw
  split <;> rfl

theorem send_connected_not_open (c : RealtimeCommunicator) (now : Nat) (message : Message)
    (hc : c.connected = true) (hs : c.socket ≠ some ReadyState.OPEN) :
    send c now message =
      (storeMessageOffline { c with messageQueue := c.messageQueue ++ [message] } now message,
        false) := by
  simp [send, hc, sendRaw_not_open c message hs]

theorem send_reconnectState (c : RealtimeCommunicator) (now : Nat) (message : Message) :
    reconnectState (send c now message).1 = reconnectState c := by
  cases hc : c.connected with
  | false =>
    have h : send c now message =
        (storeMessageOffline { c with messageQueue := c.messageQueue ++ [message] } now message,
          false) := by
      simp [send, hc]
    rw [h]
    rfl
  | true =>
    by_cases hs : c.socket = some ReadyState.OPEN
    · rw [send_open c now message hc hs]; rfl
    · rw [send_connected_not_open c now message hc hs]; rfl

theorem drainQueue_reconnectState (fuel : Nat) :
    ∀ c : RealtimeCommunicator, reconnectState (drainQueue fuel c) = reconnectState c := by
  induction fuel with
  | zero => intro c; rfl
  | succ fuel ih =>
    intro c
    rw [drainQueue]
    cases hq : c.messageQueue with
    | nil => rfl
    | cons message rest =>
      simp only []
      rw [ih, sendRaw_reconnectState]
      rfl

theorem processMessageQueue_reconnectState (c : RealtimeCommunicator) :
    reconnectState (processMessageQueue c) = reconnectState c := by
  unfold processMessageQueue
  split
  · rfl
  · exact drainQueue_reconnectState _ c

theorem resubscribe_fold_reconnectState (now : Nat) (subs : List (String × List Nat)) :
    ∀ c : RealtimeCommunicator,
      reconnectState
        (subs.foldl (fun acc entry => (send acc now (subscribeMessage entry.1 acc.clientId)).1) c) =
      reconnectState c := by
  induction subs with
  | nil => intro c; rfl
  | cons entry rest ih =>
    intro c
    rw [List.foldl_cons, ih, send_reconnectState]

theorem onopen_reconnectState (c : RealtimeCommunicator) (now : Nat) :
    reconnectState (onopen c now) =
      { reconnectState c with connected := true, reconnectAttempts := 0 } := by
  unfold onopen resubscribeAll
  rw [processMessageQueue_reconnectState, resubscribe_fold_reconnectState]
  rfl

theorem syncCallback_reconnectState (c : RealtimeCommunicator) (arr : List (Nat × PendingItem))
    (index : Nat) (item : PendingItem) :
    reconnectState (syncCallback c arr index item).1 = reconnectState c := by
  unfold syncCallback
  by_cases hs : c.socket = some ReadyState.OPEN
  · simp only [sendRaw_open c item.message hs, if_true]
    rfl
  · simp only [sendRaw_not_open c item.message hs]
    by_cases ha : item.attempts + 1 > 3 <;> simp [ha]

theorem syncTimeouts_reconnectState (s : Option ReadyState) (todo : List (Nat × PendingItem)) :
    ∀ (c : RealtimeCommunicator) (arr : List (Nat × PendingItem)), c.socket = s →
      reconnectState (syncTimeouts (fun _ => s) todo c arr).1 = reconnectState c := by
  induction todo with
  | nil => intro c arr _; rfl
  | cons head rest ih =>
    intro c arr hs
    obtain ⟨index, item⟩ := head
    have hc : reconnectState { c with socket := s } = reconnectState c := by
      subst hs; rfl
    have h1 := syncCallback_reconnectState { c with socket := s } arr index item
    have h2 : (syncCallback { c with socket := s } arr index item).1.socket = s :=
      congrArg ReconnectState.socket h1
    rw [syncTimeouts, ih _ _ h2, h1, hc]

theorem syncPendingUpdates_reconnectState (c : RealtimeCommunicator) :
    reconnectState (syncPendingUpdates c fun _ => c.socket) = reconnectState c := by
  unfold syncPendingUpdates
  simp only []
  split
  · exact syncTimeouts_reconnectState c.socket _ c _ rfl
  · rfl

theorem resetHeartbeat_reconnectState (c : RealtimeCommunicator) (period : Nat) :
    reconnectState (resetHeartbeat c period) = reconnectState c := by
  unfold resetHeartbeat
  split <;> rfl

theorem onAppForeground_reconnectState (c : RealtimeCommunicator) :
    reconnectState (onAppForeground c fun _ => c.socket) = reconnectState c := by
  have h := syncPendingUpdates_reconnectState (resetHeartbeat c 30000)
  have hs : (resetHeartbeat c 30000).socket = c.socket :=
    congrArg ReconnectState.socket (resetHeartbeat_reconnectState c 30000)
  rw [hs] at h
  unfold onAppForeground
  rw [h, resetHeartbeat_reconnectState]

theorem onclose_reconnectState (c : RealtimeCommunicator) :
    reconnectState (onclose c) = ReconnectState.onclose (reconnectState c) := by
  unfold onclose ReconnectState.onclose
  by_cases h : c.reconnectAttempts < c.maxReconnectAttempts
  · simp [h, reconnectState]
  · simp [h, reconnectState]

theorem initWebSocket_reconnectState (c : RealtimeCommunicator) (ws : WebSocketSupport) :
    reconnectState (initWebSocket c ws) = ReconnectState.initWebSocket (reconnectState c) ws := by
  cases ws <;> rfl

theorem step_reconnectState (c : RealtimeCommunicator) (e : Event) :
    reconnectState (step c e) = ReconnectState.step (reconnectState c) e := by
  cases e with
  | socketOpen now =>
    simp only [step, ReconnectState.step]
    by_cases h : c.socket = some ReadyState.CONNECTING
    · have h' : (reconnectState c).socket = some ReadyState.CONNECTING := h
      rw [if_pos h, if_pos h', onopen_reconnectState]
      rfl
    · have h' : ¬ (reconnectState c).socket = some ReadyState.CONNECTING := h
      rw [if_neg h, if_neg h']
  | socketClose =>
    simp only [step, ReconnectState.step]
    by_cases h : isLive c.socket = true
    · have h' : isLive (reconnectState c).socket = true := h
      rw [if_pos h, if_pos h', onclose_reconnectState]
      rfl
    · have h' : ¬ isLive (reconnectState c).socket = true := h
      rw [if_neg h, if_neg h']
  | staleOpen now =>
    simp only [step, ReconnectState.step]
    by_cases h : 0 < c.staleSockets
    · have h' : 0 < (reconnectState c).staleSockets := h
      rw [if_pos h, if_pos h', onopen_reconnectState]
    · have h' : ¬ 0 < (reconnectState c).staleSockets := h
      rw [if_neg h, if_neg h']
  | staleClose =>
    simp only [step, ReconnectState.step]
    by_cases h : 0 < c.staleSockets
    · have h' : 0 < (reconnectState c).staleSockets := h
      rw [if_pos h, if_pos h', onclose_reconnectState]
      rfl
    · have h' : ¬ 0 < (reconnectState c).staleSockets := h
      rw [if_neg h, if_neg h']
  | reconnectTimeout ws =>
    simp only [step, ReconnectState.step]
    cases ht : c.reconnectTimers with
    | nil =>
      have ht' : (reconnectState c).reconnectTimers = [] := ht
      simp only [ht']
    | cons d rest =>
      have ht' : (reconnectState c).reconnectTimers = d :: rest := ht
      simp only [ht']
      unfold reconnectCallback
      rw [initWebSocket_reconnectState]
      rfl
  | online ws =>
    simp only [step, ReconnectState.step, ononline]
    cases hc : c.connected with
    | false =>
      have hc' : (reconnectState c).connected = false := hc
      simp only [hc', Bool.not_false, if_true]
      exact initWebSocket_reconnectState c ws
    | true =>
      have hc' : (reconnectState c).connected = true := hc
      simp [hc']
  | send now message => exact send_reconnectState c now message
  | queueSweep => exact processMessageQueue_reconnectState c
  | foreground => exact onAppForeground_reconnectState c

theorem run_reconnectState (events : List Event) :
    ∀ c : RealtimeCommunicator,
      reconnectState (run c events) = events.foldl ReconnectState.step (reconnectState c) := by
  induction events with
  | nil => intro c; rfl
  | cons e rest ih =>
    intro c
    have h : run c (e :: rest) = run (step c e) rest := rfl
    rw [h, ih, step_reconnectState, List.foldl_cons]

/-! ## C9 -/

theorem ReconnectState.initWebSocket_reconnectDelay (r : ReconnectState)
    (ws : WebSocketSupport) :
    (ReconnectState.initWebSocket r ws).reconnectDelay = r.reconnectDelay := by
  cases ws <;> rfl

theorem ReconnectState.onclose_reconnectDelay (r : ReconnectState) :
    (ReconnectState.onclose r).reconnectDelay = r.reconnectDelay := by
  unfold ReconnectState.onclose
  split <;> rfl

theorem ReconnectState.step_timeout_reconnectDelay (r : ReconnectState) (ws : WebSocketSupport)
    (d : ℚ) (rest : List ℚ) (h : r.reconnectTimers = d :: rest) :
    (ReconnectState.step r (Event.reconnectTimeout ws)).reconnectDelay =
      min (r.reconnectDelay * 1.5) 10000 := by
  simp only [ReconnectState.step, h]
  rw [ReconnectState.initWebSocket_reconnectDelay]

theorem ReconnectState.step_reconnectDelay (r : ReconnectState) (e : Event) :
    (ReconnectState.step r e).reconnectDelay = r.reconnectDelay ∨
    (ReconnectState.step r e).reconnectDelay = min (r.reconnectDelay * 1.5) 10000 := by
  cases e with
  | socketOpen now =>
    left
    simp only [ReconnectState.step]
    split <;> rfl
  | socketClose =>
    left
    simp only [ReconnectState.step]
    split
    · rw [ReconnectState.onclose_reconnectDelay]
    · rfl
  | staleOpen now =>
    left
    simp only [ReconnectState.step]
    split <;> rfl
  | staleClose =>
    left
    simp only [ReconnectState.step]
    split
    · rw [ReconnectState.onclose_reconnectDelay]
    · rfl
  | reconnectTimeout ws =>
    cases ht : r.reconnectTimers with
    | nil =>
      left
      simp only [ReconnectState.step, ht]
    | cons d rest => exact Or.inr (ReconnectState.step_timeout_reconnectDelay r ws d rest ht)
  | online ws =>
    left
    simp only [ReconnectState.step]
    split
    · rw [ReconnectState.initWebSocket_reconnectDelay]
    · rfl
  | send now message => exact Or.inl rfl
  | queueSweep => exact Or.inl rfl
  | foreground => exact Or.inl rfl

theorem le_backoff (d : ℚ) (h0 : 1000 ≤ d) (h1 : d ≤ 10000) :
    d ≤ min (d * 1.5) 10000 ∧ 1000 ≤ min (d * 1.5) 10000 ∧ min (d * 1.5) 10000 ≤ 10000 := by
  have h : d ≤ d * 1.5 := by norm_num; linarith
  exact ⟨le_min h h1, le_min (le_trans h0 h) (by norm_num), min_le_right _ _⟩

theorem ReconnectState.foldl_step_delay_bounds (events : List Event) :
    ∀ r : ReconnectState, 1000 ≤ r.reconnectDelay → r.reconnectDelay ≤ 10000 →
      1000 ≤ (events.foldl ReconnectState.step r).reconnectDelay ∧
      (events.foldl ReconnectState.step r).reconnectDelay ≤ 10000 := by
  induction events with
  | nil => intro r h0 h1; exact ⟨h0, h1⟩
  | cons e rest ih =>
    intro r h0 h1
    rw [List.foldl_cons]
    obtain ⟨-, k0, k1⟩ := le_backoff r.reconnectDelay h0 h1
    rcases ReconnectState.step_reconnectDelay r e with h | h
    · exact ih _ (by rw [h]; exact h0) (by rw [h]; exact h1)
    · exact ih _ (by rw [h]; exact k0) (by rw [h]; exact k1)

theorem construct_reconnectDelay (ws : WebSocketSupport) (clientId : String)
    (stored : List PendingItem) : (construct ws clientId stored).reconnectDelay = 1000 := by
  cases ws <;> rfl

/-- C9: on a client built by the constructor, after every sequence of events
(closes, reconnect timeouts, opens, `online` events, sends, sweeps)
`reconnectDelay` lies between 1000 and 10000; no event decreases it; and the
reconnect callback of a pending timeout multiplies it by 1.5 when the product
is at most 10000 and sets it to exactly 10000 otherwise. -/
theorem reconnectDelay_bounded_nondecreasing_capped (ws : WebSocketSupport) (clientId : String)
    (stored : List PendingItem) (events : List Event) :
    1000 ≤ (run (construct ws clientId stored) events).reconnectDelay ∧
    (run (construct ws clientId stored) events).reconnectDelay ≤ 10000 ∧
    (∀ e : Event,
      (run (construct ws clientId stored) events).reconnectDelay ≤
        (step (run (construct ws clientId stored) events) e).reconnectDelay) ∧
    (∀ (ws1 : WebSocketSupport) (d : ℚ) (rest : List ℚ),
      (run (construct ws clientId stored) events).reconnectTimers = d :: rest →
      ((run (construct ws clientId stored) events).reconnectDelay * 1.5 ≤ 10000 →
        (step (run (construct ws clientId stored) events)
          (Event.reconnectTimeout ws1)).reconnectDelay =
          (run (construct ws clientId stored) events).reconnectDelay * 1.5) ∧
      (10000 < (run (construct ws clientId stored) events).reconnectDelay * 1.5 →
        (step (run (construct ws clientId stored) events)
          (Event.reconnectTimeout ws1)).reconnectDelay = 10000)) := by
  have hrun := run_reconnectState events (construct ws clientId stored)
  have hb := ReconnectState.foldl_step_delay_bounds events
    (reconnectState (construct ws clientId stored))
    (by show (1000 : ℚ) ≤ (construct ws clientId stored).reconnectDelay
        rw [construct_reconnectDelay])
    (by show (construct ws clientId stored).reconnectDelay ≤ 10000
        rw [construct_reconnectDelay]; norm_num)
  rw [← hrun] at hb
  have h0 : 1000 ≤ (run (construct ws clientId stored) events).reconnectDelay := hb.1
  have h1 : (run (construct ws clientId stored) events).reconnectDelay ≤ 10000 := hb.2
  refine ⟨h0, h1, fun e => ?_, fun ws1 d rest ht => ?_⟩
  · have hs := congrArg ReconnectState.reconnectDelay
      (step_reconnectState (run (construct ws clientId stored) events) e)
    have hs' : (step (run (construct ws clientId stored) events) e).reconnectDelay =
        (ReconnectState.step (reconnectState (run (construct ws clientId stored) events))
          e).reconnectDelay := hs
    rw [hs']
    rcases ReconnectState.step_reconnectDelay
      (reconnectState (run (construct ws clientId stored) events)) e with h | h
    · rw [h]; exact le_refl _
    · rw [h]; exact (le_backoff _ h0 h1).1
  · have hs : (step (run (construct ws clientId stored) events)
        (Event.reconnectTimeout ws1)).reconnectDelay =
        (ReconnectState.step (reconnectState (run (construct ws clientId stored) events))
          (Event.reconnectTimeout ws1)).reconnectDelay :=
      congrArg ReconnectState.reconnectDelay
        (step_reconnectState (run (construct ws clientId stored) events) _)
    rw [hs, ReconnectState.step_timeout_reconnectDelay _ ws1 d rest ht]
    exact ⟨fun hle => min_eq_left hle, fun hlt => min_eq_right (le_of_lt hlt)⟩

/-- C9 on the fresh client after its first close: the pending timeout takes
`reconnectDelay` from 1000 to 1500. -/
theorem reconnectDelay_bounded_nondecreasing_capped_witness :
    (run (construct WebSocketSupport.created "client_1" []) [Event.socketClose]).reconnectTimers =
      [1000] ∧
    (step (run (construct WebSocketSupport.created "client_1" []) [Event.socketClose])
      (Event.reconnectTimeout WebSocketSupport.created)).reconnectDelay =
      (run (construct WebSocketSupport.created "client_1" []) [Event.socketClose]).reconnectDelay
        * 1.5 :=
  ⟨rfl,
    ((reconnectDelay_bounded_nondecreasing_capped WebSocketSupport.created "client_1" []
      [Event.socketClose]).2.2.2 WebSocketSupport.created 1000 [] rfl).1
      (by
        have h : (run (construct WebSocketSupport.created "client_1" [])
            [Event.socketClose]).reconnectDelay = 1000 := rfl
        rw [h]; norm_num)⟩

/-! ## C10 -/

theorem ReconnectState.onclose_frame (r : ReconnectState) :
    (ReconnectState.onclose r).maxReconnectAttempts = r.maxReconnectAttempts ∧
    (ReconnectState.onclose r).reconnectAttempts = r.reconnectAttempts ∧
    (ReconnectState.onclose r).autoReconnects = r.autoReconnects ∧
    (r.maxReconnectAttempts ≤ r.reconnectAttempts →
      (ReconnectState.onclose r).reconnectTimers = r.reconnectTimers) := by
  unfold ReconnectState.onclose
  by_cases h : r.reconnectAttempts < r.maxReconnectAttempts
  · rw [if_pos h]
    exact ⟨rfl, rfl, rfl, fun hle => absurd h (Nat.not_lt.mpr hle)⟩
  · rw [if_neg h]
    exact ⟨rfl, rfl, rfl, fun _ => rfl⟩

theorem ReconnectState.step_close_exhausted (r : ReconnectState)
    (h : r.maxReconnectAttempts ≤ r.reconnectAttempts) :
    (ReconnectState.step r Event.socketClose).reconnectTimers = r.reconnectTimers ∧
    (ReconnectState.step r Event.staleClose).reconnectTimers = r.reconnectTimers := by
  constructor
  · simp only [ReconnectState.step]
    split
    · exact (ReconnectState.onclose_frame { r with socket := some ReadyState.CLOSED }).2.2.2 h
    · rfl
  · simp only [ReconnectState.step]
    split
    · exact (ReconnectState.onclose_frame { r with staleSockets := r.staleSockets - 1 }).2.2.2 h
    · rfl

theorem ReconnectState.step_exhausted (r : ReconnectState) (e : Event)
    (h : r.maxReconnectAttempts ≤ r.reconnectAttempts) (ht : r.reconnectTimers = [])
    (ho : e.isOpen = false) (hn : e.isOnline = false) :
    (ReconnectState.step r e).maxReconnectAttempts = r.maxReconnectAttempts ∧
    (ReconnectState.step r e).reconnectAttempts = r.reconnectAttempts ∧
    (ReconnectState.step r e).reconnectTimers = [] ∧
    (ReconnectState.step r e).autoReconnects = r.autoReconnects := by
  cases e with
  | socketOpen now => simp [Event.isOpen] at ho
  | staleOpen now => simp [Event.isOpen] at ho
  | online ws => simp [Event.isOnline] at hn
  | socketClose =>
    refine ⟨?_, ?_, ((ReconnectState.step_close_exhausted r h).1).trans ht, ?_⟩ <;>
    · simp only [ReconnectState.step]
      split
      · first
        | exact (ReconnectState.onclose_frame { r with socket := some ReadyState.CLOSED }).1
        | exact (ReconnectState.onclose_frame { r with socket := some ReadyState.CLOSED }).2.1
        | exact (ReconnectState.onclose_frame { r with socket := some ReadyState.CLOSED }).2.2.1
      · rfl
  | staleClose =>
    refine ⟨?_, ?_, ((ReconnectState.step_close_exhausted r h).2).trans ht, ?_⟩ <;>
    · simp only [ReconnectState.step]
      split
      · first
        | exact (ReconnectState.onclose_frame { r with staleSockets := r.staleSockets - 1 }).1
        | exact (ReconnectState.onclose_frame { r with staleSockets := r.staleSockets - 1 }).2.1
        | exact (ReconnectState.onclose_frame { r with staleSockets := r.staleSockets - 1 }).2.2.1
      · rfl
  | reconnectTimeout ws => simp [ReconnectState.step, ht]
  | send now message => exact ⟨rfl, rfl, ht, rfl⟩
  | queueSweep => exact ⟨rfl, rfl, ht, rfl⟩
  | foreground => exact ⟨rfl, rfl, ht, rfl⟩

theorem ReconnectState.foldl_step_exhausted (events : List Event) :
    ∀ r : ReconnectState, r.maxReconnectAttempts ≤ r.reconnectAttempts →
      r.reconnectTimers = [] →
      (∀ e ∈ events, e.isOpen = false ∧ e.isOnline = false) →
      (events.foldl ReconnectState.step r).reconnectTimers = [] ∧
      (events.foldl ReconnectState.step r).autoReconnects = r.autoReconnects := by
  induction events with
  | nil => intro r _ ht _; exact ⟨ht, rfl⟩
  | cons e rest ih =>
    intro r h ht hq
    obtain ⟨ho, hn⟩ := hq e (List.mem_cons_self _ _)
    obtain ⟨k1, k2, k3, k4⟩ := ReconnectState.step_exhausted r e h ht ho hn
    rw [List.foldl_cons]
    obtain ⟨j1, j2⟩ := ih (ReconnectState.step r e) (by rw [k1, k2]; exact h) k3
      (fun e1 he1 => hq e1 (List.mem_cons_of_mem _ he1))
    exact ⟨j1, j2.trans k4⟩

theorem ReconnectState.chained_onclose (limit start : Nat) (r : ReconnectState)
    (h1 : r.maxReconnectAttempts = limit) (h2 : r.staleSockets = 0)
    (h3 : r.autoReconnects = start + r.reconnectAttempts) (h4 : r.reconnectTimers = [])
    (h5 : r.reconnectAttempts ≤ limit) (h6 : isLive r.socket = false) :
    ReconnectState.chained limit start (ReconnectState.onclose r) := by
  unfold ReconnectState.onclose
  by_cases h : r.reconnectAttempts < r.maxReconnectAttempts
  · rw [if_pos h]
    refine ⟨h1, h2, h3, Or.inr ⟨r.reconnectDelay, ?_, h6, by rw [← h1]; exact h⟩⟩
    simp [h4]
  · rw [if_neg h]
    exact ⟨h1, h2, h3, Or.inl ⟨h4, h5⟩⟩

theorem ReconnectState.chained_step (limit start : Nat) (r : ReconnectState) (e : Event)
    (h : ReconnectState.chained limit start r) (ho : e.isOpen = false)
    (hn : e.isOnline = false) :
    ReconnectState.chained limit start (ReconnectState.step r e) := by
  obtain ⟨h1, h2, h3, h4⟩ := h
  cases e with
  | socketOpen now => simp [Event.isOpen] at ho
  | staleOpen now => simp [Event.isOpen] at ho
  | online ws => simp [Event.isOnline] at hn
  | socketClose =>
    simp only [ReconnectState.step]
    split
    · rename_i hlive
      rcases h4 with ⟨ht, hle⟩ | ⟨d, -, hdead, -⟩
      · exact ReconnectState.chained_onclose limit start _ h1 h2 h3 ht hle rfl
      · rw [hdead] at hlive
        exact absurd hlive (by decide)
    · exact ⟨h1, h2, h3, h4⟩
  | staleClose =>
    simp only [ReconnectState.step]
    rw [if_neg (by rw [h2]; exact Nat.lt_irrefl 0)]
    exact ⟨h1, h2, h3, h4⟩
  | reconnectTimeout ws =>
    rcases h4 with ⟨ht, hle⟩ | ⟨d, ht, hdead, hlt⟩
    · simp only [ReconnectState.step, ht]
      exact ⟨h1, h2, h3, Or.inl ⟨ht, hle⟩⟩
    · simp only [ReconnectState.step, ht]
      cases ws with
      | unsupported =>
        exact ⟨h1, h2, by show r.autoReconnects + 1 = start + (r.reconnectAttempts + 1); omega,
          Or.inl ⟨rfl, hlt⟩⟩
      | throws =>
        exact ⟨h1, h2, by show r.autoReconnects + 1 = start + (r.reconnectAttempts + 1); omega,
          Or.inl ⟨rfl, hlt⟩⟩
      | created =>
        refine ⟨h1, ?_, by show r.autoReconnects + 1 = start + (r.reconnectAttempts + 1); omega,
          Or.inl ⟨rfl, hlt⟩⟩
        show r.staleSockets + (if isLive r.socket = true then 1 else 0) = 0
        rw [hdead, h2]
        rfl
  | send now message => exact ⟨h1, h2, h3, h4⟩
  | queueSweep => exact ⟨h1, h2, h3, h4⟩
  | foreground => exact ⟨h1, h2, h3, h4⟩

theorem ReconnectState.chained_foldl_step (limit start : Nat) (events : List Event) :
    ∀ r : ReconnectState, ReconnectState.chained limit start r →
      (∀ e ∈ events, e.isOpen = false ∧ e.isOnline = false) →
      ReconnectState.chained limit start (events.foldl ReconnectState.step r) := by
  induction events with
  | nil => intro r h _; exact h
  | cons e rest ih =>
    intro r h hq
    obtain ⟨ho, hn⟩ := hq e (List.mem_cons_self _ _)
    rw [List.foldl_cons]
    exact ih _ (ReconnectState.chained_step limit start r e h ho hn)
      (fun e1 he1 => hq e1 (List.mem_cons_of_mem _ he1))

theorem ReconnectState.chained_autoReconnects (limit start : Nat) (r : ReconnectState)
    (h : ReconnectState.chained limit start r) : r.autoReconnects ≤ start + limit := by
  obtain ⟨-, -, h3, h4⟩ := h
  rcases h4 with ⟨-, hle⟩ | ⟨d, -, -, hlt⟩ <;> omega

theorem construct_chained (ws : WebSocketSupport) (clientId : String)
    (stored : List PendingItem) :
    ReconnectState.chained 5 0 (reconnectState (construct ws clientId stored)) := by
  cases ws <;> exact ⟨rfl, rfl, rfl, Or.inl ⟨rfl, Nat.zero_le 5⟩⟩

/-- C10, refuted as stated: when the `online` event has created a second socket
while a reconnect timeout was pending, a state is reached in which
`reconnectAttempts` is 5, the maximum, after five automatic reconnects; the
close of the socket then schedules nothing, yet the timeout still pending
fires and calls `initWebSocket` a sixth time, with no `online` event and no
successful connection in between. -/
theorem sixth_automatic_reconnect_after_online_race :
    (run offlineClient onlineWhileTimerPending).reconnectAttempts = 5 ∧
    (run offlineClient onlineWhileTimerPending).maxReconnectAttempts = 5 ∧
    (run offlineClient onlineWhileTimerPending).autoReconnects = 5 ∧
    (run offlineClient onlineWhileTimerPending).reconnectTimers.length = 1 ∧
    (step (run offlineClient onlineWhileTimerPending) Event.socketClose).reconnectTimers.length
      = 1 ∧
    (run (run offlineClient onlineWhileTimerPending)
      [Event.socketClose, Event.reconnectTimeout WebSocketSupport.created]).autoReconnects = 6 ∧
    (run (run offlineClient onlineWhileTimerPending)
      [Event.socketClose, Event.reconnectTimeout WebSocketSupport.created]).reconnectAttempts
      = 6 :=
  ⟨rfl, rfl, rfl, rfl, rfl, rfl, rfl⟩

/-- C10, amended: once `reconnectAttempts` has reached `maxReconnectAttempts`,
a socket close schedules no reconnection; from every such state in which no
reconnect timeout is already pending, no automatic call of `initWebSocket`
occurs as long as neither the `online` event fires nor a socket opens; and
from a state with `reconnectAttempts` 0, no timeout pending and no replaced
socket alive, at most `maxReconnectAttempts` automatic reconnects happen in
such a run, hence at most 5 on a client built by the constructor. -/
theorem no_automatic_reconnect_after_max_attempts (c : RealtimeCommunicator)
    (events : List Event) (hq : ∀ e ∈ events, e.isOpen = false ∧ e.isOnline = false) :
    (c.maxReconnectAttempts ≤ c.reconnectAttempts →
      (onclose c).reconnectTimers = c.reconnectTimers ∧
      (step c Event.socketClose).reconnectTimers = c.reconnectTimers ∧
      (step c Event.staleClose).reconnectTimers = c.reconnectTimers) ∧
    (c.maxReconnectAttempts ≤ c.reconnectAttempts → c.reconnectTimers = [] →
      (run c events).reconnectTimers = [] ∧
      (run c events).autoReconnects = c.autoReconnects) ∧
    (c.reconnectAttempts = 0 → c.reconnectTimers = [] → c.staleSockets = 0 →
      (run c events).autoReconnects ≤ c.autoReconnects + c.maxReconnectAttempts) ∧
    (∀ (ws : WebSocketSupport) (clientId : String) (stored : List PendingItem),
      (run (construct ws clientId stored) events).autoReconnects ≤ 5) := by
  refine ⟨fun h => ⟨?_, ?_, ?_⟩, fun h ht => ?_, fun ha ht hs => ?_, fun ws clientId stored => ?_⟩
  · exact (congrArg ReconnectState.reconnectTimers (onclose_reconnectState c)).trans
      ((ReconnectState.onclose_frame (reconnectState c)).2.2.2 h)
  · exact (congrArg ReconnectState.reconnectTimers
      (step_reconnectState c Event.socketClose)).trans
      (ReconnectState.step_close_exhausted (reconnectState c) h).1
  · exact (congrArg ReconnectState.reconnectTimers
      (step_reconnectState c Event.staleClose)).trans
      (ReconnectState.step_close_exhausted (reconnectState c) h).2
  · have hr := ReconnectState.foldl_step_exhausted events (reconnectState c) h ht hq
    rw [← run_reconnectState] at hr
    exact hr
  · have hc : ReconnectState.chained c.maxReconnectAttempts c.autoReconnects
        (reconnectState c) :=
      ⟨rfl, hs, by show c.autoReconnects = c.autoReconnects + c.reconnectAttempts; omega,
        Or.inl ⟨ht, by show c.reconnectAttempts ≤ c.maxReconnectAttempts; omega⟩⟩
    have hr := ReconnectState.chained_autoReconnects _ _ _
      (ReconnectState.chained_foldl_step _ _ events _ hc hq)
    rw [← run_reconnectState] at hr
    exact hr
  · have hr := ReconnectState.chained_autoReconnects _ _ _
      (ReconnectState.chained_foldl_step _ _ events _ (construct_chained ws clientId stored) hq)
    rw [← run_reconnectState] at hr
    simpa using hr

/-- The amended C10 on the fresh client whose attempts all end in a close: after
the five reconnects, two further closes and a sweep bring no sixth. -/
theorem no_automatic_reconnect_after_max_attempts_witness :
    (∀ e ∈ [Event.socketClose, Event.queueSweep, Event.socketClose,
        Event.reconnectTimeout WebSocketSupport.created],
      e.isOpen = false ∧ e.isOnline = false) ∧
    (run offlineClient (failedAttempts 5)).maxReconnectAttempts ≤
      (run offlineClient (failedAttempts 5)).reconnectAttempts ∧
    (run offlineClient (failedAttempts 5)).reconnectTimers = [] ∧
    (run (run offlineClient (failedAttempts 5))
      [Event.socketClose, Event.queueSweep, Event.socketClose,
        Event.reconnectTimeout WebSocketSupport.created]).autoReconnects =
      (run offlineClient (failedAttempts 5)).autoReconnects :=
  ⟨by decide, by decide, rfl,
    ((no_automatic_reconnect_after_max_attempts (run offlineClient (failedAttempts 5))
      [Event.socketClose, Event.queueSweep, Event.socketClose,
        Event.reconnectTimeout WebSocketSupport.created] (by decide)).2.1
      (by decide) rfl).2⟩

/-! ## C11 -/

/-- C11: `socket.onopen` sets `connected` to `true` and `reconnectAttempts` to
0 and leaves the rest of the reconnection state as it was, `reconnectDelay`
and `maxReconnectAttempts` among it; so when the socket closes next, the delay
that `onclose` passes to `setTimeout` is the delay reached before the
connection. -/
theorem onopen_resets_attempts_keeps_delay (c : RealtimeCommunicator) (now : Nat) :
    (onopen c now).connected = true ∧
    (onopen c now).reconnectAttempts = 0 ∧
    (onopen c now).reconnectDelay = c.reconnectDelay ∧
    (onopen c now).maxReconnectAttempts = c.maxReconnectAttempts ∧
    reconnectState (onopen c now) =
      { reconnectState c with connected := true, reconnectAttempts := 0 } ∧
    (0 < c.maxReconnectAttempts →
      (onclose (onopen c now)).reconnectTimers = c.reconnectTimers ++ [c.reconnectDelay] ∧
      (onclose (onopen c now)).scheduledDelays = c.scheduledDelays ++ [c.reconnectDelay]) := by
  have h := onopen_reconnectState c now
  have h1 : (onopen c now).connected = true := congrArg ReconnectState.connected h
  have h2 : (onopen c now).reconnectAttempts = 0 := congrArg ReconnectState.reconnectAttempts h
  have h3 : (onopen c now).reconnectDelay = c.reconnectDelay :=
    congrArg ReconnectState.reconnectDelay h
  have h4 : (onopen c now).maxReconnectAttempts = c.maxReconnectAttempts :=
    congrArg ReconnectState.maxReconnectAttempts h
  have h5 : (onopen c now).reconnectTimers = c.reconnectTimers :=
    congrArg ReconnectState.reconnectTimers h
  have h6 : (onopen c now).scheduledDelays = c.scheduledDelays :=
    congrArg ReconnectState.scheduledDelays h
  refine ⟨h1, h2, h3, h4, h, fun hpos => ?_⟩
  have hlt : (onopen c now).reconnectAttempts < (onopen c now).maxReconnectAttempts := by
    rw [h2, h4]; exact hpos
  unfold onclose
  simp only [hlt, if_true]
  exact ⟨by rw [h5, h3], by rw [h6, h3]⟩

/-- C11 on the fresh client after three failed attempts: the socket opens with the
delay at 3375, and the close that follows schedules a reconnect in 3375 ms. -/
theorem onopen_resets_attempts_keeps_delay_witness :
    0 < (run offlineClient (failedAttempts 3)).maxReconnectAttempts ∧
    (run offlineClient (failedAttempts 3)).reconnectAttempts = 3 ∧
    (onopen (run offlineClient (failedAttempts 3)) 9).reconnectAttempts = 0 ∧
    (onclose (onopen (run offlineClient (failedAttempts 3)) 9)).reconnectTimers =
      (run offlineClient (failedAttempts 3)).reconnectTimers ++
        [(run offlineClient (failedAttempts 3)).reconnectDelay] :=
  ⟨by decide, rfl,
    (onopen_resets_attempts_keeps_delay (run offlineClient (failedAttempts 3)) 9).2.1,
    ((onopen_resets_attempts_keeps_delay (run offlineClient (failedAttempts 3)) 9).2.2.2.2.2
      (by decide)).1⟩

/-! ## The subscription map under `subscribe` and `unsubscribe` -/

theorem Subscriptions.get_update (f : List Nat → List Nat) (topic other : String) :
    ∀ m : List (String × List Nat),
      Subscriptions.get (Subscriptions.update m topic f) other =
        if other = topic then (Subscriptions.get m topic).map f else Subscriptions.get m other := by
  intro m
  induction m with
  | nil => simp [Subscriptions.update, Subscriptions.get]
  | cons entry rest ih =>
    obtain ⟨key, callbacks⟩ := entry
    by_cases hk : key = topic
    · subst hk
      by_cases ho : other = key
      · subst ho
        simp [Subscriptions.update, Subscriptions.get]
      · have ho' : ¬ key = other := fun h => ho h.symm
        simp [Subscriptions.update, Subscriptions.get, ho, ho']
    · by_cases ho : other = topic
      · subst ho
        simp only [Subscriptions.update, Subscriptions.get, hk, if_false, if_true]
        rw [ih]
        simp
      · simp only [Subscriptions.update, Subscriptions.get, hk, if_false, ho]
        rw [ih]
        simp [ho]

theorem Subscriptions.get_delete (topic other : String) :
    ∀ m : List (String × List Nat),
      Subscriptions.get (Subscriptions.delete m topic) other =
        if other = topic then none else Subscriptions.get m other := by
  intro m
  induction m with
  | nil => simp [Subscriptions.delete, Subscriptions.get]
  | cons entry rest ih =>
    obtain ⟨key, callbacks⟩ := entry
    unfold Subscriptions.delete at ih ⊢
    by_cases hk : key = topic
    · subst hk
      by_cases ho : other = key
      · simpa [Subscriptions.get, ho] using ih
      · have ho' : ¬ key = other := fun h => ho h.symm
        simpa [Subscriptions.get, ho, ho'] using ih
    · by_cases ho : other = topic
      · subst ho
        simpa [Subscriptions.get, hk] using ih
      · by_cases hko : key = other
        · simp [Subscriptions.get, hk, ho, hko]
        · simpa [Subscriptions.get, hk, ho, hko] using ih

theorem Subscriptions.get_append (topic other : String) (callbacks : List Nat) :
    ∀ m : List (String × List Nat),
      Subscriptions.get (m ++ [(topic, callbacks)]) other =
        match Subscriptions.get m other with
        | some found => some found
        | none => if topic = other then some callbacks else none := by
  intro m
  induction m with
  | nil => simp [Subscriptions.get]
  | cons entry rest ih =>
    obtain ⟨key, value⟩ := entry
    by_cases hk : key = other
    · simp [Subscriptions.get, hk]
    · simpa [Subscriptions.get, hk] using ih

theorem Subscriptions.update_of_get_eq (f : List Nat → List Nat) (topic : String) :
    ∀ m : List (String × List Nat),
      (∀ callbacks, Subscriptions.get m topic = some callbacks → f callbacks = callbacks) →
      Subscriptions.update m topic f = m := by
  intro m
  induction m with
  | nil => intro _; rfl
  | cons entry rest ih =>
    obtain ⟨key, value⟩ := entry
    intro h
    by_cases hk : key = topic
    · have hv : f value = value := h value (by simp [Subscriptions.get, hk])
      simp [Subscriptions.update, hk, hv]
    · have hrest := ih (fun callbacks hg => h callbacks (by simpa [Subscriptions.get, hk] using hg))
      simp [Subscriptions.update, hk, hrest]

theorem Subscriptions.delete_of_get_none (topic : String) :
    ∀ m : List (String × List Nat),
      Subscriptions.get m topic = none → Subscriptions.delete m topic = m := by
  intro m
  induction m with
  | nil => intro _; rfl
  | cons entry rest ih =>
    obtain ⟨key, value⟩ := entry
    intro h
    by_cases hk : key = topic
    · simp [Subscriptions.get, hk] at h
    · have hrest := ih (by simpa [Subscriptions.get, hk] using h)
      unfold Subscriptions.delete at hrest ⊢
      rw [List.filter_cons_of_pos (by simpa using hk), hrest]

theorem Subscriptions.update_append_of_get_none (f : List Nat → List Nat) (topic : String)
    (callbacks : List Nat) :
    ∀ m : List (String × List Nat), Subscriptions.get m topic = none →
      Subscriptions.update (m ++ [(topic, callbacks)]) topic f = m ++ [(topic, f callbacks)] := by
  intro m
  induction m with
  | nil => intro _; simp [Subscriptions.update]
  | cons entry rest ih =>
    obtain ⟨key, value⟩ := entry
    intro h
    by_cases hk : key = topic
    · simp [Subscriptions.get, hk] at h
    · have hrest := ih (by simpa [Subscriptions.get, hk] using h)
      simp [Subscriptions.update, hk, hrest]

theorem Subscriptions.delete_append_self (topic : String) (callbacks : List Nat)
    (m : List (String × List Nat)) (h : Subscriptions.get m topic = none) :
    Subscriptions.delete (m ++ [(topic, callbacks)]) topic = m := by
  have hm := Subscriptions.delete_of_get_none topic m h
  unfold Subscriptions.delete at hm ⊢
  rw [List.filter_append, hm]
  simp

theorem send_subscriptions (c : RealtimeCommunicator) (now : Nat) (message : Message) :
    (send c now message).1.subscriptions = c.subscriptions := by
  cases hc : c.connected with
  | false => exact (send_disconnected c now message hc).2.2.2.2.2.1
  | true =>
    by_cases hs : c.socket = some ReadyState.OPEN
    · rw [send_open c now message hc hs]
    · rw [send_connected_not_open c now message hc hs]
      rfl

theorem subscribe_subscriptions (c : RealtimeCommunicator) (now : Nat) (topic : String)
    (callback : Nat) :
    (subscribe c now topic callback).1.subscriptions =
      Subscriptions.update
        (if !Subscriptions.has c.subscriptions topic then c.subscriptions ++ [(topic, [])]
          else c.subscriptions)
        topic fun s => setAdd s callback := by
  unfold subscribe
  simp only []
  split
  · rw [send_subscriptions]
  · rfl

theorem unsubscribe_of_get_none (c : RealtimeCommunicator) (now : Nat) (topic : String)
    (callback : Nat) (h : Subscriptions.get c.subscriptions topic = none) :
    unsubscribe c now topic callback = c := by
  simp [unsubscribe, Subscriptions.has, h]

theorem unsubscribe_subscriptions (c : RealtimeCommunicator) (now : Nat) (topic : String)
    (callback : Nat) (callbacks : List Nat)
    (h : Subscriptions.get c.subscriptions topic = some callbacks) :
    (unsubscribe c now topic callback).subscriptions =
      if setDelete callbacks callback = [] then
        Subscriptions.delete
          (Subscriptions.update c.subscriptions topic fun s => setDelete s callback) topic
      else
        Subscriptions.update c.subscriptions topic fun s => setDelete s callback := by
  have hg := Subscriptions.get_update (fun s => setDelete s callback) topic topic c.subscriptions
  simp only [if_true, h, Option.map_some'] at hg
  unfold unsubscribe
  simp only [Subscriptions.has, h, Option.isSome_some, if_true, hg, Option.getD_some,
    List.length_eq_zero]
  by_cases he : setDelete callbacks callback = []
  · simp only [he, if_true]
    split
    · rw [send_subscriptions]
    · rfl
  · simp only [he, if_false]

theorem setAdd_ne_nil (callbacks : List Nat) (callback : Nat) : setAdd callbacks callback ≠ [] := by
  unfold setAdd
  split
  · rename_i h
    exact List.ne_nil_of_mem h
  · simp

theorem setAdd_nodup (callbacks : List Nat) (callback : Nat) (h : callbacks.Nodup) :
    (setAdd callbacks callback).Nodup := by
  unfold setAdd
  split
  · exact h
  · rename_i hn
    exact List.Nodup.append h (List.nodup_singleton _) (by simpa using hn)

theorem setDelete_nodup (callbacks : List Nat) (callback : Nat) (h : callbacks.Nodup) :
    (setDelete callbacks callback).Nodup :=
  List.Nodup.filter _ h

theorem mem_setDelete (callbacks : List Nat) (callback other : Nat) :
    other ∈ setDelete callbacks callback ↔ other ∈ callbacks ∧ other ≠ callback := by
  simp [setDelete]

theorem setDelete_of_not_mem (callbacks : List Nat) (callback : Nat) (h : callback ∉ callbacks) :
    setDelete callbacks callback = callbacks := by
  unfold setDelete
  rw [List.filter_eq_self]
  intro other ho
  have : other ≠ callback := fun he => h (he ▸ ho)
  simpa using this

theorem setDelete_eq_nil_iff (callbacks : List Nat) (callback : Nat) (hne : callbacks ≠ [])
    (hnd : callbacks.Nodup) : setDelete callbacks callback = [] ↔ callbacks = [callback] := by
  constructor
  · intro h
    have hall : ∀ other ∈ callbacks, other = callback := by
      intro other ho
      by_contra hc
      have : other ∈ setDelete callbacks callback := (mem_setDelete _ _ _).mpr ⟨ho, hc⟩
      rw [h] at this
      exact absurd this (List.not_mem_nil _)
    cases callbacks with
    | nil => exact absurd rfl hne
    | cons first rest =>
      have hf : first = callback := hall first (List.mem_cons_self _ _)
      have hr : rest = [] := by
        cases rest with
        | nil => rfl
        | cons second more =>
          have hs : second = callback := hall second (by simp)
          have hnot : first ∉ second :: more := (List.nodup_cons.mp hnd).1
          rw [hf, hs] at hnot
          exact absurd (List.mem_cons_self _ _) hnot
      rw [hf, hr]
  · intro h
    rw [h]
    simp [setDelete]

theorem populated_subscribe (c : RealtimeCommunicator) (now : Nat) (topic : String)
    (callback : Nat) (h : Subscriptions.Populated c.subscriptions) :
    Subscriptions.Populated (subscribe c now topic callback).1.subscriptions := by
  intro other callbacks hg
  rw [subscribe_subscriptions, Subscriptions.get_update] at hg
  by_cases ho : other = topic
  · subst ho
    simp only [if_true] at hg
    cases hm : Subscriptions.get c.subscriptions other with
    | none =>
      simp only [Subscriptions.has, hm, Option.isSome_none, Bool.not_false, if_true] at hg
      rw [Subscriptions.get_append, hm] at hg
      simp only [if_true, Option.map_some', Option.some.injEq] at hg
      rw [← hg]
      exact ⟨setAdd_ne_nil _ _, setAdd_nodup _ _ List.nodup_nil⟩
    | some found =>
      simp only [Subscriptions.has, hm, Option.isSome_some, Bool.not_true, Bool.false_eq_true,
        if_false, Option.map_some', Option.some.injEq] at hg
      rw [← hg]
      exact ⟨setAdd_ne_nil _ _, setAdd_nodup _ _ (h other found hm).2⟩
  · simp only [ho, if_false] at hg
    by_cases hh : Subscriptions.has c.subscriptions topic = true
    · simp only [hh, Bool.not_true, Bool.false_eq_true, if_false] at hg
      exact h other callbacks hg
    · simp only [hh, Bool.not_false, if_true] at hg
      rw [Subscriptions.get_append] at hg
      cases hm : Subscriptions.get c.subscriptions other with
      | none =>
        have hne : ¬ topic = other := fun he => ho he.symm
        simp [hm, hne] at hg
      | some found =>
        simp only [hm, Option.some.injEq] at hg
        rw [← hg]
        exact h other found hm

theorem get_unsubscribe_other (c : RealtimeCommunicator) (now : Nat) (topic other : String)
    (callback : Nat) (ho : other ≠ topic) :
    Subscriptions.get (unsubscribe c now topic callback).subscriptions other =
      Subscriptions.get c.subscriptions other := by
  cases hm : Subscriptions.get c.subscriptions topic with
  | none => rw [unsubscribe_of_get_none c now topic callback hm]
  | some callbacks =>
    rw [unsubscribe_subscriptions c now topic callback callbacks hm]
    split
    · rw [Subscriptions.get_delete, Subscriptions.get_update]
      simp [ho]
    · rw [Subscriptions.get_update]
      simp [ho]

theorem get_unsubscribe_self (c : RealtimeCommunicator) (now : Nat) (topic : String)
    (callback : Nat) (callbacks : List Nat)
    (hm : Subscriptions.get c.subscriptions topic = some callbacks) :
    Subscriptions.get (unsubscribe c now topic callback).subscriptions topic =
      if setDelete callbacks callback = [] then none else some (setDelete callbacks callback) := by
  rw [unsubscribe_subscriptions c now topic callback callbacks hm]
  split
  · rw [Subscriptions.get_delete]
    simp
  · rw [Subscriptions.get_update]
    simp [hm]

theorem populated_unsubscribe (c : RealtimeCommunicator) (now : Nat) (topic : String)
    (callback : Nat) (h : Subscriptions.Populated c.subscriptions) :
    Subscriptions.Populated (unsubscribe c now topic callback).subscriptions := by
  intro other callbacks hg
  by_cases ho : other = topic
  · subst ho
    cases hm : Subscriptions.get c.subscriptions other with
    | none =>
      rw [unsubscribe_of_get_none c now other callback hm, hm] at hg
      exact absurd hg (by simp)
    | some found =>
      rw [get_unsubscribe_self c now other callback found hm] at hg
      by_cases he : setDelete found callback = []
      · simp [he] at hg
      · simp only [he, if_false, Option.some.injEq] at hg
        rw [← hg]
        exact ⟨he, setDelete_nodup _ _ (h other found hm).2⟩
  · rw [get_unsubscribe_other c now topic other callback ho] at hg
    exact h other callbacks hg

theorem populated_callAll (calls : List SubscriptionCall) :
    ∀ c : RealtimeCommunicator, Subscriptions.Populated c.subscriptions →
      Subscriptions.Populated (callAll c calls).subscriptions := by
  induction calls with
  | nil => intro c h; exact h
  | cons call rest ih =>
    intro c h
    have hs : callAll c (call :: rest) = callAll (SubscriptionCall.apply c call) rest := rfl
    rw [hs]
    apply ih
    cases call with
    | subscribe now topic callback => exact populated_subscribe c now topic callback h
    | unsubscribe now topic callback => exact populated_unsubscribe c now topic callback h

theorem populated_construct (ws : WebSocketSupport) (clientId : String)
    (stored : List PendingItem) :
    Subscriptions.Populated (construct ws clientId stored).subscriptions := by
  have hs : (construct ws clientId stored).subscriptions = [] := by cases ws <;> rfl
  rw [hs]
  intro topic callbacks hg
  simp [Subscriptions.get] at hg

/-! ## C12 -/

/-- C12: when the map has no entry for the topic, `subscribe(topic, callback)`
followed by `unsubscribe(topic, callback)` leaves the map exactly as it was:
no entry for the topic, every other entry unchanged.  Invoking the handle that
`subscribe` returned is the same call of `unsubscribe`. -/
theorem subscribe_then_unsubscribe_restores_map (c : RealtimeCommunicator) (now later : Nat)
    (topic : String) (callback : Nat) (h : Subscriptions.get c.subscriptions topic = none) :
    (unsubscribe (subscribe c now topic callback).1 later topic callback).subscriptions =
      c.subscriptions ∧
    Subscriptions.get
      (unsubscribe (subscribe c now topic callback).1 later topic callback).subscriptions
      topic = none ∧
    (∀ other : String,
      Subscriptions.get
        (unsubscribe (subscribe c now topic callback).1 later topic callback).subscriptions
        other = Subscriptions.get c.subscriptions other) ∧
    (subscribe c now topic callback).2 (subscribe c now topic callback).1 later =
      unsubscribe (subscribe c now topic callback).1 later topic callback := by
  have hsub : (subscribe c now topic callback).1.subscriptions =
      c.subscriptions ++ [(topic, [callback])] := by
    rw [subscribe_subscriptions]
    simp only [Subscriptions.has, h, Option.isSome_none, Bool.not_false, if_true]
    rw [Subscriptions.update_append_of_get_none _ _ _ _ h]
    simp [setAdd]
  have hget : Subscriptions.get (subscribe c now topic callback).1.subscriptions topic =
      some [callback] := by
    rw [hsub, Subscriptions.get_append, h]
    simp
  have hdel : setDelete [callback] callback = [] := by simp [setDelete]
  have hres : (unsubscribe (subscribe c now topic callback).1 later topic callback).subscriptions =
      c.subscriptions := by
    rw [unsubscribe_subscriptions _ later topic callback [callback] hget, hsub]
    simp only [hdel, if_true]
    rw [Subscriptions.update_append_of_get_none _ _ _ _ h, hdel,
      Subscriptions.delete_append_self _ _ _ h]
  refine ⟨hres, ?_, fun other => ?_, rfl⟩
  · rw [hres]; exact h
  · rw [hres]

/-- C12 on a client with no subscription: the map is empty again after the pair of calls. -/
theorem subscribe_then_unsubscribe_restores_map_witness :
    Subscriptions.get offlineClient.subscriptions "traffic" = none ∧
    (subscribe offlineClient 1 "traffic" 7).1.subscriptions = [("traffic", [7])] ∧
    (unsubscribe (subscribe offlineClient 1 "traffic" 7).1 2 "traffic" 7).subscriptions =
      offlineClient.subscriptions :=
  ⟨rfl, by decide,
    (subscribe_then_unsubscribe_restores_map offlineClient 1 2 "traffic" 7 rfl).1⟩

/-! ## C13 -/

/-- C13: in the map of a client built by the constructor, after every sequence
of calls of `subscribe` and `unsubscribe`, no topic is mapped to an empty
callback set; and on such a map `unsubscribe(topic, callback)` deletes the
entry of the topic exactly when the callback is the only one registered under
it, and otherwise keeps the entry, with the other callbacks in it. -/
theorem reachable_map_has_no_empty_callback_set (ws : WebSocketSupport) (clientId : String)
    (stored : List PendingItem) (calls : List SubscriptionCall) :
    (∀ topic : String,
      Subscriptions.get (callAll (construct ws clientId stored) calls).subscriptions topic ≠
        some []) ∧
    (∀ (now : Nat) (topic : String) (callback : Nat) (callbacks : List Nat),
      Subscriptions.get (callAll (construct ws clientId stored) calls).subscriptions topic =
        some callbacks →
      (Subscriptions.get
          (unsubscribe (callAll (construct ws clientId stored) calls) now topic
            callback).subscriptions topic = none ↔ callbacks = [callback]) ∧
      (callbacks ≠ [callback] →
        Subscriptions.get
          (unsubscribe (callAll (construct ws clientId stored) calls) now topic
            callback).subscriptions topic = some (setDelete callbacks callback))) := by
  have hp := populated_callAll calls (construct ws clientId stored)
    (populated_construct ws clientId stored)
  refine ⟨fun topic hg => (hp topic [] hg).1 rfl, fun now topic callback callbacks hg => ?_⟩
  obtain ⟨hne, hnd⟩ := hp topic callbacks hg
  have hiff := setDelete_eq_nil_iff callbacks callback hne hnd
  rw [get_unsubscribe_self _ now topic callback callbacks hg]
  constructor
  · constructor
    · intro h
      by_cases he : setDelete callbacks callback = []
      · exact hiff.mp he
      · simp [he] at h
    · intro h
      simp [hiff.mpr h]
  · intro h
    have he : ¬ setDelete callbacks callback = [] := fun he => h (hiff.mp he)
    simp [he]

/-- C13 after two subscriptions to one topic: removing one callback keeps the
entry, removing the last one deletes it. -/
theorem reachable_map_has_no_empty_callback_set_witness :
    Subscriptions.get
      (callAll (construct WebSocketSupport.created "client_1" [])
        [SubscriptionCall.subscribe 1 "traffic" 7,
          SubscriptionCall.subscribe 2 "traffic" 8]).subscriptions "traffic" = some [7, 8] ∧
    Subscriptions.get
      (unsubscribe
        (callAll (construct WebSocketSupport.created "client_1" [])
          [SubscriptionCall.subscribe 1 "traffic" 7,
            SubscriptionCall.subscribe 2 "traffic" 8]) 3 "traffic" 7).subscriptions
      "traffic" = some (setDelete [7, 8] 7) :=
  ⟨by decide,
    ((reachable_map_has_no_empty_callback_set WebSocketSupport.created "client_1" []
      [SubscriptionCall.subscribe 1 "traffic" 7, SubscriptionCall.subscribe 2 "traffic" 8]).2
      3 "traffic" 7 [7, 8] (by decide)).2 (by decide)⟩

/-! ## C14 -/

/-- Outside the maps that the client can reach: on a map that holds the topic
`traffic` with an empty callback set, which no sequence of `subscribe` and
`unsubscribe` produces, `unsubscribe('traffic', 7)` deletes the entry although
callback 7 was not registered.  This is why the statement that follows is
about maps without an empty callback set. -/
theorem unsubscribe_unregistered_callback_deletes_empty_entry :
    Subscriptions.get emptySetClient.subscriptions "traffic" = some [] ∧
    7 ∉ ([] : List Nat) ∧
    (unsubscribe emptySetClient 1 "traffic" 7).subscriptions = [] ∧
    (unsubscribe emptySetClient 1 "traffic" 7).subscriptions ≠ emptySetClient.subscriptions := by
  decide

/-- C14: on every subscription map in which no callback set is empty and none
lists a callback twice, as is every map that the constructor, `subscribe` and
`unsubscribe` produce (`populated_callAll`), `unsubscribe(topic, callback)`
removes exactly that callback: the callback set of every other topic is
unchanged, the callbacks left under the topic are the other callbacks
registered under it, in their order (and the entry goes when none is left);
when the topic has no entry, or the callback is not registered under the
topic, the client and its map are unchanged. -/
theorem unsubscribe_removes_exactly_that_callback (c : RealtimeCommunicator) (now : Nat)
    (topic : String) (callback : Nat) (hp : Subscriptions.Populated c.subscriptions) :
    (∀ other : String, other ≠ topic →
      Subscriptions.get (unsubscribe c now topic callback).subscriptions other =
        Subscriptions.get c.subscriptions other) ∧
    (∀ callbacks : List Nat, Subscriptions.get c.subscriptions topic = some callbacks →
      Subscriptions.get (unsubscribe c now topic callback).subscriptions topic =
        (if setDelete callbacks callback = [] then none
          else some (setDelete callbacks callback)) ∧
      (∀ other : Nat,
        other ∈ (Subscriptions.get (unsubscribe c now topic callback).subscriptions topic).getD []
          ↔ other ∈ callbacks ∧ other ≠ callback)) ∧
    (Subscriptions.get c.subscriptions topic = none → unsubscribe c now topic callback = c) ∧
    (∀ callbacks : List Nat, Subscriptions.get c.subscriptions topic = some callbacks →
      callback ∉ callbacks → unsubscribe c now topic callback = c) := by
  refine ⟨fun other ho => get_unsubscribe_other c now topic other callback ho,
    fun callbacks hg => ⟨get_unsubscribe_self c now topic callback callbacks hg, fun other => ?_⟩,
    fun hg => unsubscribe_of_get_none c now topic callback hg,
    fun callbacks hg hnot => ?_⟩
  · rw [get_unsubscribe_self c now topic callback callbacks hg]
    by_cases he : setDelete callbacks callback = []
    · have hno := (mem_setDelete callbacks callback other).not.mp (by rw [he]; simp)
      simp only [he, if_true, Option.getD_none, List.not_mem_nil, false_iff]
      exact hno
    · simp only [he, if_false, Option.getD_some]
      exact mem_setDelete callbacks callback other
  · have hne : callbacks ≠ [] := (hp topic callbacks hg).1
    have hsame : setDelete callbacks callback = callbacks := setDelete_of_not_mem _ _ hnot
    have hupd : Subscriptions.update c.subscriptions topic (fun s => setDelete s callback) =
        c.subscriptions :=
      Subscriptions.update_of_get_eq _ topic c.subscriptions (fun found hf => by
        rw [hg] at hf
        cases hf
        exact hsame)
    unfold unsubscribe
    simp only [Subscriptions.has, hg, Option.isSome_some, if_true, hupd, Option.getD_some,
      List.length_eq_zero, hne, if_false]

/-- C14 on the map that two calls of `subscribe` build on the fresh client: a
callback that is not registered leaves the client unchanged, and removing a
registered one leaves the other. -/
theorem unsubscribe_removes_exactly_that_callback_witness :
    Subscriptions.Populated
      (callAll offlineClient [SubscriptionCall.subscribe 1 "traffic" 7,
        SubscriptionCall.subscribe 2 "traffic" 8]).subscriptions ∧
    Subscriptions.get
      (callAll offlineClient [SubscriptionCall.subscribe 1 "traffic" 7,
        SubscriptionCall.subscribe 2 "traffic" 8]).subscriptions "traffic" = some [7, 8] ∧
    9 ∉ [7, 8] ∧
    unsubscribe
      (callAll offlineClient [SubscriptionCall.subscribe 1 "traffic" 7,
        SubscriptionCall.subscribe 2 "traffic" 8]) 3 "traffic" 9 =
      callAll offlineClient [SubscriptionCall.subscribe 1 "traffic" 7,
        SubscriptionCall.subscribe 2 "traffic" 8] ∧
    Subscriptions.get
      (unsubscribe
        (callAll offlineClient [SubscriptionCall.subscribe 1 "traffic" 7,
          SubscriptionCall.subscribe 2 "traffic" 8]) 3 "traffic" 7).subscriptions "traffic" =
      some [8] :=
  ⟨populated_callAll _ _ (populated_construct _ _ _), by decide, by decide,
    (unsubscribe_removes_exactly_that_callback
      (callAll offlineClient [SubscriptionCall.subscribe 1 "traffic" 7,
        SubscriptionCall.subscribe 2 "traffic" 8]) 3 "traffic" 9
      (populated_callAll _ _ (populated_construct _ _ _))).2.2.2 [7, 8] (by decide) (by decide),
    ((unsubscribe_removes_exactly_that_callback
      (callAll offlineClient [SubscriptionCall.subscribe 1 "traffic" 7,
        SubscriptionCall.subscribe 2 "traffic" 8]) 3 "traffic" 7
      (populated_callAll _ _ (populated_construct _ _ _))).2.1 [7, 8] (by decide)).1⟩

/-! ## C15 -/

theorem filterMap_invocation_invokeCallbacks (throws : Nat → Bool) (payload : Option String)
    (callbacks : List Nat) :
    (invokeCallbacks throws payload callbacks).filterMap Effect.invocation =
      callbacks.map fun callback => (callback, payload) := by
  induction callbacks with
  | nil => rfl
  | cons callback rest ih =>
    unfold invokeCallbacks
    rw [List.filterMap_append, ih]
    cases throws callback <;> simp [List.filterMap, Effect.invocation]

theorem count_map_pair (payload : Option String) (callback : Nat) (callbacks : List Nat) :
    (callbacks.map fun other => (other, payload)).count (callback, payload) =
      callbacks.count callback := by
  induction callbacks with
  | nil => rfl
  | cons first rest ih =>
    rw [List.map_cons, List.count_cons, List.count_cons, ih]
    by_cases h : first = callback
    · simp [h]
    · simp [h]

theorem handleIncomingMessage_of_handler_returns (c : RealtimeCommunicator)
    (deliveryModule : Bool) (throws : Nat → Bool) (data : IncomingMessage)
    (h : (builtinHandler deliveryModule data).map Prod.snd ≠ some true) :
    handleIncomingMessage c deliveryModule throws data =
      { effects :=
          (match builtinHandler deliveryModule data with
            | some (handler, _) => [Effect.builtin handler data.payload]
            | none => []) ++
          (match data.topic with
            | some topic =>
              if topic ≠ "" then
                match Subscriptions.get c.subscriptions topic with
                | some callbacks => invokeCallbacks throws data.payload callbacks
                | none => []
              else []
            | none => []) ++
          [Effect.dispatchEvent ("realtime-" ++ data.type) data.payload]
        threw := false } := by
  unfold handleIncomingMessage
  cases hb : builtinHandler deliveryModule data with
  | none => rfl
  | some selected =>
    obtain ⟨handler, flag⟩ := selected
    cases flag with
    | true => exact absurd (by rw [hb]; rfl) h
    | false => rfl

theorem handleIncomingMessage_threw (c : RealtimeCommunicator) (deliveryModule : Bool)
    (throws : Nat → Bool) (data : IncomingMessage) :
    (handleIncomingMessage c deliveryModule throws data).threw = true ↔
      (builtinHandler deliveryModule data).map Prod.snd = some true := by
  unfold handleIncomingMessage
  cases hb : builtinHandler deliveryModule data with
  | none => simp
  | some selected =>
    obtain ⟨handler, flag⟩ := selected
    cases flag <;> simp

/-- C15, refuted as stated: with callback 7 subscribed to the topic `traffic`,
a message `{type: 'traffic_update', topic: 'traffic'}` that carries no payload
makes the built-in handler, which runs first, throw on `data.severity`;
`handleIncomingMessage` throws and the subscribed callback is never called,
though no subscriber throws. -/
theorem subscriber_not_called_when_builtin_handler_throws :
    Subscriptions.get trafficSubscriber.subscriptions "traffic" = some [7] ∧
    (handleIncomingMessage trafficSubscriber false (fun _ => false)
      { type := "traffic_update", topic := some "traffic", payload := none }).threw = true ∧
    (handleIncomingMessage trafficSubscriber false (fun _ => false)
      { type := "traffic_update", topic := some "traffic", payload := none }).effects =
      [Effect.builtin "handleTrafficUpdate" none] ∧
    Effect.callback 7 none ∉
      (handleIncomingMessage trafficSubscriber false (fun _ => false)
        { type := "traffic_update", topic := some "traffic", payload := none }).effects := by
  decide

/-- C15, amended: `handleIncomingMessage` throws exactly when the built-in
handler of the message type throws, whatever the subscribers do.  For every
incoming message with a non-empty topic whose built-in handler returns, and
every set of callbacks subscribed to the topic, it does not throw, the
built-in handler has run, and the calls of callbacks are exactly one call of
each subscribed callback, in order, each with the payload of the message, even
when subscribers throw. -/
theorem subscribers_isolated_when_builtin_handler_returns (c : RealtimeCommunicator)
    (deliveryModule : Bool) (throws : Nat → Bool) (data : IncomingMessage) :
    ((handleIncomingMessage c deliveryModule throws data).threw = true ↔
      (builtinHandler deliveryModule data).map Prod.snd = some true) ∧
    (∀ (topic : String) (callbacks : List Nat),
      data.topic = some topic → topic ≠ "" →
      Subscriptions.get c.subscriptions topic = some callbacks →
      (builtinHandler deliveryModule data).map Prod.snd ≠ some true →
      (handleIncomingMessage c deliveryModule throws data).threw = false ∧
      (handleIncomingMessage c deliveryModule throws data).effects.filterMap Effect.invocation =
        callbacks.map (fun callback => (callback, data.payload)) ∧
      (callbacks.Nodup → ∀ callback ∈ callbacks,
        ((handleIncomingMessage c deliveryModule throws data).effects.filterMap
          Effect.invocation).count (callback, data.payload) = 1) ∧
      (∀ handler : String, builtinHandler deliveryModule data = some (handler, false) →
        Effect.builtin handler data.payload ∈
          (handleIncomingMessage c deliveryModule throws data).effects)) := by
  refine ⟨handleIncomingMessage_threw c deliveryModule throws data,
    fun topic callbacks ht hne hg hb => ?_⟩
  have hcalls :
      (handleIncomingMessage c deliveryModule throws data).effects.filterMap Effect.invocation =
        callbacks.map (fun callback => (callback, data.payload)) := by
    rw [handleIncomingMessage_of_handler_returns c deliveryModule throws data hb]
    simp only [ht, hne, ne_eq, not_false_eq_true, if_true, hg, List.filterMap_append,
      filterMap_invocation_invokeCallbacks]
    cases builtinHandler deliveryModule data with
    | none => simp [List.filterMap, Effect.invocation]
    | some selected => simp [List.filterMap, Effect.invocation]
  refine ⟨?_, hcalls, fun hnd callback hmem => ?_, fun handler hh => ?_⟩
  · rw [handleIncomingMessage_of_handler_returns c deliveryModule throws data hb]
  · rw [hcalls, count_map_pair, List.count_eq_one_of_mem hnd hmem]
  · rw [handleIncomingMessage_of_handler_returns c deliveryModule throws data hb, hh]
    simp

/-- The amended C15 on the subscriber to `traffic`: a callback that throws is called
once with the payload, its exception is logged, and the call returns. -/
theorem subscribers_isolated_when_builtin_handler_returns_witness :
    Subscriptions.get trafficSubscriber.subscriptions "traffic" = some [7] ∧
    (handleIncomingMessage trafficSubscriber false (fun _ => true)
      { type := "traffic_update", topic := some "traffic", payload := some "jam" }).threw =
      false ∧
    (handleIncomingMessage trafficSubscriber false (fun _ => true)
      { type := "traffic_update", topic := some "traffic",
        payload := some "jam" }).effects.filterMap Effect.invocation = [(7, some "jam")] :=
  ⟨by decide,
    ((subscribers_isolated_when_builtin_handler_returns trafficSubscriber false (fun _ => true)
      { type := "traffic_update", topic := some "traffic", payload := some "jam" }).2
      "traffic" [7] rfl (by decide) (by decide) (by decide)).1,
    ((subscribers_isolated_when_builtin_handler_returns trafficSubscriber false (fun _ => true)
      { type := "traffic_update", topic := some "traffic", payload := some "jam" }).2
      "traffic" [7] rfl (by decide) (by decide) (by decide)).2.1⟩

/-! ## The `fetch` listener, branch by branch -/

theorem startsWith_href_origin (url : URL) : startsWith url.href url.origin = true := by
  unfold startsWith URL.href
  rw [List.isPrefixOf_iff_prefix]
  show url.origin.data <+: (url.origin ++ url.path).data
  rw [String.data_append]
  exact List.prefix_append _ _

theorem cacheMatch_cachePut (url : String) (response : Response) :
    ∀ cache : List (String × Response), cacheMatch (cachePut cache url response) url = some response := by
  intro cache
  induction cache with
  | nil => simp [cachePut, cacheMatch]
  | cons entry rest ih =>
    obtain ⟨key, old⟩ := entry
    by_cases hk : key = url
    · simp [cachePut, cacheMatch, hk]
    · simp [cachePut, cacheMatch, hk, ih]

theorem cachesOpenMatch_cachesOpenPut (name url : String) (response : Response) :
    ∀ storage : List (String × List (String × Response)),
      cachesOpenMatch (cachesOpenPut storage name url response) name url = some response := by
  intro storage
  induction storage with
  | nil => simp [cachesOpenPut, cachesOpenMatch, cacheMatch]
  | cons entry rest ih =>
    obtain ⟨key, cache⟩ := entry
    by_cases hk : key = name
    · simp [cachesOpenPut, cachesOpenMatch, hk, cacheMatch_cachePut]
    · simp [cachesOpenPut, cachesOpenMatch, hk, ih]

theorem onfetch_api (origin now : String) (network : Option Response)
    (storage : List (String × List (String × Response))) (request : Request)
    (hm : request.method = "GET") (ho : request.url.origin = origin)
    (ha : includes request.url.href "/api/" = true) :
    onfetch origin now network storage request =
      { responded := Responded.response (network.getD (offlineApiResponse now))
        networkFetches := 1
        caches := storage } := by
  have hs : startsWith request.url.href origin = true := by
    rw [← ho]; exact startsWith_href_origin _
  unfold onfetch
  simp only [hm, ne_eq, not_true_eq_false, if_false, hs, Bool.not_true, Bool.false_eq_true, ha,
    if_true]
  cases network <;> rfl

theorem onfetch_navigate_fetched (origin now : String) (response : Response)
    (storage : List (String × List (String × Response))) (request : Request)
    (hm : request.method = "GET") (ho : request.url.origin = origin)
    (ha : includes request.url.href "/api/" = false) (hn : request.mode = "navigate") :
    onfetch origin now (some response) storage request =
      { responded := Responded.response response
        networkFetches := 1
        caches := cachesOpenPut storage CACHE_NAME request.url.href response } := by
  have hs : startsWith request.url.href origin = true := by
    rw [← ho]; exact startsWith_href_origin _
  unfold onfetch
  simp only [hm, ne_eq, not_true_eq_false, if_false, hs, Bool.not_true, Bool.false_eq_true, ha,
    hn, if_true]

theorem onfetch_static_hit (origin now : String) (network : Option Response)
    (storage : List (String × List (String × Response))) (request : Request)
    (cachedResponse : Response)
    (hm : request.method = "GET") (ho : request.url.origin = origin)
    (ha : includes request.url.href "/api/" = false) (hn : request.mode ≠ "navigate")
    (hc : cachesMatch storage request.url.href = some cachedResponse) :
    onfetch origin now network storage request =
      { responded := Responded.response cachedResponse
        networkFetches := 1
        caches :=
          match network with
          | some response => cachesOpenPut storage CACHE_NAME request.url.href response
          | none => storage } := by
  have hs : startsWith request.url.href origin = true := by
    rw [← ho]; exact startsWith_href_origin _
  unfold onfetch
  simp only [hm, ne_eq, not_true_eq_false, if_false, hs, Bool.not_true, Bool.false_eq_true, ha,
    hn, hc]

theorem onfetch_static_miss_fetched (origin now : String) (response : Response)
    (storage : List (String × List (String × Response))) (request : Request)
    (hm : request.method = "GET") (ho : request.url.origin = origin)
    (ha : includes request.url.href "/api/" = false) (hn : request.mode ≠ "navigate")
    (hc : cachesMatch storage request.url.href = none) :
    onfetch origin now (some response) storage request =
      { responded := Responded.response response
        networkFetches := 1
        caches :=
          if response.status ≠ 200 ∨ response.type ≠ "basic" then storage
          else cachesOpenPut storage CACHE_NAME request.url.href response } := by
  have hs : startsWith request.url.href origin = true := by
    rw [← ho]; exact startsWith_href_origin _
  unfold onfetch
  simp only [hm, ne_eq, not_true_eq_false, if_false, hs, Bool.not_true, Bool.false_eq_true, ha,
    hn, hc]
  split <;> rfl

/-! ## C16 -/

/-- C16, the code at the failing input: the worker of `https://smartroads.example`
receives a GET request for `https://smartroads.example.evil.test/api/traffic`,
a URL of another origin that begins with the characters of its own origin; the
test `url.startsWith(self.location.origin)` lets it through, and the listener
calls `respondWith`, with the network response when the fetch succeeds and
with its own offline placeholder when the fetch fails. -/
theorem lookalike_origin_request_is_answered :
    lookalikeRequest.method = "GET" ∧ lookalikeRequest.url.origin ≠ appOrigin ∧
    startsWith lookalikeRequest.url.href appOrigin = true ∧
    (onfetch appOrigin "2026-01-01T00:00:00.000Z" (some (okResponse "data")) []
      lookalikeRequest).responded = Responded.response (okResponse "data") ∧
    (onfetch appOrigin "2026-01-01T00:00:00.000Z" none [] lookalikeRequest).responded =
      Responded.response (offlineApiResponse "2026-01-01T00:00:00.000Z") ∧
    (onfetch appOrigin "2026-01-01T00:00:00.000Z" none [] lookalikeRequest).responded ≠
      Responded.passThrough := by
  decide

/-! ## C17 -/

/-- C17: for every same-origin GET request whose URL contains `/api/`, when
the network fetch fails the listener responds (it does not reject) with a JSON
body that parses to an object whose `status` field is `offline`; when the
network fetch succeeds it responds with the network response itself. -/
theorem api_request_gets_network_or_offline_json (origin now : String)
    (storage : List (String × List (String × Response))) (request : Request)
    (hm : request.method = "GET") (ho : request.url.origin = origin)
    (ha : includes request.url.href "/api/" = true) :
    (∃ (response : Response) (fields : List (String × String)),
      (onfetch origin now none storage request).responded = Responded.response response ∧
      response.contentType = some "application/json" ∧
      response.body.parse = some fields ∧ field fields "status" = some "offline") ∧
    (∀ response : Response,
      (onfetch origin now (some response) storage request).responded =
        Responded.response response) := by
  refine ⟨⟨offlineApiResponse now, _, ?_, rfl, rfl, rfl⟩, fun response => ?_⟩
  · rw [onfetch_api origin now none storage request hm ho ha]
    rfl
  · rw [onfetch_api origin now (some response) storage request hm ho ha]
    rfl

/-- C17 on a same-origin API request: the network response when there is one. -/
theorem api_request_gets_network_or_offline_json_witness :
    apiRequest.method = "GET" ∧ apiRequest.url.origin = appOrigin ∧
    includes apiRequest.url.href "/api/" = true ∧
    (onfetch appOrigin "2026-01-01T00:00:00.000Z" (some (okResponse "data")) []
      apiRequest).responded = Responded.response (okResponse "data") :=
  ⟨rfl, rfl, by decide,
    (api_request_gets_network_or_offline_json appOrigin "2026-01-01T00:00:00.000Z" [] apiRequest
      rfl rfl (by decide)).2 (okResponse "data")⟩

/-! ## C18 -/

/-- C18: for every same-origin GET request that is neither an API request nor a
navigation and for which `caches.match` finds a response, the listener
responds with the cached response and calls `fetch` exactly once, whether the
network fetch succeeds or fails. -/
theorem cached_static_asset_served_with_one_refetch (origin now : String)
    (network : Option Response) (storage : List (String × List (String × Response)))
    (request : Request) (cachedResponse : Response)
    (hm : request.method = "GET") (ho : request.url.origin = origin)
    (ha : includes request.url.href "/api/" = false) (hn : request.mode ≠ "navigate")
    (hc : cachesMatch storage request.url.href = some cachedResponse) :
    (onfetch origin now network storage request).responded =
      Responded.response cachedResponse ∧
    (onfetch origin now network storage request).networkFetches = 1 := by
  rw [onfetch_static_hit origin now network storage request cachedResponse hm ho ha hn hc]
  exact ⟨rfl, rfl⟩

/-- C18 on a cached style sheet with the network down. -/
theorem cached_static_asset_served_with_one_refetch_witness :
    styleRequest.method = "GET" ∧ styleRequest.url.origin = appOrigin ∧
    includes styleRequest.url.href "/api/" = false ∧ styleRequest.mode ≠ "navigate" ∧
    cachesMatch [(CACHE_NAME, [(styleRequest.url.href, okResponse "body")])]
      styleRequest.url.href = some (okResponse "body") ∧
    (onfetch appOrigin "2026-01-01T00:00:00.000Z" none
      [(CACHE_NAME, [(styleRequest.url.href, okResponse "body")])] styleRequest).responded =
      Responded.response (okResponse "body") ∧
    (onfetch appOrigin "2026-01-01T00:00:00.000Z" none
      [(CACHE_NAME, [(styleRequest.url.href, okResponse "body")])]
      styleRequest).networkFetches = 1 :=
  ⟨rfl, rfl, by decide, by decide, by decide,
    (cached_static_asset_served_with_one_refetch appOrigin "2026-01-01T00:00:00.000Z" none
      [(CACHE_NAME, [(styleRequest.url.href, okResponse "body")])] styleRequest
      (okResponse "body") rfl rfl (by decide) (by decide) (by decide)).1,
    (cached_static_asset_served_with_one_refetch appOrigin "2026-01-01T00:00:00.000Z" none
      [(CACHE_NAME, [(styleRequest.url.href, okResponse "body")])] styleRequest
      (okResponse "body") rfl rfl (by decide) (by decide) (by decide)).2⟩

/-! ## C19 -/

theorem foldl_cachesDelete (names : List String) :
    ∀ storage : List (String × List (String × Response)),
      names.foldl
        (fun remaining cacheName =>
          if cacheName ≠ CACHE_NAME then cachesDelete remaining cacheName else remaining)
        storage =
      storage.filter fun entry => decide (entry.1 = CACHE_NAME ∨ entry.1 ∉ names) := by
  induction names with
  | nil =>
    intro storage
    simp
  | cons name rest ih =>
    intro storage
    rw [List.foldl_cons, ih]
    by_cases hn : name = CACHE_NAME
    · simp only [hn, ne_eq, not_true_eq_false, if_false]
      apply List.filter_congr
      intro entry _
      by_cases he : entry.1 = CACHE_NAME
      · simp [he]
      · simp [he]
    · simp only [ne_eq, hn, not_false_eq_true, if_true, cachesDelete, List.filter_filter]
      apply List.filter_congr
      intro entry _
      by_cases he : entry.1 = CACHE_NAME
      · have hne : ¬ CACHE_NAME = name := fun h => hn h.symm
        simp [he, hne]
      · by_cases hen : entry.1 = name
        · simp [hen, hn]
        · simp [he, hen]

theorem onactivate_eq_filter (storage : List (String × List (String × Response))) :
    onactivate storage = storage.filter fun entry => decide (entry.1 = CACHE_NAME) := by
  unfold onactivate
  rw [foldl_cachesDelete]
  apply List.filter_congr
  intro entry hmem
  have hk : entry.1 ∈ cachesKeys storage := List.mem_map.mpr ⟨entry, hmem, rfl⟩
  by_cases he : entry.1 = CACHE_NAME
  · simp [he]
  · simp [he, hk]

theorem cachesKeys_onactivate (storage : List (String × List (String × Response))) :
    cachesKeys (onactivate storage) =
      (cachesKeys storage).filter fun name => decide (name = CACHE_NAME) := by
  rw [onactivate_eq_filter]
  unfold cachesKeys
  rw [List.filter_map]
  rfl

theorem eq_singleton_of_nodup_of_forall_eq (names : List String) (name : String)
    (hnd : names.Nodup) (hall : ∀ other ∈ names, other = name) :
    names.length ≤ 1 ∧ (name ∈ names → names = [name]) := by
  cases names with
  | nil => exact ⟨Nat.zero_le 1, fun h => absurd h (List.not_mem_nil _)⟩
  | cons first rest =>
    have hf : first = name := hall first (List.mem_cons_self _ _)
    have hr : rest = [] := by
      cases rest with
      | nil => rfl
      | cons second more =>
        have hs : second = name := hall second (by simp)
        have hnot : first ∉ second :: more := (List.nodup_cons.mp hnd).1
        rw [hf, hs] at hnot
        exact absurd (List.mem_cons_self _ _) hnot
    rw [hf, hr]
    exact ⟨le_refl 1, fun _ => rfl⟩

/-- C19: whatever caches exist, when the `activate` listener has completed the
caches left are those named `CACHE_NAME`, with their entries: every other
generation has been deleted and the current one, if it existed, is kept.  As
the names of caches are distinct, at most one generation remains, and exactly
one when the current generation existed before. -/
theorem activate_keeps_only_current_generation
    (storage : List (String × List (String × Response))) :
    onactivate storage = storage.filter (fun entry => decide (entry.1 = CACHE_NAME)) ∧
    (∀ name : String, name ≠ CACHE_NAME → name ∉ cachesKeys (onactivate storage)) ∧
    (CACHE_NAME ∈ cachesKeys storage → CACHE_NAME ∈ cachesKeys (onactivate storage)) ∧
    ((cachesKeys storage).Nodup →
      (cachesKeys (onactivate storage)).length ≤ 1 ∧
      (CACHE_NAME ∈ cachesKeys storage → cachesKeys (onactivate storage) = [CACHE_NAME])) := by
  have hk := cachesKeys_onactivate storage
  refine ⟨onactivate_eq_filter storage, fun name hne hmem => ?_, fun hmem => ?_, fun hnd => ?_⟩
  · rw [hk, List.mem_filter] at hmem
    exact hne (by simpa using hmem.2)
  · rw [hk, List.mem_filter]
    exact ⟨hmem, by simp⟩
  · have hnd' : (cachesKeys (onactivate storage)).Nodup := by
      rw [hk]; exact List.Nodup.filter _ hnd
    have hall : ∀ other ∈ cachesKeys (onactivate storage), other = CACHE_NAME := by
      intro other hmem
      rw [hk, List.mem_filter] at hmem
      simpa using hmem.2
    obtain ⟨hlen, hone⟩ := eq_singleton_of_nodup_of_forall_eq _ CACHE_NAME hnd' hall
    refine ⟨hlen, fun hmem => hone ?_⟩
    rw [hk, List.mem_filter]
    exact ⟨hmem, by simp⟩

/-- C19 on two generations across an upgrade: the old one is deleted, the current one stays. -/
theorem activate_keeps_only_current_generation_witness :
    (cachesKeys [("smart-roads-v0.9.0", []), (CACHE_NAME, [("/", okResponse "home")])]).Nodup ∧
    CACHE_NAME ∈ cachesKeys [("smart-roads-v0.9.0", []), (CACHE_NAME, [("/", okResponse "home")])] ∧
    cachesKeys
      (onactivate [("smart-roads-v0.9.0", []), (CACHE_NAME, [("/", okResponse "home")])]) =
      [CACHE_NAME] :=
  ⟨by decide, by decide,
    ((activate_keeps_only_current_generation
      [("smart-roads-v0.9.0", []), (CACHE_NAME, [("/", okResponse "home")])]).2.2.2
      (by decide)).2 (by decide)⟩

/-! ## C20 -/

/-- C20, refuted as stated: a same-origin GET request for `/api/traffic/latest`
that the worker fetches from the network with status 200 is answered with the
network response, and nothing is written to any cache. -/
theorem api_response_is_not_cached :
    apiRequest.method = "GET" ∧ apiRequest.url.origin = appOrigin ∧
    (onfetch appOrigin "2026-01-01T00:00:00.000Z" (some (okResponse "data")) []
      apiRequest).responded = Responded.response (okResponse "data") ∧
    (onfetch appOrigin "2026-01-01T00:00:00.000Z" (some (okResponse "data")) []
      apiRequest).caches = [] ∧
    cachesOpenMatch
      (onfetch appOrigin "2026-01-01T00:00:00.000Z" (some (okResponse "data")) []
        apiRequest).caches CACHE_NAME apiRequest.url.href = none := by
  decide

/-- C20, amended: for every same-origin GET request whose network fetch
resolves with a response, the response is written to the cache `CACHE_NAME`
under the URL of the request when the request is a navigation, when it is a
static asset that `caches.match` finds, and when it is a static asset that
`caches.match` does not find and the response has status 200 and type `basic`;
the caches are left as they were for an API request, and for a static asset
not found in the caches whose response has another status or type. -/
theorem fetched_response_is_cached_outside_api (origin now : String) (response : Response)
    (storage : List (String × List (String × Response))) (request : Request)
    (hm : request.method = "GET") (ho : request.url.origin = origin) :
    (includes request.url.href "/api/" = true →
      (onfetch origin now (some response) storage request).caches = storage) ∧
    (includes request.url.href "/api/" = false → request.mode = "navigate" →
      cachesOpenMatch (onfetch origin now (some response) storage request).caches CACHE_NAME
        request.url.href = some response) ∧
    (includes request.url.href "/api/" = false → request.mode ≠ "navigate" →
      ∀ cachedResponse : Response,
        cachesMatch storage request.url.href = some cachedResponse →
        cachesOpenMatch (onfetch origin now (some response) storage request).caches CACHE_NAME
          request.url.href = some response) ∧
    (includes request.url.href "/api/" = false → request.mode ≠ "navigate" →
      cachesMatch storage request.url.href = none →
      (response.status = 200 ∧ response.type = "basic" →
        cachesOpenMatch (onfetch origin now (some response) storage request).caches CACHE_NAME
          request.url.href = some response) ∧
      (response.status ≠ 200 ∨ response.type ≠ "basic" →
        (onfetch origin now (some response) storage request).caches = storage)) := by
  refine ⟨fun ha => ?_, fun ha hn => ?_, fun ha hn cachedResponse hc => ?_,
    fun ha hn hc => ⟨fun hok => ?_, fun hbad => ?_⟩⟩
  · rw [onfetch_api origin now (some response) storage request hm ho ha]
  · rw [onfetch_navigate_fetched origin now response storage request hm ho ha hn]
    exact cachesOpenMatch_cachesOpenPut _ _ _ _
  · rw [onfetch_static_hit origin now (some response) storage request cachedResponse hm ho ha
      hn hc]
    exact cachesOpenMatch_cachesOpenPut _ _ _ _
  · rw [onfetch_static_miss_fetched origin now response storage request hm ho ha hn hc]
    have hcond : ¬ (response.status ≠ 200 ∨ response.type ≠ "basic") := by
      rw [hok.1, hok.2]
      simp
    simp only [hcond, if_false]
    exact cachesOpenMatch_cachesOpenPut _ _ _ _
  · rw [onfetch_static_miss_fetched origin now response storage request hm ho ha hn hc]
    simp only [hbad, if_true]

/-- The amended C20 on a style sheet that is not cached yet: the 200 response is written
to the current generation. -/
theorem fetched_response_is_cached_outside_api_witness :
    styleRequest.method = "GET" ∧ styleRequest.url.origin = appOrigin ∧
    includes styleRequest.url.href "/api/" = false ∧ styleRequest.mode ≠ "navigate" ∧
    cachesMatch [] styleRequest.url.href = none ∧
    cachesOpenMatch
      (onfetch appOrigin "2026-01-01T00:00:00.000Z" (some (okResponse "body")) []
        styleRequest).caches CACHE_NAME styleRequest.url.href = some (okResponse "body") :=
  ⟨rfl, rfl, by decide, by decide, rfl,
    ((fetched_response_is_cached_outside_api appOrigin "2026-01-01T00:00:00.000Z"
      (okResponse "body") [] styleRequest rfl rfl).2.2.2 (by decide) (by decide) rfl).1
      ⟨rfl, rfl⟩⟩

/-! ## The timers under the operations of the client -/

theorem timersInOrder_of_timerState (c d : RealtimeCommunicator)
    (h : timerState d = timerState c) (hc : TimersInOrder c) : TimersInOrder d := by
  simp only [timerState, Prod.mk.injEq] at h
  obtain ⟨h1, h2, h3, h4⟩ := h
  unfold TimersInOrder at hc ⊢
  rw [h1, h2, h3, h4]
  exact hc

theorem sendRaw_timerState (c : RealtimeCommunicator) (message : Message) :
    timerState (sendRaw c message).1 = timerState c := by
  unfold sendRaw
  split <;> rfl

theorem send_timerState (c : RealtimeCommunicator) (now : Nat) (message : Message) :
    timerState (send c now message).1 = timerState c := by
  cases hc : c.connected with
  | false =>
    have h : send c now message =
        (storeMessageOffline { c with messageQueue := c.messageQueue ++ [message] } now message,
          false) := by
      simp [send, hc]
    rw [h]
    rfl
  | true =>
    by_cases hs : c.socket = some ReadyState.OPEN
    · rw [send_open c now message hc hs]; rfl
    · rw [send_connected_not_open c now message hc hs]; rfl

theorem drainQueue_timerState (fuel : Nat) :
    ∀ c : RealtimeCommunicator, timerState (drainQueue fuel c) = timerState c := by
  induction fuel with
  | zero => intro c; rfl
  | succ fuel ih =>
    intro c
    rw [drainQueue]
    cases hq : c.messageQueue with
    | nil => rfl
    | cons message rest =>
      simp only []
      rw [ih, sendRaw_timerState]
      rfl

theorem processMessageQueue_timerState (c : RealtimeCommunicator) :
    timerState (processMessageQueue c) = timerState c := by
  unfold processMessageQueue
  split
  · rfl
  · exact drainQueue_timerState _ c

theorem resubscribe_fold_timerState (now : Nat) (subs : List (String × List Nat)) :
    ∀ c : RealtimeCommunicator,
      timerState
        (subs.foldl (fun acc entry => (send acc now (subscribeMessage entry.1 acc.clientId)).1) c) =
      timerState c := by
  induction subs with
  | nil => intro c; rfl
  | cons entry rest ih =>
    intro c
    rw [List.foldl_cons, ih, send_timerState]

theorem onopen_timerState (c : RealtimeCommunicator) (now : Nat) :
    timerState (onopen c now) = timerState c := by
  unfold onopen resubscribeAll
  rw [processMessageQueue_timerState, resubscribe_fold_timerState]
  rfl

theorem onclose_timerState (c : RealtimeCommunicator) :
    timerState (onclose c) = timerState c := by
  unfold onclose
  simp only []
  split <;> rfl

theorem syncCallback_timerState (c : RealtimeCommunicator) (arr : List (Nat × PendingItem))
    (index : Nat) (item : PendingItem) :
    timerState (syncCallback c arr index item).1 = timerState c := by
  unfold syncCallback
  by_cases hs : c.socket = some ReadyState.OPEN
  · simp only [sendRaw_open c item.message hs, if_true]
    rfl
  · simp only [sendRaw_not_open c item.message hs]
    by_cases ha : item.attempts + 1 > 3 <;> simp [ha]

theorem syncTimeouts_timerState (socketAt : Nat → Option ReadyState)
    (todo : List (Nat × PendingItem)) :
    ∀ (c : RealtimeCommunicator) (arr : List (Nat × PendingItem)),
      timerState (syncTimeouts socketAt todo c arr).1 = timerState c := by
  induction todo with
  | nil => intro c arr; rfl
  | cons head rest ih =>
    intro c arr
    obtain ⟨index, item⟩ := head
    rw [syncTimeouts, ih, syncCallback_timerState]
    rfl

theorem syncPendingUpdates_timerState (c : RealtimeCommunicator)
    (socketAt : Nat → Option ReadyState) :
    timerState (syncPendingUpdates c socketAt) = timerState c := by
  unfold syncPendingUpdates
  simp only []
  split
  · exact syncTimeouts_timerState socketAt _ c _
  · rfl

theorem initPolling_timersInOrder (c : RealtimeCommunicator) (hc : TimersInOrder c) :
    TimersInOrder (initPolling c) := by
  obtain ⟨h1, h2, h3, ⟨hb, hhb, hb0, hble⟩, h5, ⟨sweep, hsweep, hst, hsp⟩⟩ := hc
  refine ⟨?_, ?_, ?_, ⟨hb, hhb, hb0, Nat.le_succ_of_le hble⟩, ?_, ⟨sweep, ?_, hst, hsp⟩⟩
  · intro interval hmem
    simp only [initPolling, setInterval, List.mem_append, List.mem_singleton] at hmem
    rcases hmem with hmem | rfl
    · exact ⟨(h1 interval hmem).1, Nat.le_succ_of_le (h1 interval hmem).2⟩
    · exact ⟨Nat.succ_ne_zero _, le_refl _⟩
  · intro interval hmem
    simp only [initPolling, setInterval, List.mem_append, List.mem_singleton] at hmem
    rcases hmem with hmem | rfl
    · exact h2 interval hmem
    · show IntervalTask.pollForUpdates = IntervalTask.sendHeartbeat ↔
        c.heartbeatInterval = some (c.timerIds + 1)
      rw [hhb]
      constructor
      · intro h; cases h
      · intro h
        have : hb = c.timerIds + 1 := Option.some.inj h
        omega
  · intro interval hmem hp
    simp only [initPolling, setInterval, List.mem_append, List.mem_singleton] at hmem
    have hp' : some (c.timerIds + 1) = some interval.id := hp
    rcases hmem with hmem | rfl
    · have := (h1 interval hmem).2
      have : c.timerIds + 1 = interval.id := Option.some.inj hp'
      omega
    · rfl
  · intro id hp
    have hp' : some (c.timerIds + 1) = some id := hp
    have : c.timerIds + 1 = id := Option.some.inj hp'
    show id ≤ c.timerIds + 1
    omega
  · simp only [initPolling, setInterval, List.mem_append, List.mem_singleton]
    exact Or.inl hsweep

theorem initWebSocket_timersInOrder (c : RealtimeCommunicator) (ws : WebSocketSupport)
    (hc : TimersInOrder c) : TimersInOrder (initWebSocket c ws) := by
  cases ws with
  | unsupported => exact initPolling_timersInOrder c hc
  | throws => exact initPolling_timersInOrder c hc
  | created => exact timersInOrder_of_timerState c _ rfl hc

theorem resetHeartbeat_timersInOrder (c : RealtimeCommunicator) (period : Nat)
    (hc : TimersInOrder c) : TimersInOrder (resetHeartbeat c period) := by
  obtain ⟨h1, h2, h3, ⟨hb, hhb, hb0, hble⟩, h5, ⟨sweep, hsweep, hst, hsp⟩⟩ := hc
  have hset : isSet c.heartbeatInterval = true := by
    rw [hhb]
    cases hb with
    | zero => exact absurd rfl hb0
    | succ k => rfl
  have hres : resetHeartbeat c period =
      { c with
        intervals := (c.intervals.filter fun interval => decide (interval.id ≠ hb)) ++
          [{ id := c.timerIds + 1, task := IntervalTask.sendHeartbeat, period := period }]
        timerIds := c.timerIds + 1
        heartbeatInterval := some (c.timerIds + 1) } := by
    unfold resetHeartbeat
    rw [if_pos hset]
    simp only [setInterval, clearInterval, hhb, Option.getD_some]
  rw [hres]
  refine ⟨?_, ?_, ?_, ⟨c.timerIds + 1, rfl, Nat.succ_ne_zero _, le_refl _⟩, ?_, ⟨sweep, ?_, hst, hsp⟩⟩
  · intro interval hmem
    simp only [List.mem_append, List.mem_filter, List.mem_singleton, decide_eq_true_eq] at hmem
    rcases hmem with ⟨hmem, -⟩ | rfl
    · exact ⟨(h1 interval hmem).1, Nat.le_succ_of_le (h1 interval hmem).2⟩
    · exact ⟨Nat.succ_ne_zero _, le_refl _⟩
  · intro interval hmem
    simp only [List.mem_append, List.mem_filter, List.mem_singleton, decide_eq_true_eq] at hmem
    rcases hmem with ⟨hmem, hne⟩ | rfl
    · have hold := h2 interval hmem
      rw [hhb] at hold
      have hle := (h1 interval hmem).2
      constructor
      · intro ht
        exact absurd (Option.some.inj (hold.mp ht)).symm hne
      · intro hnew
        have : c.timerIds + 1 = interval.id := Option.some.inj hnew
        omega
    · exact ⟨fun _ => rfl, fun _ => rfl⟩
  · intro interval hmem hp
    simp only [List.mem_append, List.mem_filter, List.mem_singleton, decide_eq_true_eq] at hmem
    have hp' : c.pollingInterval = some interval.id := hp
    rcases hmem with ⟨hmem, -⟩ | rfl
    · exact h3 interval hmem hp'
    · have := h5 _ hp'
      simp at this
  · intro id hp
    exact Nat.le_succ_of_le (h5 id hp)
  · simp only [List.mem_append, List.mem_filter, List.mem_singleton, decide_eq_true_eq]
    left
    refine ⟨hsweep, fun he => ?_⟩
    have := (h2 sweep hsweep).mpr (by rw [hhb, he])
    rw [hst] at this
    cases this

theorem step_timersInOrder (c : RealtimeCommunicator) (e : Event) (hc : TimersInOrder c) :
    TimersInOrder (step c e) := by
  cases e with
  | socketOpen now =>
    simp only [step]
    split
    · exact timersInOrder_of_timerState c _ (onopen_timerState _ now) hc
    · exact hc
  | socketClose =>
    simp only [step]
    split
    · exact timersInOrder_of_timerState c _ (onclose_timerState _) hc
    · exact hc
  | staleOpen now =>
    simp only [step]
    split
    · exact timersInOrder_of_timerState c _ (onopen_timerState _ now) hc
    · exact hc
  | staleClose =>
    simp only [step]
    split
    · exact timersInOrder_of_timerState c _ (onclose_timerState _) hc
    · exact hc
  | reconnectTimeout ws =>
    simp only [step]
    cases ht : c.reconnectTimers with
    | nil => exact hc
    | cons d rest =>
      simp only []
      unfold reconnectCallback
      exact initWebSocket_timersInOrder _ ws (timersInOrder_of_timerState c _ rfl hc)
  | online ws =>
    simp only [step, ononline]
    split
    · exact initWebSocket_timersInOrder c ws hc
    · exact hc
  | send now message =>
    exact timersInOrder_of_timerState c _ (send_timerState c now message) hc
  | queueSweep =>
    exact timersInOrder_of_timerState c _ (processMessageQueue_timerState c) hc
  | foreground =>
    simp only [step, onAppForeground]
    exact timersInOrder_of_timerState _ _ (syncPendingUpdates_timerState _ _)
      (resetHeartbeat_timersInOrder c 30000 hc)

theorem construct_timersInOrder (ws : WebSocketSupport) (clientId : String)
    (stored : List PendingItem) : TimersInOrder (construct ws clientId stored) := by
  cases ws <;>
    simp [TimersInOrder, construct, startQueueProcessor, startHeartbeat, initWebSocket,
      initPolling, setInterval]

theorem run_timersInOrder (events : List Event) :
    ∀ c : RealtimeCommunicator, TimersInOrder c → TimersInOrder (run c events) := by
  induction events with
  | nil => intro c hc; exact hc
  | cons e rest ih =>
    intro c hc
    exact ih (step c e) (step_timersInOrder c e hc)

/-! ## C24 -/

/-- C24, refuted as stated: on a client whose socket has closed once, so that a
reconnect timeout is pending, `cleanup()` cancels the heartbeat interval and
leaves that timeout pending and the one-second queue sweep scheduled; on the
fresh client, whose socket `cleanup()` closes, the `close` event that follows
schedules a new reconnect timeout, which then calls `initWebSocket`; and since
`this.heartbeatInterval` still holds the id that was cleared, the next
`onAppForeground` schedules the heartbeat again. -/
theorem cleanup_leaves_reconnect_timeout_and_sweep :
    (run offlineClient [Event.socketClose]).reconnectTimers.length = 1 ∧
    (run offlineClient [Event.socketClose]).intervals.map (fun interval =>
      (interval.task, interval.period)) =
      [(IntervalTask.sendHeartbeat, 30000), (IntervalTask.processMessageQueue, 1000)] ∧
    (cleanup (run offlineClient [Event.socketClose])).reconnectTimers.length = 1 ∧
    (cleanup (run offlineClient [Event.socketClose])).intervals.map (fun interval =>
      (interval.task, interval.period)) = [(IntervalTask.processMessageQueue, 1000)] ∧
    (cleanup offlineClient).reconnectTimers.length = 0 ∧
    (step (cleanup offlineClient) Event.socketClose).reconnectTimers.length = 1 ∧
    (run (cleanup offlineClient)
      [Event.socketClose, Event.reconnectTimeout WebSocketSupport.created]).autoReconnects = 1 ∧
    (cleanup offlineClient).heartbeatInterval = offlineClient.heartbeatInterval ∧
    isSet (cleanup offlineClient).heartbeatInterval = true ∧
    (step (cleanup offlineClient) Event.foreground).intervals.map (fun interval =>
      (interval.task, interval.period)) =
      [(IntervalTask.processMessageQueue, 1000), (IntervalTask.sendHeartbeat, 30000)] :=
  ⟨rfl, by decide, rfl, by decide, rfl, rfl, rfl, rfl, rfl, by decide⟩

/-- What `cleanup()` does to the intervals: an interval stays exactly when its
id is held in neither field. -/
theorem mem_cleanup_intervals (c : RealtimeCommunicator) (interval : Interval) :
    interval ∈ (cleanup c).intervals ↔
      interval ∈ c.intervals ∧
      ¬(interval.id ≠ 0 ∧ c.heartbeatInterval = some interval.id) ∧
      ¬(interval.id ≠ 0 ∧ c.pollingInterval = some interval.id) := by
  cases hh : c.heartbeatInterval with
  | none =>
    cases hp : c.pollingInterval with
    | none => simp [cleanup, hh, hp, isSet]
    | some p =>
      cases p with
      | zero =>
        simp [cleanup, hh, hp, isSet]
        intro _ h0 he
        exact h0 he.symm
      | succ p =>
        simp [cleanup, hh, hp, isSet, clearInterval, List.mem_filter]
        intro _
        exact ⟨fun h _ e => h e.symm, fun h e => h (by omega) e.symm⟩
  | some b =>
    cases b with
    | zero =>
      cases hp : c.pollingInterval with
      | none =>
        simp [cleanup, hh, hp, isSet]
        intro _ h0 he
        exact h0 he.symm
      | some p =>
        cases p with
        | zero =>
          simp [cleanup, hh, hp, isSet]
          intro _ h0 he
          exact h0 he.symm
        | succ p =>
          simp [cleanup, hh, hp, isSet, clearInterval, List.mem_filter]
          intro _
          exact ⟨fun h => ⟨fun h0 e => h0 e.symm, fun _ e => h e.symm⟩,
            fun h e => h.2 (by omega) e.symm⟩
    | succ b =>
      cases hp : c.pollingInterval with
      | none =>
        simp [cleanup, hh, hp, isSet, clearInterval, List.mem_filter]
        intro _
        exact ⟨fun h _ e => h e.symm, fun h e => h (by omega) e.symm⟩
      | some p =>
        cases p with
        | zero =>
          simp [cleanup, hh, hp, isSet, clearInterval, List.mem_filter]
          intro _
          exact ⟨fun h => ⟨fun _ e => h e.symm, fun h0 e => h0 e.symm⟩,
            fun h e => h.1 (by omega) e.symm⟩
        | succ p =>
          simp [cleanup, hh, hp, isSet, clearInterval, List.mem_filter]
          intro _
          exact ⟨fun h => ⟨fun _ e => h.2 e.symm, fun _ e => h.1 e.symm⟩,
            fun h => ⟨fun e => h.2 (by omega) e.symm, fun e => h.1 (by omega) e.symm⟩⟩

theorem cleanup_frame (c : RealtimeCommunicator) :
    (cleanup c).socket = c.socket.map ReadyState.close ∧
    (cleanup c).heartbeatInterval = c.heartbeatInterval ∧
    (cleanup c).pollingInterval = c.pollingInterval ∧
    (cleanup c).reconnectTimers = c.reconnectTimers ∧
    (cleanup c).reconnectAttempts = c.reconnectAttempts ∧
    (cleanup c).messageQueue = c.messageQueue := by
  unfold cleanup
  simp only []
  refine ⟨?_, ?_, ?_, ?_, ?_, ?_⟩ <;> split <;> split <;> rfl

/-- C24, amended: after `cleanup()` the socket, if there is one, is closing or
closed, and an interval is still scheduled exactly when it was scheduled before
and its id is held neither in `this.heartbeatInterval` nor in
`this.pollingInterval`: the intervals of those two ids are cancelled, every
other interval stays.  The two fields keep their ids, and the pending
reconnect timeouts, of which the client keeps no handle, are as they were.
On a client built by the constructor, after any events: no heartbeat interval
is left, no interval has the id held in `this.pollingInterval`, and the
one-second queue sweep, whose id was dropped, is still scheduled. -/
theorem cleanup_cancels_heartbeat_and_polling_only (c : RealtimeCommunicator)
    (ws : WebSocketSupport) (clientId : String) (stored : List PendingItem)
    (events : List Event) :
    ((cleanup c).socket = none ↔ c.socket = none) ∧
    (cleanup c).socket ≠ some ReadyState.CONNECTING ∧
    (cleanup c).socket ≠ some ReadyState.OPEN ∧
    (c.socket = some ReadyState.CLOSED → (cleanup c).socket = some ReadyState.CLOSED) ∧
    (∀ interval : Interval, interval ∈ (cleanup c).intervals ↔
      interval ∈ c.intervals ∧
      ¬(interval.id ≠ 0 ∧ c.heartbeatInterval = some interval.id) ∧
      ¬(interval.id ≠ 0 ∧ c.pollingInterval = some interval.id)) ∧
    (cleanup c).heartbeatInterval = c.heartbeatInterval ∧
    (cleanup c).pollingInterval = c.pollingInterval ∧
    (cleanup c).reconnectTimers = c.reconnectTimers ∧
    (cleanup c).reconnectAttempts = c.reconnectAttempts ∧
    (cleanup c).messageQueue = c.messageQueue ∧
    (∀ interval ∈ (cleanup (run (construct ws clientId stored) events)).intervals,
      interval.task ≠ IntervalTask.sendHeartbeat ∧
      (run (construct ws clientId stored) events).pollingInterval ≠ some interval.id) ∧
    (∃ interval ∈ (cleanup (run (construct ws clientId stored) events)).intervals,
      interval.task = IntervalTask.processMessageQueue ∧ interval.period = 1000) ∧
    (cleanup (run (construct ws clientId stored) events)).reconnectTimers =
      (run (construct ws clientId stored) events).reconnectTimers := by
  obtain ⟨hsocket, f2, f3, f4, f5, f6⟩ := cleanup_frame c
  obtain ⟨h1, h2, h3, ⟨hb, hhb, hb0, -⟩, -, ⟨sweep, hsweep, hst, hsp⟩⟩ :=
    run_timersInOrder events _ (construct_timersInOrder ws clientId stored)
  refine ⟨?_, ?_, ?_, ?_, mem_cleanup_intervals c, f2, f3, f4, f5, f6, ?_, ?_,
    (cleanup_frame _).2.2.2.1⟩
  · rw [hsocket]
    cases c.socket <;> simp
  · rw [hsocket]
    cases hs : c.socket with
    | none => simp
    | some s => cases s <;> simp [ReadyState.close]
  · rw [hsocket]
    cases hs : c.socket with
    | none => simp
    | some s => cases s <;> simp [ReadyState.close]
  · intro hs
    rw [hsocket, hs]
    rfl
  · intro interval hmem
    obtain ⟨hin, hnh, hnp⟩ := (mem_cleanup_intervals _ interval).mp hmem
    have hid := (h1 interval hin).1
    exact ⟨fun ht => hnh ⟨hid, (h2 interval hin).mp ht⟩, fun hp => hnp ⟨hid, hp⟩⟩
  · refine ⟨sweep, (mem_cleanup_intervals _ sweep).mpr ⟨hsweep, ?_, ?_⟩, hst, hsp⟩
    · rintro ⟨-, he⟩
      have := (h2 sweep hsweep).mpr he
      rw [hst] at this
      cases this
    · rintro ⟨-, he⟩
      have := h3 sweep hsweep he
      rw [hst] at this
      cases this

/-! ## C21 -/

theorem submitUpdates_all_resolve (network : String → Option Response) :
    ∀ updates : List String, (∀ update ∈ updates, (network update).isSome = true) →
      submitUpdates network updates = (updates, false) := by
  intro updates
  induction updates with
  | nil => intro _; rfl
  | cons update rest ih =>
    intro h
    have hu : (network update).isSome = true := h update (List.mem_cons_self _ _)
    have hr := ih (fun other ho => h other (List.mem_cons_of_mem _ ho))
    cases hn : network update with
    | none => rw [hn] at hu; exact absurd hu (by decide)
    | some response => simp [submitUpdates, hn, hr]

theorem submitUpdates_first_reject (network : String → Option Response) (failed : String)
    (after : List String) :
    ∀ before : List String, (∀ update ∈ before, (network update).isSome = true) →
      network failed = none →
      submitUpdates network (before ++ failed :: after) = (before ++ [failed], true) := by
  intro before
  induction before with
  | nil =>
    intro _ hf
    simp [submitUpdates, hf]
  | cons update rest ih =>
    intro h hf
    have hu : (network update).isSome = true := h update (List.mem_cons_self _ _)
    have hr := ih (fun other ho => h other (List.mem_cons_of_mem _ ho)) hf
    cases hn : network update with
    | none => rw [hn] at hu; exact absurd hu (by decide)
    | some response =>
      rw [List.cons_append]
      simp [submitUpdates, hn, hr]

theorem submitUpdates_rejected_iff (network : String → Option Response) :
    ∀ updates : List String,
      (submitUpdates network updates).2 = true ↔ ∃ update ∈ updates, network update = none := by
  intro updates
  induction updates with
  | nil => simp [submitUpdates]
  | cons update rest ih =>
    cases hn : network update with
    | none => simp [submitUpdates, hn]
    | some response => simp [submitUpdates, hn, ih]

/-- The flush, fetch by fetch: for every list of queued records that
`getOfflineUpdates` yields, `syncTrafficData` submits the records one after the other in queue order;
when every fetch resolves it has submitted them all, calls
`clearOfflineUpdates` and does not throw; when the fetch of a record rejects,
it has submitted the records up to that one and none after it, does not call
`clearOfflineUpdates`, and throws.  So the queue is cleared exactly when every
fetch resolved, whatever the status of the responses.  With the placeholder `getOfflineUpdates` of the source
the list is empty and nothing is submitted. -/
theorem syncTrafficData_clears_iff_all_submitted (network : String → Option Response)
    (offlineUpdates : List String) :
    ((syncTrafficData network offlineUpdates).cleared = true ↔
      ∀ update ∈ offlineUpdates, (network update).isSome = true) ∧
    ((syncTrafficData network offlineUpdates).threw = true ↔
      (syncTrafficData network offlineUpdates).cleared = false) ∧
    ((∀ update ∈ offlineUpdates, (network update).isSome = true) →
      (syncTrafficData network offlineUpdates).submitted = offlineUpdates) ∧
    (∀ (before after : List String) (failed : String),
      offlineUpdates = before ++ failed :: after →
      (∀ update ∈ before, (network update).isSome = true) → network failed = none →
      (syncTrafficData network offlineUpdates).submitted = before ++ [failed] ∧
      (syncTrafficData network offlineUpdates).cleared = false ∧
      (syncTrafficData network offlineUpdates).threw = true) ∧
    syncTrafficData network getOfflineUpdates =
      { submitted := [], cleared := true, threw := false } := by
  have hiff := submitUpdates_rejected_iff network offlineUpdates
  refine ⟨?_, ?_, fun hall => ?_, fun before after failed hsplit hb hf => ?_, rfl⟩
  · cases hr : (submitUpdates network offlineUpdates).2 with
    | true =>
      obtain ⟨update, hmem, hnone⟩ := hiff.mp hr
      have hc : (syncTrafficData network offlineUpdates).cleared = false := by
        simp [syncTrafficData, hr]
      rw [hc]
      constructor
      · intro h; exact absurd h (by decide)
      · intro h
        have hsome := h update hmem
        rw [hnone] at hsome
        exact absurd hsome (by decide)
    | false =>
      have hc : (syncTrafficData network offlineUpdates).cleared = true := by
        simp [syncTrafficData, hr]
      rw [hc]
      refine ⟨fun _ update hmem => ?_, fun _ => rfl⟩
      cases hn : network update with
      | none =>
        have hrej : (submitUpdates network offlineUpdates).2 = true :=
          hiff.mpr ⟨update, hmem, hn⟩
        rw [hr] at hrej
        exact absurd hrej (by decide)
      | some response => rfl
  · cases hr : (submitUpdates network offlineUpdates).2 with
    | true => simp [syncTrafficData, hr]
    | false => simp [syncTrafficData, hr]
  · unfold syncTrafficData
    rw [submitUpdates_all_resolve network offlineUpdates hall]
    rfl
  · unfold syncTrafficData
    rw [hsplit, submitUpdates_first_reject network failed after before hb hf]
    exact ⟨rfl, rfl, rfl⟩

/-- Three records of which the second cannot be sent: the third is not
submitted and the queue is not cleared. -/
theorem syncTrafficData_clears_iff_all_submitted_witness :
    (∀ update ∈ ["a"], ((fun update => if update = "b" then none else onlineNetwork update)
      update).isSome = true) ∧
    (syncTrafficData (fun update => if update = "b" then none else onlineNetwork update)
      ["a", "b", "c"]).submitted = ["a", "b"] ∧
    (syncTrafficData (fun update => if update = "b" then none else onlineNetwork update)
      ["a", "b", "c"]).cleared = false :=
  ⟨by decide,
    ((syncTrafficData_clears_iff_all_submitted
      (fun update => if update = "b" then none else onlineNetwork update) ["a", "b", "c"]).2.2.2.1
      ["a"] ["c"] "b" rfl (by decide) (by decide)).1,
    ((syncTrafficData_clears_iff_all_submitted
      (fun update => if update = "b" then none else onlineNetwork update) ["a", "b", "c"]).2.2.2.1
      ["a"] ["c"] "b" rfl (by decide) (by decide)).2.1⟩

/-- C21, with a server that answers every submission with status 500: no
record of the queue `a, b` was accepted, yet every `fetch` resolved, and
`syncTrafficData`, which never reads the response, goes on to
`clearOfflineUpdates` and resolves; the records are lost.  The outcome is the
one of a server that accepts both records. -/
theorem syncTrafficData_clears_queue_after_server_errors :
    (failingServer "a").map Response.ok = some false ∧
    (failingServer "b").map Response.ok = some false ∧
    syncTrafficData failingServer ["a", "b"] =
      { submitted := ["a", "b"], cleared := true, threw := false } ∧
    syncTrafficData failingServer ["a", "b"] = syncTrafficData onlineNetwork ["a", "b"] := by
  decide

/-! ## C22 -/

/-- C22, the code at the failing input: the worker is installed on a browser
without caches while every URL of the manifest can be fetched; the cache then
holds no entry for `/offline.html`, which `urlsToCache` does not list.  A
navigation to `/about.html` while the network is down, a page that is not
cached either, is answered with the bare text `Offline`, not with an offline
page. -/
theorem offline_page_is_not_in_install_cache :
    cachesKeys installedCaches = [CACHE_NAME] ∧
    cachesMatch installedCaches (appOrigin ++ "/index.html") =
      some (okResponse (appOrigin ++ "/index.html")) ∧
    cachesMatch installedCaches (appOrigin ++ "/offline.html") = none ∧
    cachesMatch installedCaches aboutNavigation.url.href = none ∧
    (onfetch appOrigin "2026-01-01T00:00:00.000Z" none installedCaches
      aboutNavigation).responded = Responded.response offlineFallbackResponse ∧
    offlineFallbackResponse.body = Body.text "Offline" := by
  decide

/-! ## C23 -/

/-- C23, the code at the failing input: a same-origin GET request for a script
that carries no `Accept` header, is not cached and cannot be fetched; the
`catch` handler calls `includes` on the `null` that `headers.get('Accept')`
returns, so the promise given to `respondWith` rejects and no response is
produced.  With an `Accept` header the request gets the 503 response. -/
theorem static_miss_without_accept_header_rejects :
    bareRequest.method = "GET" ∧ bareRequest.url.origin = appOrigin ∧
    bareRequest.accept = none ∧
    cachesMatch installedCaches bareRequest.url.href = none ∧
    (onfetch appOrigin "2026-01-01T00:00:00.000Z" none installedCaches bareRequest).responded =
      Responded.rejected ∧
    (onfetch appOrigin "2026-01-01T00:00:00.000Z" none installedCaches
      { bareRequest with accept := some "*/*" }).responded =
      Responded.response offlineUnavailableResponse := by
  decide

/-! ## C25 -/

theorem getTrafficColor_eq_legendColor_of_ne (congestion : ℚ) (h : congestion ≠ 0.6) :
    getTrafficColor congestion = legendColor congestion := by
  unfold getTrafficColor legendColor
  by_cases h1 : congestion < 0.3
  · simp [h1]
  · by_cases h2 : congestion < 0.6
    · simp [h1, h2, le_of_lt h2]
    · have h3 : ¬ congestion ≤ 0.6 := fun hle => h2 (lt_of_le_of_ne hle h)
      simp [h1, h2, h3]

/-- C25, the code at the failing input: at a congestion of exactly 60%
`getTrafficColor` returns red, `#DC3545`, while the legend of the map puts 60%
in "Moderate (30-60%)", yellow, and only more than 60% in "Heavy". -/
theorem getTrafficColor_at_sixty_percent_is_red :
    getTrafficColor 0.6 = "#DC3545" ∧ legendColor 0.6 = "#FFC107" ∧
    getTrafficColor 0.6 ≠ legendColor 0.6 := by
  have h1 : getTrafficColor 0.6 = "#DC3545" := by
    unfold getTrafficColor
    norm_num
  have h2 : legendColor 0.6 = "#FFC107" := by
    unfold legendColor
    norm_num
  refine ⟨h1, h2, ?_⟩
  rw [h1, h2]
  decide

/-! ## C30 -/

theorem mem_mapRoads (callback : ℚ → Road → Road) (random : Nat → ℚ) :
    ∀ (roads : List Road) (index : Nat) (record : Road),
      record ∈ mapRoads callback random index roads →
      ∃ (value : ℚ) (road : Road), road ∈ roads ∧ record = callback value road := by
  intro roads
  induction roads with
  | nil =>
    intro index record h
    simp [mapRoads] at h
  | cons road rest ih =>
    intro index record h
    rw [mapRoads, List.mem_cons] at h
    rcases h with h | h
    · exact ⟨random index, road, List.mem_cons_self _ _, h⟩
    · obtain ⟨value, other, hmem, heq⟩ := ih (index + 1) record h
      exact ⟨value, other, List.mem_cons_of_mem _ hmem, heq⟩

theorem clamp_bounds (value : ℚ) : 0 ≤ min 1 (max 0 value) ∧ min 1 (max 0 value) ≤ 1 :=
  ⟨le_min (by norm_num) (le_max_left _ _), min_le_left _ _⟩

theorem baseRoads_congestion (isRushHour isWeekday : Bool) :
    ∀ road ∈ baseRoads isRushHour isWeekday, road.congestion = none := by
  intro road h
  simp only [baseRoads, List.mem_cons, List.mem_singleton, List.not_mem_nil, or_false] at h
  rcases h with h | h | h <;> rw [h]

/-- C30, the code on every input: each record that `generateTrafficData`
produces has a congestion within [0, 1] and a speed that is `NaN`, because the
speed is computed from `road.congestion`, which the records of `roads` do not
have, instead of from the congestion just computed.  On records that have a
congestion, `simulateTrafficChange` produces a congestion within [0, 1] and
the speed `floor(60 * (1 - congestion))` of it, within [0, 60]. -/
theorem generateTrafficData_speed_is_nan (isRushHour isWeekday : Bool) (random : Nat → ℚ) :
    (∀ record ∈ generateTrafficData isRushHour isWeekday random,
      record.speed = none ∧
      ∃ congestion : ℚ, record.congestion = some congestion ∧ 0 ≤ congestion ∧
        congestion ≤ 1) ∧
    (∀ (later : Nat → ℚ),
      ∀ record ∈ simulateTrafficChange later
          (generateTrafficData isRushHour isWeekday random),
        ∃ congestion : ℚ, record.congestion = some congestion ∧ 0 ≤ congestion ∧
          congestion ≤ 1 ∧ record.speed = some (Int.floor (60 * (1 - congestion))) ∧
          0 ≤ Int.floor (60 * (1 - congestion)) ∧ Int.floor (60 * (1 - congestion)) ≤ 60) := by
  have hgen : ∀ record ∈ generateTrafficData isRushHour isWeekday random,
      record.speed = none ∧
      ∃ congestion : ℚ, record.congestion = some congestion ∧ 0 ≤ congestion ∧
        congestion ≤ 1 := by
    intro record h
    obtain ⟨value, road, hmem, heq⟩ := mem_mapRoads generateRoad random _ 0 record h
    have hnone := baseRoads_congestion isRushHour isWeekday road hmem
    rw [heq]
    refine ⟨?_, _, rfl, (clamp_bounds _).1, (clamp_bounds _).2⟩
    simp [generateRoad, speedOf, hnone]
  refine ⟨hgen, fun later record h => ?_⟩
  obtain ⟨value, road, hmem, heq⟩ := mem_mapRoads simulateRoad later _ 0 record h
  obtain ⟨-, congestion, hc, -, -⟩ := hgen road hmem
  have hb := clamp_bounds (congestion + (value * 0.1 - 0.05))
  rw [heq]
  refine ⟨min 1 (max 0 (congestion + (value * 0.1 - 0.05))), ?_, hb.1, hb.2, ?_, ?_, ?_⟩
  · simp [simulateRoad, hc]
  · simp [simulateRoad, speedOf, hc]
  · apply Int.floor_nonneg.mpr
    nlinarith [hb.1, hb.2]
  · apply Int.floor_le_iff.mpr
    push_cast
    nlinarith [hb.1, hb.2]

/-! ## The nearest-first scan -/

theorem closer_trans (first second : ℚ) (nearest : Option ℚ) (h1 : first < second)
    (h2 : closer second nearest = true) : closer first nearest = true := by
  cases nearest with
  | none => rfl
  | some value =>
    simp only [closer, decide_eq_true_eq] at h2 ⊢
    exact lt_trans h1 h2

theorem lt_of_closer_of_not_closer (first second : ℚ) (nearest : Option ℚ)
    (h1 : closer first nearest = true) (h2 : closer second nearest = false) : first < second := by
  cases nearest with
  | none => simp [closer] at h2
  | some value =>
    simp only [closer, decide_eq_true_eq, decide_eq_false_iff_not, not_lt] at h1 h2
    exact lt_of_lt_of_le h1 h2

theorem nearestScan_spec :
    ∀ (distances : List (Option ℚ)) (index : Nat) (state : Nat × Option ℚ),
      (nearestScan distances index state = state ∧
        ∀ (j : Nat) (v : ℚ), distances[j]? = some (some v) → closer v state.2 = false) ∨
      (∃ (j : Nat) (v : ℚ), distances[j]? = some (some v) ∧
        nearestScan distances index state = (index + j, some v) ∧
        closer v state.2 = true ∧
        (∀ (k : Nat) (w : ℚ), k < j → distances[k]? = some (some w) → v < w) ∧
        (∀ (k : Nat) (w : ℚ), distances[k]? = some (some w) → v ≤ w)) := by
  intro distances
  induction distances with
  | nil =>
    intro index state
    left
    exact ⟨rfl, fun j v h => by simp at h⟩
  | cons head rest ih =>
    intro index state
    cases head with
    | none =>
      rcases ih (index + 1) state with ⟨hres, hall⟩ | ⟨j, v, hj, hres, hc, hbefore, hmin⟩
      · left
        refine ⟨hres, fun k w hk => ?_⟩
        cases k with
        | zero => simp at hk
        | succ k => exact hall k w (by simpa using hk)
      · right
        refine ⟨j + 1, v, by simpa using hj, ?_, hc, fun k w hlt hk => ?_, fun k w hk => ?_⟩
        · rw [nearestScan, hres]
          congr 1
          omega
        · cases k with
          | zero => simp at hk
          | succ k => exact hbefore k w (by omega) (by simpa using hk)
        · cases k with
          | zero => simp at hk
          | succ k => exact hmin k w (by simpa using hk)
    | some distance =>
      by_cases hd : closer distance state.2 = true
      · have hstep : nearestScan (some distance :: rest) index state =
            nearestScan rest (index + 1) (index, some distance) := by
          rw [nearestScan]
          simp [hd]
        right
        rcases ih (index + 1) (index, some distance) with
          ⟨hres, hall⟩ | ⟨j, v, hj, hres, hc, hbefore, hmin⟩
        · refine ⟨0, distance, by simp, by rw [hstep, hres]; rfl, hd,
            fun k w hlt _ => absurd hlt (Nat.not_lt_zero k), fun k w hk => ?_⟩
          cases k with
          | zero =>
            have : distance = w := by simpa using hk
            rw [this]
          | succ k =>
            have hnot := hall k w (by simpa using hk)
            simp only [closer, decide_eq_false_iff_not, not_lt] at hnot
            exact hnot
        · have hvd : v < distance := by
            simpa [closer] using hc
          refine ⟨j + 1, v, by simpa using hj, ?_, closer_trans v distance state.2 hvd hd,
            fun k w hlt hk => ?_, fun k w hk => ?_⟩
          · rw [hstep, hres]
            congr 1
            omega
          · cases k with
            | zero =>
              have : distance = w := by simpa using hk
              rw [← this]
              exact hvd
            | succ k => exact hbefore k w (by omega) (by simpa using hk)
          · cases k with
            | zero =>
              have : distance = w := by simpa using hk
              rw [← this]
              exact le_of_lt hvd
            | succ k => exact hmin k w (by simpa using hk)
      · have hd' : closer distance state.2 = false := by
          simpa using hd
        have hstep : nearestScan (some distance :: rest) index state =
            nearestScan rest (index + 1) state := by
          rw [nearestScan]
          simp [hd']
        rcases ih (index + 1) state with ⟨hres, hall⟩ | ⟨j, v, hj, hres, hc, hbefore, hmin⟩
        · left
          refine ⟨by rw [hstep, hres], fun k w hk => ?_⟩
          cases k with
          | zero =>
            have : distance = w := by simpa using hk
            rw [← this]
            exact hd'
          | succ k => exact hall k w (by simpa using hk)
        · right
          have hvd : v < distance := lt_of_closer_of_not_closer v distance state.2 hc hd'
          refine ⟨j + 1, v, by simpa using hj, ?_, hc, fun k w hlt hk => ?_, fun k w hk => ?_⟩
          · rw [hstep, hres]
            congr 1
            omega
          · cases k with
            | zero =>
              have : distance = w := by simpa using hk
              rw [← this]
              exact hvd
            | succ k => exact hbefore k w (by omega) (by simpa using hk)
          · cases k with
            | zero =>
              have : distance = w := by simpa using hk
              rw [← this]
              exact le_of_lt hvd
            | succ k => exact hmin k w (by simpa using hk)

/-- The scan from the start of both searches: index 0, distance `Infinity`. -/
theorem nearestScan_start (distances : List (Option ℚ)) :
    (nearestScan distances 0 (0, none) = (0, none) ∧
      ∀ (j : Nat) (v : ℚ), distances[j]? ≠ some (some v)) ∨
    (∃ (j : Nat) (v : ℚ), distances[j]? = some (some v) ∧
      nearestScan distances 0 (0, none) = (j, some v) ∧
      (∀ (k : Nat) (w : ℚ), k < j → distances[k]? = some (some w) → v < w) ∧
      (∀ (k : Nat) (w : ℚ), distances[k]? = some (some w) → v ≤ w)) := by
  rcases nearestScan_spec distances 0 (0, none) with
    ⟨hres, hall⟩ | ⟨j, v, hj, hres, -, hbefore, hmin⟩
  · left
    refine ⟨hres, fun j v hj => ?_⟩
    have := hall j v hj
    simp [closer] at this
  · right
    exact ⟨j, v, hj, by simpa using hres, hbefore, hmin⟩

/-! ## C29 -/

/-- C29, the code at the failing input: a same-day delivery has the estimate
`2 hours` from `submitNewDelivery`; a reported delay of 15 minutes sets its
status to `delayed` and its accumulated delay to 15, and turns the estimate
into `17 min`: `parseInt('2 hours')` is 2, and the hours are counted as
minutes.  The estimate stood for 120 minutes and should stand for 135. -/
theorem confirmDelay_counts_hours_as_minutes :
    sameDayDelivery.estimatedDelivery = "2 hours" ∧
    estimateMinutes sameDayDelivery.estimatedDelivery = some 120 ∧
    (confirmDelay [sameDayDelivery] "DEL-000001" 15).map Delivery.status = ["delayed"] ∧
    (confirmDelay [sameDayDelivery] "DEL-000001" 15).map Delivery.delay = [15] ∧
    (confirmDelay [sameDayDelivery] "DEL-000001" 15).map Delivery.estimatedDelivery =
      ["17 min"] ∧
    estimateMinutes "17 min" = some 17 := by
  decide

/-! ## C26 and C28: the route of `calculateOptimalRoute` -/

theorem nearestIndex_lt (calculateDistance : Location → Location → Option ℚ)
    (currentLocation : Location) (remaining : List Delivery) (hne : remaining ≠ []) :
    nearestIndex calculateDistance currentLocation remaining < remaining.length := by
  unfold nearestIndex
  rcases nearestScan_start
    (remaining.map (distanceFrom calculateDistance currentLocation)) with
    ⟨hres, -⟩ | ⟨j, v, hj, hres, -, -⟩
  · rw [hres]
    exact List.length_pos.mpr hne
  · rw [hres]
    obtain ⟨hlt, -⟩ := List.getElem?_eq_some.mp hj
    simpa using hlt

theorem perm_cons_eraseIdx {α : Type} :
    ∀ (l : List α) (i : Nat) (x : α), l[i]? = some x → (x :: l.eraseIdx i).Perm l := by
  intro l
  induction l with
  | nil => intro i x h; simp at h
  | cons head rest ih =>
    intro i x h
    cases i with
    | zero =>
      have : head = x := by simpa using h
      rw [this, List.eraseIdx_cons_zero]
    | succ i =>
      rw [List.eraseIdx_cons_succ]
      exact (List.Perm.swap head x _).trans ((ih i x (by simpa using h)).cons head)

theorem routeLoop_step (calculateDistance : Location → Location → Option ℚ) (fuel : Nat)
    (route : List Delivery) (currentLocation : Location) (remaining : List Delivery)
    (nearestDelivery : Delivery) (hne : remaining ≠ [])
    (hn : remaining[nearestIndex calculateDistance currentLocation remaining]? =
      some nearestDelivery) :
    routeLoop calculateDistance (fuel + 1) route currentLocation remaining =
      routeLoop calculateDistance fuel (route ++ [nearestDelivery])
        (nearestDelivery.location.getD currentLocation)
        (remaining.eraseIdx (nearestIndex calculateDistance currentLocation remaining)) := by
  have hpos : remaining.length > 0 := List.length_pos.mpr hne
  rw [routeLoop]
  simp only [hpos, if_true, hn]

theorem routeLoop_perm (calculateDistance : Location → Location → Option ℚ) (fuel : Nat) :
    ∀ (route : List Delivery) (currentLocation : Location) (remaining : List Delivery),
      remaining.length ≤ fuel →
      ∃ rest : List Delivery,
        routeLoop calculateDistance fuel route currentLocation remaining = some (route ++ rest) ∧
        rest.Perm remaining := by
  induction fuel with
  | zero =>
    intro route currentLocation remaining hlen
    have hnil : remaining = [] := List.length_eq_zero.mp (Nat.le_zero.mp hlen)
    subst hnil
    exact ⟨[], by simp [routeLoop], List.Perm.refl _⟩
  | succ fuel ih =>
    intro route currentLocation remaining hlen
    by_cases hne : remaining = []
    · subst hne
      exact ⟨[], by simp [routeLoop], List.Perm.refl _⟩
    · have hlt := nearestIndex_lt calculateDistance currentLocation remaining hne
      obtain ⟨nearestDelivery, hn⟩ :
          ∃ nearestDelivery,
            remaining[nearestIndex calculateDistance currentLocation remaining]? =
              some nearestDelivery :=
        ⟨remaining[nearestIndex calculateDistance currentLocation remaining],
          List.getElem?_eq_getElem hlt⟩
      have hshort :
          (remaining.eraseIdx
            (nearestIndex calculateDistance currentLocation remaining)).length ≤ fuel := by
        rw [List.length_eraseIdx_of_lt hlt]
        omega
      obtain ⟨rest, hrest, hperm⟩ := ih (route ++ [nearestDelivery])
        (nearestDelivery.location.getD currentLocation) _ hshort
      refine ⟨nearestDelivery :: rest, ?_, ?_⟩
      · rw [routeLoop_step calculateDistance fuel route currentLocation remaining
          nearestDelivery hne hn, hrest]
        simp
      · exact (hperm.cons nearestDelivery).trans (perm_cons_eraseIdx remaining _ _ hn)

theorem distanceFrom_eq_some_iff (calculateDistance : Location → Location → Option ℚ)
    (currentLocation : Location) (delivery : Delivery) (x : ℚ) :
    distanceFrom calculateDistance currentLocation delivery = some x ↔
      ∃ place : Location, delivery.location = some place ∧
        calculateDistance currentLocation place = some x := by
  unfold distanceFrom
  cases delivery.location with
  | none => simp
  | some place => simp

/-- The index that the scan leaves is the choice of the nearest-neighbour rule. -/
theorem nearestChoice_nearestIndex (calculateDistance : Location → Location → Option ℚ)
    (currentLocation : Location) (remaining : List Delivery) :
    NearestChoice calculateDistance currentLocation remaining
      (nearestIndex calculateDistance currentLocation remaining) := by
  have hidx : nearestIndex calculateDistance currentLocation remaining =
      (nearestScan (remaining.map (distanceFrom calculateDistance currentLocation))
        0 (0, none)).1 := rfl
  have hmap : ∀ (j : Nat) (other : Delivery) (otherPlace : Location) (y : ℚ),
      remaining[j]? = some other → other.location = some otherPlace →
      calculateDistance currentLocation otherPlace = some y →
      (remaining.map (distanceFrom calculateDistance currentLocation))[j]? = some (some y) := by
    intro j other otherPlace y hj hl hy
    rw [List.getElem?_map, hj]
    simp [(distanceFrom_eq_some_iff calculateDistance currentLocation other y).mpr
      ⟨otherPlace, hl, hy⟩]
  rcases nearestScan_start (remaining.map (distanceFrom calculateDistance currentLocation)) with
    ⟨hres, hnone⟩ | ⟨i, v, hi, hres, hbefore, hmin⟩
  · right
    refine ⟨by rw [hidx, hres], fun other hmem place hl => ?_⟩
    obtain ⟨j, hj⟩ := List.mem_iff_getElem?.mp hmem
    cases hd : calculateDistance currentLocation place with
    | none => rfl
    | some y => exact absurd (hmap j other place y hj hl hd) (hnone j y)
  · left
    have hi' : nearestIndex calculateDistance currentLocation remaining = i := by
      rw [hidx, hres]
    rw [hi']
    rw [List.getElem?_map] at hi
    cases hc : remaining[i]? with
    | none => rw [hc] at hi; simp at hi
    | some chosen =>
      rw [hc] at hi
      have hx : distanceFrom calculateDistance currentLocation chosen = some v := by
        simpa using hi
      obtain ⟨place, hplace, hv⟩ :=
        (distanceFrom_eq_some_iff calculateDistance currentLocation chosen v).mp hx
      refine ⟨chosen, place, v, rfl, hplace, hv, fun j other otherPlace y hj hl hy => ?_⟩
      have hother := hmap j other otherPlace y hj hl hy
      exact ⟨hmin j y hother, fun hji => hbefore j y hji hother⟩

/-- The rule leaves no choice: two indices that it allows are the same. -/
theorem nearestChoice_unique (calculateDistance : Location → Location → Option ℚ)
    (currentLocation : Location) (remaining : List Delivery) (first second : Nat)
    (h1 : NearestChoice calculateDistance currentLocation remaining first)
    (h2 : NearestChoice calculateDistance currentLocation remaining second) :
    first = second := by
  rcases h1 with ⟨c1, p1, x1, hc1, hp1, hx1, hmin1⟩ | ⟨hz1, hn1⟩
  · rcases h2 with ⟨c2, p2, x2, hc2, hp2, hx2, hmin2⟩ | ⟨-, hn2⟩
    · have h12 := hmin1 second c2 p2 x2 hc2 hp2 hx2
      have h21 := hmin2 first c1 p1 x1 hc1 hp1 hx1
      rcases Nat.lt_trichotomy first second with hlt | heq | hgt
      · exact absurd (h21.2 hlt) (not_lt.mpr h12.1)
      · exact heq
      · exact absurd (h12.2 hgt) (not_lt.mpr h21.1)
    · have hmem : c1 ∈ remaining := List.mem_iff_getElem?.mpr ⟨first, hc1⟩
      rw [hn2 c1 hmem p1 hp1] at hx1
      exact absurd hx1 (by simp)
  · rcases h2 with ⟨c2, p2, x2, hc2, hp2, hx2, -⟩ | ⟨hz2, -⟩
    · have hmem : c2 ∈ remaining := List.mem_iff_getElem?.mpr ⟨second, hc2⟩
      rw [hn1 c2 hmem p2 hp2] at hx2
      exact absurd hx2 (by simp)
    · rw [hz1, hz2]

/-- The loop follows the rule from any state in which it has turns enough. -/
theorem routeLoop_nearestNeighbour (calculateDistance : Location → Location → Option ℚ)
    (fuel : Nat) :
    ∀ (route : List Delivery) (currentLocation : Location) (remaining : List Delivery),
      remaining.length ≤ fuel →
      ∃ rest : List Delivery,
        routeLoop calculateDistance fuel route currentLocation remaining = some (route ++ rest) ∧
        NearestNeighbourRoute calculateDistance currentLocation remaining rest := by
  induction fuel with
  | zero =>
    intro route currentLocation remaining hlen
    have hnil : remaining = [] := List.length_eq_zero.mp (Nat.le_zero.mp hlen)
    subst hnil
    exact ⟨[], by simp [routeLoop], rfl⟩
  | succ fuel ih =>
    intro route currentLocation remaining hlen
    by_cases hne : remaining = []
    · subst hne
      exact ⟨[], by simp [routeLoop], rfl⟩
    · have hlt := nearestIndex_lt calculateDistance currentLocation remaining hne
      have hn : remaining[nearestIndex calculateDistance currentLocation remaining]? =
          some remaining[nearestIndex calculateDistance currentLocation remaining] :=
        List.getElem?_eq_getElem hlt
      have hshort :
          (remaining.eraseIdx
            (nearestIndex calculateDistance currentLocation remaining)).length ≤ fuel := by
        rw [List.length_eraseIdx_of_lt hlt]
        omega
      obtain ⟨rest, hrest, hrule⟩ :=
        ih (route ++ [remaining[nearestIndex calculateDistance currentLocation remaining]])
          ((remaining[nearestIndex calculateDistance currentLocation remaining]).location.getD
            currentLocation) _ hshort
      refine ⟨remaining[nearestIndex calculateDistance currentLocation remaining] :: rest, ?_,
        nearestIndex calculateDistance currentLocation remaining, hn,
        nearestChoice_nearestIndex calculateDistance currentLocation remaining, hrule⟩
      rw [routeLoop_step calculateDistance fuel route currentLocation remaining _ hne hn, hrest]
      simp

/-- Only one route follows the rule. -/
theorem nearestNeighbourRoute_unique (calculateDistance : Location → Location → Option ℚ) :
    ∀ (first second : List Delivery) (currentLocation : Location) (remaining : List Delivery),
      NearestNeighbourRoute calculateDistance currentLocation remaining first →
      NearestNeighbourRoute calculateDistance currentLocation remaining second →
      first = second := by
  intro first
  induction first with
  | nil =>
    intro second currentLocation remaining h1 h2
    have hnil : remaining = [] := h1
    subst hnil
    cases second with
    | nil => rfl
    | cons chosen rest =>
      obtain ⟨index, hget, -, -⟩ := h2
      simp at hget
  | cons chosen rest ih =>
    intro second currentLocation remaining h1 h2
    obtain ⟨index, hget, hchoice, hrest⟩ := h1
    cases second with
    | nil =>
      have hnil : remaining = [] := h2
      subst hnil
      simp at hget
    | cons chosen2 rest2 =>
      obtain ⟨index2, hget2, hchoice2, hrest2⟩ := h2
      have hsame := nearestChoice_unique _ _ remaining index index2 hchoice hchoice2
      subst hsame
      have hc : chosen = chosen2 := by
        rw [hget] at hget2
        exact Option.some.inj hget2
      subst hc
      rw [ih rest2 _ _ hrest hrest2]

/-- C26, refuted as stated: with the driver at `southPoint`, a first delivery
without a location and a second one at `northPoint`, almost opposite, the
haversine sum `a` exceeds 1 by one rounding step and `calculateDistance` is
`NaN`; the test `distance < nearestDistance` fails, `nearestIndex` stays 0, and
the delivery without a location is put on the route first although a remaining
delivery has a location. -/
theorem calculateOptimalRoute_passes_over_nan_distance :
    calculateDistance polarDoubles southPoint northPoint = none ∧
    (polarDeliveries.map fun delivery => (delivery.id, delivery.location.isSome)) =
      [("DEL-A", false), ("DEL-B", true)] ∧
    nearestIndex (calculateDistance polarDoubles) southPoint polarDeliveries = 0 ∧
    (calculateOptimalRoute (calculateDistance polarDoubles) (some southPoint)
      polarDeliveries).map (fun route => route.map fun delivery => delivery.id) =
      some ["DEL-A", "DEL-B"] := by
  have hnan : calculateDistance polarDoubles southPoint northPoint = none := by
    simp [calculateDistance, polarDoubles, southPoint, northPoint]
    norm_num
  refine ⟨hnan, rfl, ?_, ?_⟩
  · simp [nearestIndex, polarDeliveries, distanceFrom, nearestScan, hnan]
  · simp [calculateOptimalRoute, routeLoop, nearestIndex, polarDeliveries, distanceFrom,
      nearestScan, hnan]

/-- C26, amended: for every list of deliveries `calculateOptimalRoute` returns
a route, and that route follows the nearest-neighbour rule from the driver
location (or the default centre): each delivery appended is, among the
remaining deliveries that have a location at a distance from the current
location that is a number, one at minimal `calculateDistance`, the earliest in
the remaining list on ties, and the current location moves to it; a delivery
without a location, or at a distance that is `NaN`, is appended only when no
remaining delivery is at a distance that is a number, and is then the first of
the remaining list.  No other route follows the rule. -/
theorem calculateOptimalRoute_follows_nearest_neighbour
    (calculateDistance : Location → Location → Option ℚ) (driverLocation : Option Location)
    (deliveries : List Delivery) :
    ∃ route : List Delivery,
      calculateOptimalRoute calculateDistance driverLocation deliveries = some route ∧
      NearestNeighbourRoute calculateDistance
        (driverLocation.getD { lat := 20.5937, lng := 78.9629 }) deliveries route ∧
      ∀ other : List Delivery,
        NearestNeighbourRoute calculateDistance
          (driverLocation.getD { lat := 20.5937, lng := 78.9629 }) deliveries other →
        other = route := by
  obtain ⟨rest, hrest, hrule⟩ := routeLoop_nearestNeighbour calculateDistance deliveries.length []
    (driverLocation.getD { lat := 20.5937, lng := 78.9629 }) deliveries (le_refl _)
  refine ⟨rest, ?_, hrule, fun other ho =>
    nearestNeighbourRoute_unique calculateDistance other rest _ _ ho hrule⟩
  unfold calculateOptimalRoute
  rw [hrest]
  rfl

/-- C26 on three pending deliveries, from the default centre: the route that
follows the rule takes the nearer of the two deliveries that have a location,
then the other, then the one without a location. -/
theorem calculateOptimalRoute_follows_nearest_neighbour_witness :
    (∃ route : List Delivery,
      calculateOptimalRoute planeDistance none pendingDeliveries = some route ∧
      NearestNeighbourRoute planeDistance { lat := 20.5937, lng := 78.9629 } pendingDeliveries
        route) ∧
    (calculateOptimalRoute planeDistance none pendingDeliveries).map
      (fun route => route.map fun delivery => delivery.id) =
      some ["DEL-003", "DEL-001", "DEL-002"] :=
  ⟨(calculateOptimalRoute_follows_nearest_neighbour planeDistance none pendingDeliveries).imp
      fun _ h => ⟨h.1, h.2.1⟩,
    by
      simp [calculateOptimalRoute, routeLoop, nearestIndex, pendingDeliveries, distanceFrom,
        nearestScan, planeDistance, closer]
      norm_num [routeLoop, nearestIndex, distanceFrom, nearestScan, planeDistance, closer]⟩

/-- C28: for every list of deliveries the loop of `calculateOptimalRoute` ends
within as many turns as there are deliveries, and the route returned is a
permutation of the input: it has the length of the input and holds each
delivery as many times as the input does.  The function works on a copy
(`[...deliveries]`); the input is a value here and cannot change. -/
theorem calculateOptimalRoute_returns_permutation
    (calculateDistance : Location → Location → Option ℚ) (driverLocation : Option Location)
    (deliveries : List Delivery) :
    ∃ route : List Delivery,
      calculateOptimalRoute calculateDistance driverLocation deliveries = some route ∧
      route.Perm deliveries ∧ route.length = deliveries.length ∧
      ∀ delivery : Delivery, route.count delivery = deliveries.count delivery := by
  obtain ⟨rest, hrest, hperm⟩ := routeLoop_perm calculateDistance deliveries.length []
    (driverLocation.getD { lat := 20.5937, lng := 78.9629 }) deliveries (le_refl _)
  refine ⟨rest, ?_, hperm, hperm.length_eq, fun delivery => hperm.count_eq delivery⟩
  unfold calculateOptimalRoute
  rw [hrest]
  rfl

/-! ## C27 -/

theorem find?_updateFirst_id (emergencyId : String) (change : Emergency → Emergency)
    (hid : ∀ emergency : Emergency, (change emergency).id = emergency.id) :
    ∀ (emergencies : List Emergency) (emergency : Emergency),
      emergencies.find? (fun other => decide (other.id = emergencyId)) = some emergency →
      (updateFirst (fun other => decide (other.id = emergencyId)) change emergencies).find?
        (fun other => decide (other.id = emergencyId)) = some (change emergency) := by
  intro emergencies
  induction emergencies with
  | nil => intro emergency h; simp at h
  | cons head rest ih =>
    intro emergency h
    by_cases hh : head.id = emergencyId
    · have hfound : head = emergency := by
        simpa [List.find?, hh] using h
      subst hfound
      have hc : (change head).id = emergencyId := by rw [hid, hh]
      simp [updateFirst, hh, List.find?, hc]
    · have hrest : rest.find? (fun other => decide (other.id = emergencyId)) = some emergency := by
        simpa [List.find?, hh] using h
      simp [updateFirst, hh, List.find?, ih emergency hrest]

/-- Nothing is written when the emergency is not found, and when it is found
but no available ambulance is at a distance that is a number. -/
theorem findNearestAmbulance_none_in_reach (calculateDistance : Location → Location → Option ℚ)
    (m : EmergencyModule) (emergencyId : String)
    (h : ∀ emergency : Emergency,
      m.activeEmergencies.find? (fun other => decide (other.id = emergencyId)) =
        some emergency →
      ∀ ambulance ∈ m.ambulances, isAvailable ambulance = true →
        calculateDistance emergency.location ambulance.location = none) :
    findNearestAmbulance calculateDistance m emergencyId = m := by
  unfold findNearestAmbulance
  cases hfind : m.activeEmergencies.find? fun emergency => decide (emergency.id = emergencyId) with
  | none => rfl
  | some emergency =>
    simp only []
    split
    · rfl
    · rcases nearestScan_start
        (m.ambulances.map fun ambulance =>
          if isAvailable ambulance then
            calculateDistance emergency.location ambulance.location
          else none) with
        ⟨hres, -⟩ | ⟨index, v, hi, -, -, -⟩
      · rw [hres]
      · rw [List.getElem?_map] at hi
        cases hget : m.ambulances[index]? with
        | none => rw [hget] at hi; simp at hi
        | some ambulance =>
          rw [hget] at hi
          have hmem : ambulance ∈ m.ambulances := List.mem_iff_getElem?.mpr ⟨index, hget⟩
          by_cases hav : isAvailable ambulance = true
          · have := h emergency hfind ambulance hmem hav
            simp [hav, this] at hi
          · simp [hav] at hi

/-- C27, refuted as stated: the emergency is at `southPoint` and the only
ambulance, whose status is `available`, at `northPoint`, almost opposite;
`calculateDistance` is `NaN` there, the test `distance < nearestDistance`
fails, `nearestAmbulance` stays `null`, and nothing is dispatched although an
ambulance is available. -/
theorem findNearestAmbulance_passes_over_nan_distance :
    (∃ ambulance ∈ polarModule.ambulances, ambulance.status = "available") ∧
    (polarModule.activeEmergencies.find? fun other => decide (other.id = "EMG-1")).isSome =
      true ∧
    calculateDistance polarDoubles southPoint northPoint = none ∧
    findNearestAmbulance (calculateDistance polarDoubles) polarModule "EMG-1" = polarModule := by
  have hnan : calculateDistance polarDoubles southPoint northPoint = none := by
    simp [calculateDistance, polarDoubles, southPoint, northPoint]
    norm_num
  refine ⟨⟨{ id := "AMB-1", status := "available", location := northPoint },
    by simp [polarModule], rfl⟩, by simp [polarModule], hnan, ?_⟩
  apply findNearestAmbulance_none_in_reach
  intro emergency hfind ambulance hmem _
  have he : emergency.location = southPoint := by
    simp [polarModule] at hfind
    rw [← hfind]
  have ha : ambulance.location = northPoint := by
    simp [polarModule] at hmem
    rw [hmem]
  rw [he, ha]
  exact hnan

theorem isAvailable_iff (ambulance : Ambulance) :
    isAvailable ambulance = true ↔
      ambulance.status = "available" ∨ ambulance.status = "on_duty" := by
  simp [isAvailable]

/-- C27, amended: when the emergency exists and at least one ambulance with
status `available` or `on_duty` is at a distance from it that is a number,
`findNearestAmbulance` dispatches one of those ambulances: none of them is
nearer to the emergency by `calculateDistance`, and those before it in the
list are strictly farther (the first wins a tie); its status becomes
`dispatched` and every other ambulance is unchanged; the emergency gets its id
and the status `dispatched`.  When no ambulance is available, or the distance
of every available one is `NaN`, the module is unchanged. -/
theorem findNearestAmbulance_dispatches_nearest
    (calculateDistance : Location → Location → Option ℚ) (m : EmergencyModule)
    (emergencyId : String) :
    (∀ emergency : Emergency,
      m.activeEmergencies.find? (fun other => decide (other.id = emergencyId)) =
        some emergency →
      (∃ ambulance ∈ m.ambulances,
        (ambulance.status = "available" ∨ ambulance.status = "on_duty") ∧
        calculateDistance emergency.location ambulance.location ≠ none) →
      ∃ (index : Nat) (nearestAmbulance : Ambulance) (nearestDistance : ℚ),
        m.ambulances[index]? = some nearestAmbulance ∧
        (nearestAmbulance.status = "available" ∨ nearestAmbulance.status = "on_duty") ∧
        calculateDistance emergency.location nearestAmbulance.location = some nearestDistance ∧
        (∀ (j : Nat) (other : Ambulance) (distance : ℚ),
          m.ambulances[j]? = some other →
          (other.status = "available" ∨ other.status = "on_duty") →
          calculateDistance emergency.location other.location = some distance →
          nearestDistance ≤ distance ∧ (j < index → nearestDistance < distance)) ∧
        (findNearestAmbulance calculateDistance m emergencyId).ambulances =
          m.ambulances.set index { nearestAmbulance with status := "dispatched" } ∧
        (∀ j : Nat, j ≠ index →
          (findNearestAmbulance calculateDistance m emergencyId).ambulances[j]? =
            m.ambulances[j]?) ∧
        (findNearestAmbulance calculateDistance m emergencyId).activeEmergencies.find?
          (fun other => decide (other.id = emergencyId)) =
          some
            { emergency with
              ambulanceId := some nearestAmbulance.id
              status := "dispatched"
              distance := some nearestDistance
              eta := some (Int.ceil (nearestDistance * 3)) }) ∧
    ((∀ emergency : Emergency,
      m.activeEmergencies.find? (fun other => decide (other.id = emergencyId)) =
        some emergency →
      ∀ ambulance ∈ m.ambulances,
        (ambulance.status = "available" ∨ ambulance.status = "on_duty") →
        calculateDistance emergency.location ambulance.location = none) →
      findNearestAmbulance calculateDistance m emergencyId = m) := by
  refine ⟨fun emergency hfind hav => ?_, fun h =>
    findNearestAmbulance_none_in_reach calculateDistance m emergencyId
      fun emergency hfind ambulance hmem ha =>
        h emergency hfind ambulance hmem ((isAvailable_iff ambulance).mp ha)⟩
  obtain ⟨available, hmem, hstatus, hnum⟩ := hav
  have havail : isAvailable available = true := (isAvailable_iff available).mpr hstatus
  obtain ⟨reach, hreach⟩ := Option.ne_none_iff_exists'.mp hnum
  have hfilter : (m.ambulances.filter isAvailable).length ≠ 0 := by
    intro h0
    have hnil : m.ambulances.filter isAvailable = [] := List.length_eq_zero.mp h0
    have : available ∈ m.ambulances.filter isAvailable := List.mem_filter.mpr ⟨hmem, havail⟩
    rw [hnil] at this
    exact absurd this (List.not_mem_nil _)
  have hdist : ∀ (j : Nat) (other : Ambulance), m.ambulances[j]? = some other →
      (m.ambulances.map fun ambulance =>
        if isAvailable ambulance then
          calculateDistance emergency.location ambulance.location
        else none)[j]? =
        some (if isAvailable other then
          calculateDistance emergency.location other.location else none) := by
    intro j other hj
    rw [List.getElem?_map, hj]
    rfl
  rcases nearestScan_start
    (m.ambulances.map fun ambulance =>
      if isAvailable ambulance then
        calculateDistance emergency.location ambulance.location
      else none) with
    ⟨-, hnone⟩ | ⟨index, v, hi, hres, hbefore, hmin⟩
  · obtain ⟨j, hj⟩ := List.mem_iff_getElem?.mp hmem
    have := hdist j available hj
    rw [havail, if_pos rfl, hreach] at this
    exact absurd this (hnone j _)
  · obtain ⟨hlt, -⟩ := List.getElem?_eq_some.mp hi
    have hlt' : index < m.ambulances.length := by simpa using hlt
    have hget : m.ambulances[index]? = some m.ambulances[index] := List.getElem?_eq_getElem hlt'
    have hself := hdist index _ hget
    rw [hi] at hself
    have hav' : isAvailable m.ambulances[index] = true := by
      by_contra hc
      simp [hc] at hself
    have hv : calculateDistance emergency.location m.ambulances[index].location = some v := by
      simpa [hav'] using hself.symm
    have hresult : findNearestAmbulance calculateDistance m emergencyId =
        { ambulances := m.ambulances.set index { m.ambulances[index] with status := "dispatched" }
          activeEmergencies :=
            updateFirst (fun other => decide (other.id = emergencyId))
              (dispatchTo m.ambulances[index] v) m.activeEmergencies } := by
      unfold findNearestAmbulance
      simp only [hfind, hfilter, if_false, hres, hget]
    refine ⟨index, m.ambulances[index], v, hget, (isAvailable_iff _).mp hav', hv,
      fun j other distance hj hoa hd => ?_, ?_, fun j hne => ?_, ?_⟩
    · have hother := hdist j other hj
      rw [(isAvailable_iff other).mpr hoa, if_pos rfl, hd] at hother
      exact ⟨hmin j _ hother, fun hji => hbefore j _ hji hother⟩
    · rw [hresult]
    · rw [hresult]
      exact List.getElem?_set_ne (Ne.symm hne)
    · rw [hresult]
      exact find?_updateFirst_id emergencyId (dispatchTo m.ambulances[index] v) (fun _ => rfl)
        m.activeEmergencies emergency hfind

/-- C27 on a module with one emergency and two free ambulances: the nearer of
the two, `AMB-3`, is dispatched; and with the busy ambulance alone nothing
changes. -/
theorem findNearestAmbulance_dispatches_nearest_witness :
    cityModule.activeEmergencies.find? (fun other => decide (other.id = "EMG-1")) =
      some reportedEmergency ∧
    (∃ ambulance ∈ cityModule.ambulances,
      (ambulance.status = "available" ∨ ambulance.status = "on_duty") ∧
      planeDistance reportedEmergency.location ambulance.location ≠ none) ∧
    (∃ (index : Nat) (nearestAmbulance : Ambulance),
      cityModule.ambulances[index]? = some nearestAmbulance ∧
      (nearestAmbulance.status = "available" ∨ nearestAmbulance.status = "on_duty") ∧
      (findNearestAmbulance planeDistance cityModule "EMG-1").ambulances =
        cityModule.ambulances.set index { nearestAmbulance with status := "dispatched" }) ∧
    (findNearestAmbulance planeDistance cityModule "EMG-1").ambulances.map
      (fun ambulance => (ambulance.id, ambulance.status)) =
      [("AMB-1", "busy"), ("AMB-2", "available"), ("AMB-3", "dispatched")] ∧
    findNearestAmbulance planeDistance
      { cityModule with ambulances := cityModule.ambulances.take 1 } "EMG-1" =
      { cityModule with ambulances := cityModule.ambulances.take 1 } :=
  ⟨rfl,
    ⟨{ id := "AMB-2", status := "available", location := { lat := 22, lng := 78 } },
      by simp [cityModule], by decide, by simp [planeDistance]⟩,
    (let ⟨index, nearestAmbulance, _, h1, h2, _, _, h5, _⟩ :=
      (findNearestAmbulance_dispatches_nearest planeDistance cityModule "EMG-1").1
        reportedEmergency rfl
        ⟨{ id := "AMB-2", status := "available", location := { lat := 22, lng := 78 } },
          by simp [cityModule], by decide, by simp [planeDistance]⟩
     ⟨index, nearestAmbulance, h1, h2, h5⟩),
    by
      simp [findNearestAmbulance, cityModule, reportedEmergency, isAvailable, nearestScan,
        planeDistance, closer]
      norm_num [nearestScan, closer],
    (findNearestAmbulance_dispatches_nearest planeDistance
      { cityModule with ambulances := cityModule.ambulances.take 1 } "EMG-1").2
      (fun _ _ ambulance hmem hav => by
        simp [cityModule] at hmem
        rw [hmem] at hav
        exact absurd hav (by decide))⟩

end SmartRoads
